import Mathlib

/-!
# NEON depthwise convolution kernels and padding (`paddle/function/neon/NeonDepthwiseConv.h`)

A shallow embedding of the four `DepthwiseConvKernel<filterSize, stride>::run`
specialisations, of the scalar helpers `conv3x3` / `conv4x4` and of the two
`Padding::run` routines, together with proofs about them.

Modelling conventions.

* A buffer (`const float*` / `float*`) is a total function `Nat → α` from element
  offsets to values; a pointer into a buffer is a `Nat` offset.
* The element type `α` is abstract.  Definitions only use `0`, `+` and `*`;
  theorems stated "in exact arithmetic" assume a commutative semiring.
* The C `int` dimensions are non-negative, so they are `Nat`s; `int` arithmetic is
  taken not to overflow (signed overflow is undefined behaviour in C).
* A C `for (int i = 0; i < n; i++) body` is `forLoop n body`; the loop-carried
  variables are the fields of a state record.
* Loads never fail on a total buffer.  The offsets a kernel loads are recorded
  separately (`inputLoads`, `filterLoads`) and compared with the buffer lengths by
  `runChecked`; the offsets written are recorded in the same way (`outputStores`,
  `Padding.stores`).
* Summation order is studied on `SymValue`, the expression trees of the computed
  values.
-/

namespace paddle.neon

/-! ## Loops -/

/-- The loop `for (int i = 0; i < n; i++) s = body i s`, run from state `s`. -/
def forLoop {σ : Type} : Nat → (Nat → σ → σ) → σ → σ
  | 0, _, s => s
  | n + 1, body, s => body n (forLoop n body s)

/-! ## Vector registers and intrinsics -/

/-- A 128-bit register of four lanes (`float32x4_t`). -/
structure float32x4_t (α : Type) where
  l0 : α
  l1 : α
  l2 : α
  l3 : α
deriving DecidableEq, Repr

/-- A pair of registers (`float32x4x2_t`), as produced by `vld2q_f32`. -/
structure float32x4x2_t (α : Type) where
  val0 : float32x4_t α
  val1 : float32x4_t α
deriving DecidableEq, Repr

section Intrinsics

variable {α : Type}

/-- Lane `n` of a register (`vgetq_lane_f32`); lanes are numbered `0..3`. -/
def vgetq_lane_f32 (v : float32x4_t α) (n : Nat) : α :=
  match n with
  | 0 => v.l0
  | 1 => v.l1
  | 2 => v.l2
  | _ => v.l3

/-- Replace lane `n` of `v` by `x` (`vsetq_lane_f32`). -/
def vsetq_lane_f32 (x : α) (v : float32x4_t α) (n : Nat) : float32x4_t α :=
  match n with
  | 0 => { v with l0 := x }
  | 1 => { v with l1 := x }
  | 2 => { v with l2 := x }
  | _ => { v with l3 := x }

/-- Load four consecutive elements starting at offset `p` (`vld1q_f32`). -/
def vld1q_f32 (mem : Nat → α) (p : Nat) : float32x4_t α :=
  ⟨mem p, mem (p + 1), mem (p + 2), mem (p + 3)⟩

/-- Load eight consecutive elements starting at offset `p` and de-interleave them:
`val0` receives the even ones, `val1` the odd ones (`vld2q_f32`). -/
def vld2q_f32 (mem : Nat → α) (p : Nat) : float32x4x2_t α :=
  ⟨⟨mem p, mem (p + 2), mem (p + 4), mem (p + 6)⟩,
   ⟨mem (p + 1), mem (p + 3), mem (p + 5), mem (p + 7)⟩⟩

/-- Store the four lanes of `v` at offsets `p .. p + 3` (`vst1q_f32`). -/
def vst1q_f32 (mem : Nat → α) (p : Nat) (v : float32x4_t α) : Nat → α :=
  fun idx =>
    if idx = p then v.l0
    else if idx = p + 1 then v.l1
    else if idx = p + 2 then v.l2
    else if idx = p + 3 then v.l3
    else mem idx

/-- The scalar store `*p = x`. -/
def store (mem : Nat → α) (p : Nat) (x : α) : Nat → α :=
  fun idx => if idx = p then x else mem idx

/-- Extract four lanes from the concatenation of `a` and `b`, starting at lane `n`
of `a` (`vextq_f32`). -/
def vextq_f32 (a b : float32x4_t α) (n : Nat) : float32x4_t α :=
  match n with
  | 0 => a
  | 1 => ⟨a.l1, a.l2, a.l3, b.l0⟩
  | 2 => ⟨a.l2, a.l3, b.l0, b.l1⟩
  | _ => ⟨a.l3, b.l0, b.l1, b.l2⟩

/-- All four lanes equal to `x` (`vdupq_n_f32`). -/
def vdupq_n_f32 (x : α) : float32x4_t α := ⟨x, x, x, x⟩

/-- Lane-wise sum (`vaddq_f32`). -/
def vaddq_f32 [Add α] (a b : float32x4_t α) : float32x4_t α :=
  ⟨a.l0 + b.l0, a.l1 + b.l1, a.l2 + b.l2, a.l3 + b.l3⟩

/-- Lane-wise product (`vmulq_f32`). -/
def vmulq_f32 [Mul α] (a b : float32x4_t α) : float32x4_t α :=
  ⟨a.l0 * b.l0, a.l1 * b.l1, a.l2 * b.l2, a.l3 * b.l3⟩

/-- Lane-wise multiply-accumulate `a + b * c` (`vmlaq_f32`). -/
def vmlaq_f32 [Add α] [Mul α] (a b c : float32x4_t α) : float32x4_t α :=
  ⟨a.l0 + b.l0 * c.l0, a.l1 + b.l1 * c.l1, a.l2 + b.l2 * c.l2, a.l3 + b.l3 * c.l3⟩

/-- Modelled from the spec: `neon_util.h` is not among the sources; this is its
multiply-accumulate by one lane, `a + b * v[lane]` in every lane
(`vmlaq_laneq_f32`), one of the "named primitives" of the design notes. -/
def vmlaq_laneq_f32 [Add α] [Mul α] (a b v : float32x4_t α) (lane : Nat) : float32x4_t α :=
  ⟨a.l0 + b.l0 * vgetq_lane_f32 v lane, a.l1 + b.l1 * vgetq_lane_f32 v lane,
   a.l2 + b.l2 * vgetq_lane_f32 v lane, a.l3 + b.l3 * vgetq_lane_f32 v lane⟩

/-- Modelled from the spec: `neon_util.h` is not among the sources; this is its
horizontal sum of the four lanes (`vaddvq_f32`), added pairwise. -/
def vaddvq_f32 [Add α] (a : float32x4_t α) : α :=
  (a.l0 + a.l1) + (a.l2 + a.l3)

end Intrinsics

/-! ## Scalar window helpers -/

section Helpers

variable {α : Type} [Add α] [Mul α]

/-- The helper `conv3x3`: the dot product of three rows with three filter rows. -/
def conv3x3 (r0 r1 r2 k0 k1 k2 : float32x4_t α) : α :=
  let tmp := vmulq_f32 r0 k0
  let tmp := vmlaq_f32 tmp r1 k1
  let tmp := vmlaq_f32 tmp r2 k2
  vaddvq_f32 tmp

/-- The helper `conv4x4`: the dot product of four rows with four filter rows. -/
def conv4x4 (r0 r1 r2 r3 k0 k1 k2 k3 : float32x4_t α) : α :=
  let tmp := vmulq_f32 r0 k0
  let tmp := vmlaq_f32 tmp r1 k1
  let tmp := vmlaq_f32 tmp r2 k2
  let tmp := vmlaq_f32 tmp r3 k3
  vaddvq_f32 tmp

end Helpers

/-! ## Kernel state -/

/-- The loop-carried variables of the row and column loops of a 3x3 kernel:
the three row pointers, the output pointer and the output buffer. -/
structure State3 (α : Type) where
  r0 : Nat
  r1 : Nat
  r2 : Nat
  outputData : Nat
  output : Nat → α

/-- The loop-carried variables of the row and column loops of a 4x4 kernel. -/
structure State4 (α : Type) where
  r0 : Nat
  r1 : Nat
  r2 : Nat
  r3 : Nat
  outputData : Nat
  output : Nat → α

/-- The loop-carried variables of the channel loop: the filter pointer, the
output pointer and the output buffer. -/
structure ChannelState (α : Type) where
  filterData : Nat
  outputData : Nat
  output : Nat → α

/-- The three filter registers `k[0..2]` of a 3x3 kernel. -/
structure Filter3 (α : Type) where
  k0 : float32x4_t α
  k1 : float32x4_t α
  k2 : float32x4_t α

/-- The four filter registers `k[0..3]` of a 4x4 kernel. -/
structure Filter4 (α : Type) where
  k0 : float32x4_t α
  k1 : float32x4_t α
  k2 : float32x4_t α
  k3 : float32x4_t α

section Kernels

variable {α : Type} [Zero α] [Add α] [Mul α]

/-- The filter load of the 3x3 kernels: three overlapping 4-lane loads at
`filterData`, `filterData + 3`, `filterData + 6`, each with lane 3 cleared. -/
def loadFilter3 (filter : Nat → α) (filterData : Nat) : Filter3 α :=
  let k0 := vld1q_f32 filter filterData
  let k1 := vld1q_f32 filter (filterData + 3)
  let k2 := vld1q_f32 filter (filterData + 6)
  let k0 := vsetq_lane_f32 0 k0 3
  let k1 := vsetq_lane_f32 0 k1 3
  let k2 := vsetq_lane_f32 0 k2 3
  ⟨k0, k1, k2⟩

/-- The filter load of the 4x4 kernels: four 4-lane loads. -/
def loadFilter4 (filter : Nat → α) (filterData : Nat) : Filter4 α :=
  let k0 := vld1q_f32 filter filterData
  let k1 := vld1q_f32 filter (filterData + 4)
  let k2 := vld1q_f32 filter (filterData + 8)
  let k3 := vld1q_f32 filter (filterData + 12)
  ⟨k0, k1, k2, k3⟩

/-- The nine multiply-accumulates of a 3x3 bulk step over the shifted windows
`input[i][j]`, split over the two accumulators `tmp1`, `tmp2`, then combined. -/
def accumulate3 (k : Filter3 α)
    (input00 input01 input02 input10 input11 input12 input20 input21 input22 : float32x4_t α) :
    float32x4_t α :=
  let tmp1 := vdupq_n_f32 (0 : α)
  let tmp2 := vdupq_n_f32 (0 : α)
  let tmp1 := vmlaq_laneq_f32 tmp1 input00 k.k0 0
  let tmp2 := vmlaq_laneq_f32 tmp2 input01 k.k0 1
  let tmp1 := vmlaq_laneq_f32 tmp1 input02 k.k0 2
  let tmp2 := vmlaq_laneq_f32 tmp2 input10 k.k1 0
  let tmp1 := vmlaq_laneq_f32 tmp1 input11 k.k1 1
  let tmp2 := vmlaq_laneq_f32 tmp2 input12 k.k1 2
  let tmp1 := vmlaq_laneq_f32 tmp1 input20 k.k2 0
  let tmp2 := vmlaq_laneq_f32 tmp2 input21 k.k2 1
  let tmp1 := vmlaq_laneq_f32 tmp1 input22 k.k2 2
  vaddq_f32 tmp1 tmp2

/-- The sixteen multiply-accumulates of a 4x4 bulk step over the shifted windows
`input[i][j]`, split over the two accumulators `tmp1`, `tmp2`, then combined. -/
def accumulate4 (k : Filter4 α)
    (input00 input01 input02 input03 input10 input11 input12 input13
     input20 input21 input22 input23 input30 input31 input32 input33 : float32x4_t α) :
    float32x4_t α :=
  let tmp1 := vdupq_n_f32 (0 : α)
  let tmp2 := vdupq_n_f32 (0 : α)
  let tmp1 := vmlaq_laneq_f32 tmp1 input00 k.k0 0
  let tmp2 := vmlaq_laneq_f32 tmp2 input01 k.k0 1
  let tmp1 := vmlaq_laneq_f32 tmp1 input02 k.k0 2
  let tmp2 := vmlaq_laneq_f32 tmp2 input03 k.k0 3
  let tmp1 := vmlaq_laneq_f32 tmp1 input10 k.k1 0
  let tmp2 := vmlaq_laneq_f32 tmp2 input11 k.k1 1
  let tmp1 := vmlaq_laneq_f32 tmp1 input12 k.k1 2
  let tmp2 := vmlaq_laneq_f32 tmp2 input13 k.k1 3
  let tmp1 := vmlaq_laneq_f32 tmp1 input20 k.k2 0
  let tmp2 := vmlaq_laneq_f32 tmp2 input21 k.k2 1
  let tmp1 := vmlaq_laneq_f32 tmp1 input22 k.k2 2
  let tmp2 := vmlaq_laneq_f32 tmp2 input23 k.k2 3
  let tmp1 := vmlaq_laneq_f32 tmp1 input30 k.k3 0
  let tmp2 := vmlaq_laneq_f32 tmp2 input31 k.k3 1
  let tmp1 := vmlaq_laneq_f32 tmp1 input32 k.k3 2
  let tmp2 := vmlaq_laneq_f32 tmp2 input33 k.k3 3
  vaddq_f32 tmp1 tmp2

/-- The scalar remainder value of the 3x3 kernels at row pointers `r0 r1 r2`. -/
def remainValue3 (inputData : Nat → α) (k : Filter3 α) (r0 r1 r2 : Nat) : α :=
  let i0 := vld1q_f32 inputData r0
  let i1 := vld1q_f32 inputData r1
  let i2 := vld1q_f32 inputData r2
  conv3x3 i0 i1 i2 k.k0 k.k1 k.k2

/-- The scalar remainder value of the 4x4 kernels at row pointers `r0 .. r3`. -/
def remainValue4 (inputData : Nat → α) (k : Filter4 α) (r0 r1 r2 r3 : Nat) : α :=
  let i0 := vld1q_f32 inputData r0
  let i1 := vld1q_f32 inputData r1
  let i2 := vld1q_f32 inputData r2
  let i3 := vld1q_f32 inputData r3
  conv4x4 i0 i1 i2 i3 k.k0 k.k1 k.k2 k.k3

/-! ## `DepthwiseConvKernel<3, 1>` -/

namespace DepthwiseConvKernel_3_1

/-- The vector stored by one step of the bulk loop, started at row pointers
`r0 r1 r2`: the loads, the shifted windows and the accumulation. -/
def bulkVector (inputData : Nat → α) (k : Filter3 α) (r0 r1 r2 : Nat) : float32x4_t α :=
  let input00 := vld1q_f32 inputData r0
  let tmp := vld1q_f32 inputData (r0 + 4)
  let input01 := vextq_f32 input00 tmp 1
  let input02 := vextq_f32 input00 tmp 2
  let input10 := vld1q_f32 inputData r1
  let tmp := vld1q_f32 inputData (r1 + 4)
  let input11 := vextq_f32 input10 tmp 1
  let input12 := vextq_f32 input10 tmp 2
  let input20 := vld1q_f32 inputData r2
  let tmp := vld1q_f32 inputData (r2 + 4)
  let input21 := vextq_f32 input20 tmp 1
  let input22 := vextq_f32 input20 tmp 2
  accumulate3 k input00 input01 input02 input10 input11 input12 input20 input21 input22

/-- One iteration of the bulk loop `for (int s = 0; s < steps; s++)`. -/
def bulkStep (inputData : Nat → α) (k : Filter3 α) (st : State3 α) : State3 α :=
  let tmp1 := bulkVector inputData k st.r0 st.r1 st.r2
  { r0 := st.r0 + 4, r1 := st.r1 + 4, r2 := st.r2 + 4,
    outputData := st.outputData + 4,
    output := vst1q_f32 st.output st.outputData tmp1 }

/-- One iteration of the remainder loop `for (int r = 0; r < remain; r++)`. -/
def remainStep (inputData : Nat → α) (k : Filter3 α) (st : State3 α) : State3 α :=
  { r0 := st.r0 + 1, r1 := st.r1 + 1, r2 := st.r2 + 1,
    outputData := st.outputData + 1,
    output := store st.output st.outputData (remainValue3 inputData k st.r0 st.r1 st.r2) }

/-- One iteration of the row loop `for (int h = 0; h < outputHeight; h++)`. -/
def rowBody (inputData : Nat → α) (k : Filter3 α) (steps remain : Nat) (st : State3 α) :
    State3 α :=
  let st := forLoop steps (fun _ st => bulkStep inputData k st) st
  let st := forLoop remain (fun _ st => remainStep inputData k st) st
  { st with r0 := st.r0 + 2, r1 := st.r1 + 2, r2 := st.r2 + 2 }

/-- One iteration of the channel loop
`for (int c = 0; c < outputChannels; c++, filterData += 9)`. -/
def channelBody (inputData filterData : Nat → α)
    (inputHeight inputWidth outputHeight steps remain filterMultiplier : Nat)
    (c : Nat) (cs : ChannelState α) : ChannelState α :=
  let k := loadFilter3 filterData cs.filterData
  let r0 := (c / filterMultiplier) * (inputHeight * inputWidth)
  let r1 := r0 + inputWidth
  let r2 := r0 + inputWidth * 2
  let st := forLoop outputHeight (fun _ st => rowBody inputData k steps remain st)
    ⟨r0, r1, r2, cs.outputData, cs.output⟩
  ⟨cs.filterData + 9, st.outputData, st.output⟩

/-- The kernel `DepthwiseConvKernel<3, 1>::run`; the result is the output buffer after
the call, `outputData` being the buffer before it. -/
def run (inputData filterData : Nat → α)
    (inputHeight inputWidth outputChannels outputHeight outputWidth filterMultiplier : Nat)
    (outputData : Nat → α) : Nat → α :=
  let steps := outputWidth >>> 2
  let remain := outputWidth &&& 3
  (forLoop outputChannels
    (channelBody inputData filterData inputHeight inputWidth outputHeight steps remain
      filterMultiplier)
    ⟨0, 0, outputData⟩).output

end DepthwiseConvKernel_3_1

/-! ## `DepthwiseConvKernel<3, 2>` -/

namespace DepthwiseConvKernel_3_2

/-- The vector stored by one step of the bulk loop, started at row pointers
`r0 r1 r2`: the de-interleaving loads, the shifted windows and the accumulation. -/
def bulkVector (inputData : Nat → α) (k : Filter3 α) (r0 r1 r2 : Nat) : float32x4_t α :=
  let data2 := vld2q_f32 inputData r0
  let input00 := data2.val0
  let input01 := data2.val1
  let data1 := vld1q_f32 inputData (r0 + 8)
  let input02 := vextq_f32 data2.val0 data1 1
  let data2 := vld2q_f32 inputData r1
  let input10 := data2.val0
  let input11 := data2.val1
  let data1 := vld1q_f32 inputData (r1 + 8)
  let input12 := vextq_f32 data2.val0 data1 1
  let data2 := vld2q_f32 inputData r2
  let input20 := data2.val0
  let input21 := data2.val1
  let data1 := vld1q_f32 inputData (r2 + 8)
  let input22 := vextq_f32 data2.val0 data1 1
  accumulate3 k input00 input01 input02 input10 input11 input12 input20 input21 input22

/-- One iteration of the bulk loop `for (int s = 0; s < steps; s++)`. -/
def bulkStep (inputData : Nat → α) (k : Filter3 α) (st : State3 α) : State3 α :=
  let tmp1 := bulkVector inputData k st.r0 st.r1 st.r2
  { r0 := st.r0 + 8, r1 := st.r1 + 8, r2 := st.r2 + 8,
    outputData := st.outputData + 4,
    output := vst1q_f32 st.output st.outputData tmp1 }

/-- One iteration of the remainder loop `for (int r = 0; r < remain; r++)`. -/
def remainStep (inputData : Nat → α) (k : Filter3 α) (st : State3 α) : State3 α :=
  { r0 := st.r0 + 2, r1 := st.r1 + 2, r2 := st.r2 + 2,
    outputData := st.outputData + 1,
    output := store st.output st.outputData (remainValue3 inputData k st.r0 st.r1 st.r2) }

/-- One iteration of the row loop `for (int h = 0; h < outputHeight; h++)`; the row
pointers are recomputed from `start` and `h`. -/
def rowBody (inputData : Nat → α) (k : Filter3 α) (start inputWidth steps remain : Nat)
    (h : Nat) (st : State3 α) : State3 α :=
  let st := { st with r0 := start + 2 * h * inputWidth,
                      r1 := start + (2 * h + 1) * inputWidth,
                      r2 := start + (2 * h + 2) * inputWidth }
  let st := forLoop steps (fun _ st => bulkStep inputData k st) st
  forLoop remain (fun _ st => remainStep inputData k st) st

/-- One iteration of the channel loop
`for (int c = 0; c < outputChannels; c++, filterData += 9)`. -/
def channelBody (inputData filterData : Nat → α)
    (inputHeight inputWidth outputHeight steps remain filterMultiplier : Nat)
    (c : Nat) (cs : ChannelState α) : ChannelState α :=
  let k := loadFilter3 filterData cs.filterData
  let start := (c / filterMultiplier) * (inputHeight * inputWidth)
  let st := forLoop outputHeight (rowBody inputData k start inputWidth steps remain)
    ⟨start, start, start, cs.outputData, cs.output⟩
  ⟨cs.filterData + 9, st.outputData, st.output⟩

/-- The kernel `DepthwiseConvKernel<3, 2>::run`; the result is the output buffer after
the call, `outputData` being the buffer before it. -/
def run (inputData filterData : Nat → α)
    (inputHeight inputWidth outputChannels outputHeight outputWidth filterMultiplier : Nat)
    (outputData : Nat → α) : Nat → α :=
  let steps := outputWidth >>> 2
  let remain := outputWidth &&& 3
  (forLoop outputChannels
    (channelBody inputData filterData inputHeight inputWidth outputHeight steps remain
      filterMultiplier)
    ⟨0, 0, outputData⟩).output

end DepthwiseConvKernel_3_2

/-! ## `DepthwiseConvKernel<4, 1>` -/

namespace DepthwiseConvKernel_4_1

/-- The vector stored by one step of the bulk loop, started at row pointers
`r0 .. r3`: the loads, the shifted windows and the accumulation. -/
def bulkVector (inputData : Nat → α) (k : Filter4 α) (r0 r1 r2 r3 : Nat) : float32x4_t α :=
  let input00 := vld1q_f32 inputData r0
  let tmp := vld1q_f32 inputData (r0 + 4)
  let input01 := vextq_f32 input00 tmp 1
  let input02 := vextq_f32 input00 tmp 2
  let input03 := vextq_f32 input00 tmp 3
  let input10 := vld1q_f32 inputData r1
  let tmp := vld1q_f32 inputData (r1 + 4)
  let input11 := vextq_f32 input10 tmp 1
  let input12 := vextq_f32 input10 tmp 2
  let input13 := vextq_f32 input10 tmp 3
  let input20 := vld1q_f32 inputData r2
  let tmp := vld1q_f32 inputData (r2 + 4)
  let input21 := vextq_f32 input20 tmp 1
  let input22 := vextq_f32 input20 tmp 2
  let input23 := vextq_f32 input20 tmp 3
  let input30 := vld1q_f32 inputData r3
  let tmp := vld1q_f32 inputData (r3 + 4)
  let input31 := vextq_f32 input30 tmp 1
  let input32 := vextq_f32 input30 tmp 2
  let input33 := vextq_f32 input30 tmp 3
  accumulate4 k input00 input01 input02 input03 input10 input11 input12 input13
    input20 input21 input22 input23 input30 input31 input32 input33

/-- One iteration of the bulk loop `for (int s = 0; s < steps; s++)`. -/
def bulkStep (inputData : Nat → α) (k : Filter4 α) (st : State4 α) : State4 α :=
  let tmp1 := bulkVector inputData k st.r0 st.r1 st.r2 st.r3
  { r0 := st.r0 + 4, r1 := st.r1 + 4, r2 := st.r2 + 4, r3 := st.r3 + 4,
    outputData := st.outputData + 4,
    output := vst1q_f32 st.output st.outputData tmp1 }

/-- One iteration of the remainder loop `for (int r = 0; r < remain; r++)`. -/
def remainStep (inputData : Nat → α) (k : Filter4 α) (st : State4 α) : State4 α :=
  { r0 := st.r0 + 1, r1 := st.r1 + 1, r2 := st.r2 + 1, r3 := st.r3 + 1,
    outputData := st.outputData + 1,
    output := store st.output st.outputData
      (remainValue4 inputData k st.r0 st.r1 st.r2 st.r3) }

/-- One iteration of the row loop `for (int h = 0; h < outputHeight; h++)`. -/
def rowBody (inputData : Nat → α) (k : Filter4 α) (steps remain : Nat) (st : State4 α) :
    State4 α :=
  let st := forLoop steps (fun _ st => bulkStep inputData k st) st
  let st := forLoop remain (fun _ st => remainStep inputData k st) st
  { st with r0 := st.r0 + 3, r1 := st.r1 + 3, r2 := st.r2 + 3, r3 := st.r3 + 3 }

/-- One iteration of the channel loop
`for (int c = 0; c < outputChannels; c++, filterData += 16)`. -/
def channelBody (inputData filterData : Nat → α)
    (inputHeight inputWidth outputHeight steps remain filterMultiplier : Nat)
    (c : Nat) (cs : ChannelState α) : ChannelState α :=
  let k := loadFilter4 filterData cs.filterData
  let r0 := (c / filterMultiplier) * (inputHeight * inputWidth)
  let r1 := r0 + inputWidth
  let r2 := r0 + inputWidth * 2
  let r3 := r0 + inputWidth * 3
  let st := forLoop outputHeight (fun _ st => rowBody inputData k steps remain st)
    ⟨r0, r1, r2, r3, cs.outputData, cs.output⟩
  ⟨cs.filterData + 16, st.outputData, st.output⟩

/-- The kernel `DepthwiseConvKernel<4, 1>::run`; the result is the output buffer after
the call, `outputData` being the buffer before it. -/
def run (inputData filterData : Nat → α)
    (inputHeight inputWidth outputChannels outputHeight outputWidth filterMultiplier : Nat)
    (outputData : Nat → α) : Nat → α :=
  let steps := outputWidth >>> 2
  let remain := outputWidth &&& 3
  (forLoop outputChannels
    (channelBody inputData filterData inputHeight inputWidth outputHeight steps remain
      filterMultiplier)
    ⟨0, 0, outputData⟩).output

end DepthwiseConvKernel_4_1

/-! ## `DepthwiseConvKernel<4, 2>` -/

namespace DepthwiseConvKernel_4_2

/-- The vector stored by one step of the bulk loop, started at row pointers
`r0 .. r3`: the de-interleaving loads, the shifted windows and the accumulation. -/
def bulkVector (inputData : Nat → α) (k : Filter4 α) (r0 r1 r2 r3 : Nat) : float32x4_t α :=
  let data1 := vld2q_f32 inputData r0
  let data2 := vld2q_f32 inputData (r0 + 8)
  let input00 := data1.val0
  let input01 := data1.val1
  let input02 := vextq_f32 data1.val0 data2.val0 1
  let input03 := vextq_f32 data1.val1 data2.val1 1
  let data1 := vld2q_f32 inputData r1
  let data2 := vld2q_f32 inputData (r1 + 8)
  let input10 := data1.val0
  let input11 := data1.val1
  let input12 := vextq_f32 data1.val0 data2.val0 1
  let input13 := vextq_f32 data1.val1 data2.val1 1
  let data1 := vld2q_f32 inputData r2
  let data2 := vld2q_f32 inputData (r2 + 8)
  let input20 := data1.val0
  let input21 := data1.val1
  let input22 := vextq_f32 data1.val0 data2.val0 1
  let input23 := vextq_f32 data1.val1 data2.val1 1
  let data1 := vld2q_f32 inputData r3
  let data2 := vld2q_f32 inputData (r3 + 8)
  let input30 := data1.val0
  let input31 := data1.val1
  let input32 := vextq_f32 data1.val0 data2.val0 1
  let input33 := vextq_f32 data1.val1 data2.val1 1
  accumulate4 k input00 input01 input02 input03 input10 input11 input12 input13
    input20 input21 input22 input23 input30 input31 input32 input33

/-- One iteration of the bulk loop `for (int s = 0; s < steps; s++)`. -/
def bulkStep (inputData : Nat → α) (k : Filter4 α) (st : State4 α) : State4 α :=
  let tmp1 := bulkVector inputData k st.r0 st.r1 st.r2 st.r3
  { r0 := st.r0 + 8, r1 := st.r1 + 8, r2 := st.r2 + 8, r3 := st.r3 + 8,
    outputData := st.outputData + 4,
    output := vst1q_f32 st.output st.outputData tmp1 }

/-- One iteration of the remainder loop `for (int r = 0; r < remain; r++)`. -/
def remainStep (inputData : Nat → α) (k : Filter4 α) (st : State4 α) : State4 α :=
  { r0 := st.r0 + 2, r1 := st.r1 + 2, r2 := st.r2 + 2, r3 := st.r3 + 2,
    outputData := st.outputData + 1,
    output := store st.output st.outputData
      (remainValue4 inputData k st.r0 st.r1 st.r2 st.r3) }

/-- One iteration of the row loop `for (int h = 0; h < outputHeight; h++)`; the row
pointers are recomputed from `start` and `h`. -/
def rowBody (inputData : Nat → α) (k : Filter4 α) (start inputWidth steps remain : Nat)
    (h : Nat) (st : State4 α) : State4 α :=
  let st := { st with r0 := start + 2 * h * inputWidth,
                      r1 := start + (2 * h + 1) * inputWidth,
                      r2 := start + (2 * h + 2) * inputWidth,
                      r3 := start + (2 * h + 3) * inputWidth }
  let st := forLoop steps (fun _ st => bulkStep inputData k st) st
  forLoop remain (fun _ st => remainStep inputData k st) st

/-- One iteration of the channel loop
`for (int c = 0; c < outputChannels; c++, filterData += 16)`. -/
def channelBody (inputData filterData : Nat → α)
    (inputHeight inputWidth outputHeight steps remain filterMultiplier : Nat)
    (c : Nat) (cs : ChannelState α) : ChannelState α :=
  let k := loadFilter4 filterData cs.filterData
  let start := (c / filterMultiplier) * (inputHeight * inputWidth)
  let st := forLoop outputHeight (rowBody inputData k start inputWidth steps remain)
    ⟨start, start, start, start, cs.outputData, cs.output⟩
  ⟨cs.filterData + 16, st.outputData, st.output⟩

/-- The kernel `DepthwiseConvKernel<4, 2>::run`; the result is the output buffer after
the call, `outputData` being the buffer before it. -/
def run (inputData filterData : Nat → α)
    (inputHeight inputWidth outputChannels outputHeight outputWidth filterMultiplier : Nat)
    (outputData : Nat → α) : Nat → α :=
  let steps := outputWidth >>> 2
  let remain := outputWidth &&& 3
  (forLoop outputChannels
    (channelBody inputData filterData inputHeight inputWidth outputHeight steps remain
      filterMultiplier)
    ⟨0, 0, outputData⟩).output

end DepthwiseConvKernel_4_2

end Kernels

/-! ## `Padding` -/

/-- The loop-carried variables of `Padding::run`: the source pointer, the destination
pointer and the destination buffer. -/
structure PaddingState (α : Type) where
  src : Nat
  dest : Nat
  destData : Nat → α

section PaddingDefs

variable {α : Type} [Zero α]

/-- The call `memset(p, 0, n * sizeof(T))`: the `n` elements from offset `p` on become
zero. -/
def memset (mem : Nat → α) (p n : Nat) : Nat → α :=
  fun idx => if p ≤ idx ∧ idx < p + n then 0 else mem idx

/-- The call `memcpy(p, q, n * sizeof(T))` from the buffer `src` into the disjoint
buffer `mem`: `n` elements from offset `q` of `src` go to offset `p` of `mem`. -/
def memcpy (mem : Nat → α) (p : Nat) (src : Nat → α) (q n : Nat) : Nat → α :=
  fun idx => if p ≤ idx ∧ idx < p + n then src (q + (idx - p)) else mem idx

/-- The statement `*dest++ = T(0)` of the head and tail loops. -/
def zeroStep (st : PaddingState α) : PaddingState α :=
  { st with dest := st.dest + 1, destData := store st.destData st.dest 0 }

/-- The guarded halo fill
`if (paddingHeight > 0) { memset(dest, 0, destWidth * paddingHeight * sizeof(T));
dest += destWidth * paddingHeight; }`. -/
def haloRows (destWidth paddingHeight : Nat) (st : PaddingState α) : PaddingState α :=
  if paddingHeight > 0 then
    { st with dest := st.dest + destWidth * paddingHeight,
              destData := memset st.destData st.dest (destWidth * paddingHeight) }
  else st

namespace Padding

/-- One iteration of the row loop `for (int i = 0; i < inputHeight; i++)` of the
generic `Padding<T>::run`: head zeros, `memcpy` of the row, tail zeros. -/
def rowBody (src : Nat → α) (inputWidth paddingWidth : Nat) (st : PaddingState α) :
    PaddingState α :=
  let st := forLoop paddingWidth (fun _ st => zeroStep st) st
  let st := { src := st.src + inputWidth, dest := st.dest + inputWidth,
              destData := memcpy st.destData st.dest src st.src inputWidth }
  forLoop paddingWidth (fun _ st => zeroStep st) st

/-- One iteration of the channel loop `for (int c = 0; c < channels; c++)`. -/
def channelBody (src : Nat → α) (destWidth inputHeight inputWidth paddingHeight
    paddingWidth : Nat) (st : PaddingState α) : PaddingState α :=
  let st := haloRows destWidth paddingHeight st
  let st := forLoop inputHeight (fun _ st => rowBody src inputWidth paddingWidth st) st
  haloRows destWidth paddingHeight st

/-- The generic `Padding<T>::run`; the result is the buffer `dest` after the call. -/
def run (src dest : Nat → α)
    (channels inputHeight inputWidth paddingHeight paddingWidth : Nat) : Nat → α :=
  let destWidth := inputWidth + 2 * paddingWidth
  (forLoop channels
    (fun _ st => channelBody src destWidth inputHeight inputWidth paddingHeight paddingWidth st)
    ⟨0, 0, dest⟩).destData

end Padding

namespace Padding_float

/-- One iteration of the 4-wide copy loop `for (int s = 0; s < step; s++)`. -/
def copyStep (src : Nat → α) (st : PaddingState α) : PaddingState α :=
  let s0 := vld1q_f32 src st.src
  { src := st.src + 4, dest := st.dest + 4,
    destData := vst1q_f32 st.destData st.dest s0 }

/-- One iteration of the scalar copy loop `for (int r = 0; r < remain; r++)`:
`*dest++ = *src++`. -/
def remainStep (src : Nat → α) (st : PaddingState α) : PaddingState α :=
  { src := st.src + 1, dest := st.dest + 1,
    destData := store st.destData st.dest (src st.src) }

/-- One iteration of the row loop of the NEON `Padding<float>::run`: head zeros, the
4-wide copy loop, the scalar copy loop, tail zeros. -/
def rowBody (src : Nat → α) (inputWidth paddingWidth : Nat) (st : PaddingState α) :
    PaddingState α :=
  let st := forLoop paddingWidth (fun _ st => zeroStep st) st
  let step := inputWidth >>> 2
  let remain := inputWidth &&& 3
  let st := forLoop step (fun _ st => copyStep src st) st
  let st := forLoop remain (fun _ st => remainStep src st) st
  forLoop paddingWidth (fun _ st => zeroStep st) st

/-- One iteration of the channel loop `for (int c = 0; c < channels; c++)`. -/
def channelBody (src : Nat → α) (destWidth inputHeight inputWidth paddingHeight
    paddingWidth : Nat) (st : PaddingState α) : PaddingState α :=
  let st := haloRows destWidth paddingHeight st
  let st := forLoop inputHeight (fun _ st => rowBody src inputWidth paddingWidth st) st
  haloRows destWidth paddingHeight st

/-- The NEON specialisation `Padding<float>::run`; the result is the buffer `dest`
after the call. -/
def run (src dest : Nat → α)
    (channels inputHeight inputWidth paddingHeight paddingWidth : Nat) : Nat → α :=
  let destWidth := inputWidth + 2 * paddingWidth
  (forLoop channels
    (fun _ st => channelBody src destWidth inputHeight inputWidth paddingHeight paddingWidth st)
    ⟨0, 0, dest⟩).destData

end Padding_float

end PaddingDefs

/-! ## Loads performed by the kernels

The kernels above read their buffers through `vld1q_f32` / `vld2q_f32`.  The
definitions of this section record, loop by loop, the element offsets those loads
touch; `runChecked` is the kernel run with every load checked against the length of
its buffer. -/

/-- The element offsets read by `vld1q_f32` at offset `p`. -/
def vld1q_f32_offsets (p : Nat) : List Nat := [p, p + 1, p + 2, p + 3]

/-- The element offsets read by `vld2q_f32` at offset `p`. -/
def vld2q_f32_offsets (p : Nat) : List Nat :=
  [p, p + 1, p + 2, p + 3, p + 4, p + 5, p + 6, p + 7]

/-- A loop body paired with the log of the offsets loaded so far: iteration `i` from
state `s` appends `loads i s`. -/
def traced {σ : Type} (body : Nat → σ → σ) (loads : Nat → σ → List Nat)
    (i : Nat) (p : σ × List Nat) : σ × List Nat :=
  (body i p.1, p.2 ++ loads i p.1)

/-- The offsets loaded by the loop `for (int i = 0; i < n; i++) body`, run from state
`s`, when iteration `i` loads `loads i s`. -/
def loopLoads {σ : Type} (n : Nat) (body : Nat → σ → σ) (loads : Nat → σ → List Nat)
    (s : σ) : List Nat :=
  (forLoop n (traced body loads) (s, [])).2

/-- A result guarded by bounds checks: `result` when every recorded input offset is
below `inputLength` and every recorded filter offset is below `filterLength`, the
error value `none` otherwise. -/
def checked {β : Type} (inputLoads : List Nat) (inputLength : Nat)
    (filterLoads : List Nat) (filterLength : Nat) (result : β) : Option β :=
  if (∀ x ∈ inputLoads, x < inputLength) ∧ (∀ x ∈ filterLoads, x < filterLength)
  then some result else none

section Loads

variable {α : Type} [Zero α] [Add α] [Mul α]

namespace DepthwiseConvKernel_3_1

/-- The input offsets loaded by one bulk step from state `st`: two `vld1q_f32` per row, at `r` and `r + 4`. -/
def bulkLoads (st : State3 α) : List Nat :=
  vld1q_f32_offsets st.r0 ++ vld1q_f32_offsets (st.r0 + 4) ++
  vld1q_f32_offsets st.r1 ++ vld1q_f32_offsets (st.r1 + 4) ++
  vld1q_f32_offsets st.r2 ++ vld1q_f32_offsets (st.r2 + 4)

/-- The input offsets loaded by one remainder step from state `st`: one `vld1q_f32`
per row. -/
def remainLoads (st : State3 α) : List Nat :=
  vld1q_f32_offsets st.r0 ++ vld1q_f32_offsets st.r1 ++ vld1q_f32_offsets st.r2

/-- The input offsets loaded by one iteration of the row loop. -/
def rowLoads (inputData : Nat → α) (k : Filter3 α) (steps remain : Nat)
    (st : State3 α) : List Nat :=
  loopLoads steps (fun _ st => bulkStep inputData k st) (fun _ st => bulkLoads st) st ++
  loopLoads remain (fun _ st => remainStep inputData k st) (fun _ st => remainLoads st)
    (forLoop steps (fun _ st => bulkStep inputData k st) st)

/-- The input offsets loaded by one iteration of the channel loop. -/
def channelLoads (inputData filterData : Nat → α)
    (inputHeight inputWidth outputHeight steps remain filterMultiplier : Nat)
    (c : Nat) (cs : ChannelState α) : List Nat :=
  let k := loadFilter3 filterData cs.filterData
  let r0 := (c / filterMultiplier) * (inputHeight * inputWidth)
  let r1 := r0 + inputWidth
  let r2 := r0 + inputWidth * 2
  loopLoads outputHeight (fun _ st => rowBody inputData k steps remain st)
    (fun _ st => rowLoads inputData k steps remain st)
    ⟨r0, r1, r2, cs.outputData, cs.output⟩

/-- The filter offsets loaded by one iteration of the channel loop (`loadFilter3`). -/
def channelFilterLoads (cs : ChannelState α) : List Nat :=
  vld1q_f32_offsets cs.filterData ++ vld1q_f32_offsets (cs.filterData + 3) ++
  vld1q_f32_offsets (cs.filterData + 6)

/-- All input offsets loaded by `DepthwiseConvKernel<3, 1>::run`, in program order. -/
def inputLoads (inputData filterData : Nat → α)
    (inputHeight inputWidth outputChannels outputHeight outputWidth filterMultiplier : Nat)
    (outputData : Nat → α) : List Nat :=
  let steps := outputWidth >>> 2
  let remain := outputWidth &&& 3
  loopLoads outputChannels
    (channelBody inputData filterData inputHeight inputWidth outputHeight steps remain
      filterMultiplier)
    (channelLoads inputData filterData inputHeight inputWidth outputHeight steps remain
      filterMultiplier)
    ⟨0, 0, outputData⟩

/-- All filter offsets loaded by `DepthwiseConvKernel<3, 1>::run`, in program order. -/
def filterLoads (inputData filterData : Nat → α)
    (inputHeight inputWidth outputChannels outputHeight outputWidth filterMultiplier : Nat)
    (outputData : Nat → α) : List Nat :=
  let steps := outputWidth >>> 2
  let remain := outputWidth &&& 3
  loopLoads outputChannels
    (channelBody inputData filterData inputHeight inputWidth outputHeight steps remain
      filterMultiplier)
    (fun _ cs => channelFilterLoads cs)
    ⟨0, 0, outputData⟩

/-- The bounds-checked `DepthwiseConvKernel<3, 1>::run` on an input buffer of
`inputLength` elements and a filter buffer of `filterLength` elements: the output
buffer, or `none` when some load is out of bounds. -/
def runChecked (inputData : Nat → α) (inputLength : Nat) (filterData : Nat → α)
    (filterLength : Nat)
    (inputHeight inputWidth outputChannels outputHeight outputWidth filterMultiplier : Nat)
    (outputData : Nat → α) : Option (Nat → α) :=
  checked
    (inputLoads inputData filterData inputHeight inputWidth outputChannels outputHeight
      outputWidth filterMultiplier outputData) inputLength
    (filterLoads inputData filterData inputHeight inputWidth outputChannels outputHeight
      outputWidth filterMultiplier outputData) filterLength
    (run inputData filterData inputHeight inputWidth outputChannels outputHeight
      outputWidth filterMultiplier outputData)

end DepthwiseConvKernel_3_1

namespace DepthwiseConvKernel_3_2

/-- The input offsets loaded by one bulk step from state `st`: per row a `vld2q_f32` at `r` and a `vld1q_f32` at `r + 8`. -/
def bulkLoads (st : State3 α) : List Nat :=
  vld2q_f32_offsets st.r0 ++ vld1q_f32_offsets (st.r0 + 8) ++
  vld2q_f32_offsets st.r1 ++ vld1q_f32_offsets (st.r1 + 8) ++
  vld2q_f32_offsets st.r2 ++ vld1q_f32_offsets (st.r2 + 8)

/-- The input offsets loaded by one remainder step from state `st`: one `vld1q_f32`
per row. -/
def remainLoads (st : State3 α) : List Nat :=
  vld1q_f32_offsets st.r0 ++ vld1q_f32_offsets st.r1 ++ vld1q_f32_offsets st.r2

/-- The input offsets loaded by one iteration of the row loop. -/
def rowLoads (inputData : Nat → α) (k : Filter3 α) (start inputWidth steps remain : Nat)
    (h : Nat) (st : State3 α) : List Nat :=
  let st := { st with r0 := start + 2 * h * inputWidth,
                      r1 := start + (2 * h + 1) * inputWidth,
                      r2 := start + (2 * h + 2) * inputWidth }
  loopLoads steps (fun _ st => bulkStep inputData k st) (fun _ st => bulkLoads st) st ++
  loopLoads remain (fun _ st => remainStep inputData k st) (fun _ st => remainLoads st)
    (forLoop steps (fun _ st => bulkStep inputData k st) st)

/-- The input offsets loaded by one iteration of the channel loop. -/
def channelLoads (inputData filterData : Nat → α)
    (inputHeight inputWidth outputHeight steps remain filterMultiplier : Nat)
    (c : Nat) (cs : ChannelState α) : List Nat :=
  let k := loadFilter3 filterData cs.filterData
  let start := (c / filterMultiplier) * (inputHeight * inputWidth)
  loopLoads outputHeight (rowBody inputData k start inputWidth steps remain)
    (rowLoads inputData k start inputWidth steps remain)
    ⟨start, start, start, cs.outputData, cs.output⟩

/-- The filter offsets loaded by one iteration of the channel loop (`loadFilter3`). -/
def channelFilterLoads (cs : ChannelState α) : List Nat :=
  vld1q_f32_offsets cs.filterData ++ vld1q_f32_offsets (cs.filterData + 3) ++
  vld1q_f32_offsets (cs.filterData + 6)

/-- All input offsets loaded by `DepthwiseConvKernel<3, 2>::run`, in program order. -/
def inputLoads (inputData filterData : Nat → α)
    (inputHeight inputWidth outputChannels outputHeight outputWidth filterMultiplier : Nat)
    (outputData : Nat → α) : List Nat :=
  let steps := outputWidth >>> 2
  let remain := outputWidth &&& 3
  loopLoads outputChannels
    (channelBody inputData filterData inputHeight inputWidth outputHeight steps remain
      filterMultiplier)
    (channelLoads inputData filterData inputHeight inputWidth outputHeight steps remain
      filterMultiplier)
    ⟨0, 0, outputData⟩

/-- All filter offsets loaded by `DepthwiseConvKernel<3, 2>::run`, in program order. -/
def filterLoads (inputData filterData : Nat → α)
    (inputHeight inputWidth outputChannels outputHeight outputWidth filterMultiplier : Nat)
    (outputData : Nat → α) : List Nat :=
  let steps := outputWidth >>> 2
  let remain := outputWidth &&& 3
  loopLoads outputChannels
    (channelBody inputData filterData inputHeight inputWidth outputHeight steps remain
      filterMultiplier)
    (fun _ cs => channelFilterLoads cs)
    ⟨0, 0, outputData⟩

/-- The bounds-checked `DepthwiseConvKernel<3, 2>::run` on an input buffer of
`inputLength` elements and a filter buffer of `filterLength` elements: the output
buffer, or `none` when some load is out of bounds. -/
def runChecked (inputData : Nat → α) (inputLength : Nat) (filterData : Nat → α)
    (filterLength : Nat)
    (inputHeight inputWidth outputChannels outputHeight outputWidth filterMultiplier : Nat)
    (outputData : Nat → α) : Option (Nat → α) :=
  checked
    (inputLoads inputData filterData inputHeight inputWidth outputChannels outputHeight
      outputWidth filterMultiplier outputData) inputLength
    (filterLoads inputData filterData inputHeight inputWidth outputChannels outputHeight
      outputWidth filterMultiplier outputData) filterLength
    (run inputData filterData inputHeight inputWidth outputChannels outputHeight
      outputWidth filterMultiplier outputData)

end DepthwiseConvKernel_3_2

namespace DepthwiseConvKernel_4_1

/-- The input offsets loaded by one bulk step from state `st`: two `vld1q_f32` per row, at `r` and `r + 4`. -/
def bulkLoads (st : State4 α) : List Nat :=
  vld1q_f32_offsets st.r0 ++ vld1q_f32_offsets (st.r0 + 4) ++
  vld1q_f32_offsets st.r1 ++ vld1q_f32_offsets (st.r1 + 4) ++
  vld1q_f32_offsets st.r2 ++ vld1q_f32_offsets (st.r2 + 4) ++
  vld1q_f32_offsets st.r3 ++ vld1q_f32_offsets (st.r3 + 4)

/-- The input offsets loaded by one remainder step from state `st`: one `vld1q_f32`
per row. -/
def remainLoads (st : State4 α) : List Nat :=
  vld1q_f32_offsets st.r0 ++ vld1q_f32_offsets st.r1 ++ vld1q_f32_offsets st.r2 ++ vld1q_f32_offsets st.r3

/-- The input offsets loaded by one iteration of the row loop. -/
def rowLoads (inputData : Nat → α) (k : Filter4 α) (steps remain : Nat)
    (st : State4 α) : List Nat :=
  loopLoads steps (fun _ st => bulkStep inputData k st) (fun _ st => bulkLoads st) st ++
  loopLoads remain (fun _ st => remainStep inputData k st) (fun _ st => remainLoads st)
    (forLoop steps (fun _ st => bulkStep inputData k st) st)

/-- The input offsets loaded by one iteration of the channel loop. -/
def channelLoads (inputData filterData : Nat → α)
    (inputHeight inputWidth outputHeight steps remain filterMultiplier : Nat)
    (c : Nat) (cs : ChannelState α) : List Nat :=
  let k := loadFilter4 filterData cs.filterData
  let r0 := (c / filterMultiplier) * (inputHeight * inputWidth)
  let r1 := r0 + inputWidth
  let r2 := r0 + inputWidth * 2
  let r3 := r0 + inputWidth * 3
  loopLoads outputHeight (fun _ st => rowBody inputData k steps remain st)
    (fun _ st => rowLoads inputData k steps remain st)
    ⟨r0, r1, r2, r3, cs.outputData, cs.output⟩

/-- The filter offsets loaded by one iteration of the channel loop (`loadFilter4`). -/
def channelFilterLoads (cs : ChannelState α) : List Nat :=
  vld1q_f32_offsets cs.filterData ++ vld1q_f32_offsets (cs.filterData + 4) ++
  vld1q_f32_offsets (cs.filterData + 8) ++ vld1q_f32_offsets (cs.filterData + 12)

/-- All input offsets loaded by `DepthwiseConvKernel<4, 1>::run`, in program order. -/
def inputLoads (inputData filterData : Nat → α)
    (inputHeight inputWidth outputChannels outputHeight outputWidth filterMultiplier : Nat)
    (outputData : Nat → α) : List Nat :=
  let steps := outputWidth >>> 2
  let remain := outputWidth &&& 3
  loopLoads outputChannels
    (channelBody inputData filterData inputHeight inputWidth outputHeight steps remain
      filterMultiplier)
    (channelLoads inputData filterData inputHeight inputWidth outputHeight steps remain
      filterMultiplier)
    ⟨0, 0, outputData⟩

/-- All filter offsets loaded by `DepthwiseConvKernel<4, 1>::run`, in program order. -/
def filterLoads (inputData filterData : Nat → α)
    (inputHeight inputWidth outputChannels outputHeight outputWidth filterMultiplier : Nat)
    (outputData : Nat → α) : List Nat :=
  let steps := outputWidth >>> 2
  let remain := outputWidth &&& 3
  loopLoads outputChannels
    (channelBody inputData filterData inputHeight inputWidth outputHeight steps remain
      filterMultiplier)
    (fun _ cs => channelFilterLoads cs)
    ⟨0, 0, outputData⟩

/-- The bounds-checked `DepthwiseConvKernel<4, 1>::run` on an input buffer of
`inputLength` elements and a filter buffer of `filterLength` elements: the output
buffer, or `none` when some load is out of bounds. -/
def runChecked (inputData : Nat → α) (inputLength : Nat) (filterData : Nat → α)
    (filterLength : Nat)
    (inputHeight inputWidth outputChannels outputHeight outputWidth filterMultiplier : Nat)
    (outputData : Nat → α) : Option (Nat → α) :=
  checked
    (inputLoads inputData filterData inputHeight inputWidth outputChannels outputHeight
      outputWidth filterMultiplier outputData) inputLength
    (filterLoads inputData filterData inputHeight inputWidth outputChannels outputHeight
      outputWidth filterMultiplier outputData) filterLength
    (run inputData filterData inputHeight inputWidth outputChannels outputHeight
      outputWidth filterMultiplier outputData)

end DepthwiseConvKernel_4_1

namespace DepthwiseConvKernel_4_2

/-- The input offsets loaded by one bulk step from state `st`: two `vld2q_f32` per row, at `r` and `r + 8`. -/
def bulkLoads (st : State4 α) : List Nat :=
  vld2q_f32_offsets st.r0 ++ vld2q_f32_offsets (st.r0 + 8) ++
  vld2q_f32_offsets st.r1 ++ vld2q_f32_offsets (st.r1 + 8) ++
  vld2q_f32_offsets st.r2 ++ vld2q_f32_offsets (st.r2 + 8) ++
  vld2q_f32_offsets st.r3 ++ vld2q_f32_offsets (st.r3 + 8)

/-- The input offsets loaded by one remainder step from state `st`: one `vld1q_f32`
per row. -/
def remainLoads (st : State4 α) : List Nat :=
  vld1q_f32_offsets st.r0 ++ vld1q_f32_offsets st.r1 ++ vld1q_f32_offsets st.r2 ++ vld1q_f32_offsets st.r3

/-- The input offsets loaded by one iteration of the row loop. -/
def rowLoads (inputData : Nat → α) (k : Filter4 α) (start inputWidth steps remain : Nat)
    (h : Nat) (st : State4 α) : List Nat :=
  let st := { st with r0 := start + 2 * h * inputWidth,
                      r1 := start + (2 * h + 1) * inputWidth,
                      r2 := start + (2 * h + 2) * inputWidth,
                      r3 := start + (2 * h + 3) * inputWidth }
  loopLoads steps (fun _ st => bulkStep inputData k st) (fun _ st => bulkLoads st) st ++
  loopLoads remain (fun _ st => remainStep inputData k st) (fun _ st => remainLoads st)
    (forLoop steps (fun _ st => bulkStep inputData k st) st)

/-- The input offsets loaded by one iteration of the channel loop. -/
def channelLoads (inputData filterData : Nat → α)
    (inputHeight inputWidth outputHeight steps remain filterMultiplier : Nat)
    (c : Nat) (cs : ChannelState α) : List Nat :=
  let k := loadFilter4 filterData cs.filterData
  let start := (c / filterMultiplier) * (inputHeight * inputWidth)
  loopLoads outputHeight (rowBody inputData k start inputWidth steps remain)
    (rowLoads inputData k start inputWidth steps remain)
    ⟨start, start, start, start, cs.outputData, cs.output⟩

/-- The filter offsets loaded by one iteration of the channel loop (`loadFilter4`). -/
def channelFilterLoads (cs : ChannelState α) : List Nat :=
  vld1q_f32_offsets cs.filterData ++ vld1q_f32_offsets (cs.filterData + 4) ++
  vld1q_f32_offsets (cs.filterData + 8) ++ vld1q_f32_offsets (cs.filterData + 12)

/-- All input offsets loaded by `DepthwiseConvKernel<4, 2>::run`, in program order. -/
def inputLoads (inputData filterData : Nat → α)
    (inputHeight inputWidth outputChannels outputHeight outputWidth filterMultiplier : Nat)
    (outputData : Nat → α) : List Nat :=
  let steps := outputWidth >>> 2
  let remain := outputWidth &&& 3
  loopLoads outputChannels
    (channelBody inputData filterData inputHeight inputWidth outputHeight steps remain
      filterMultiplier)
    (channelLoads inputData filterData inputHeight inputWidth outputHeight steps remain
      filterMultiplier)
    ⟨0, 0, outputData⟩

/-- All filter offsets loaded by `DepthwiseConvKernel<4, 2>::run`, in program order. -/
def filterLoads (inputData filterData : Nat → α)
    (inputHeight inputWidth outputChannels outputHeight outputWidth filterMultiplier : Nat)
    (outputData : Nat → α) : List Nat :=
  let steps := outputWidth >>> 2
  let remain := outputWidth &&& 3
  loopLoads outputChannels
    (channelBody inputData filterData inputHeight inputWidth outputHeight steps remain
      filterMultiplier)
    (fun _ cs => channelFilterLoads cs)
    ⟨0, 0, outputData⟩

/-- The bounds-checked `DepthwiseConvKernel<4, 2>::run` on an input buffer of
`inputLength` elements and a filter buffer of `filterLength` elements: the output
buffer, or `none` when some load is out of bounds. -/
def runChecked (inputData : Nat → α) (inputLength : Nat) (filterData : Nat → α)
    (filterLength : Nat)
    (inputHeight inputWidth outputChannels outputHeight outputWidth filterMultiplier : Nat)
    (outputData : Nat → α) : Option (Nat → α) :=
  checked
    (inputLoads inputData filterData inputHeight inputWidth outputChannels outputHeight
      outputWidth filterMultiplier outputData) inputLength
    (filterLoads inputData filterData inputHeight inputWidth outputChannels outputHeight
      outputWidth filterMultiplier outputData) filterLength
    (run inputData filterData inputHeight inputWidth outputChannels outputHeight
      outputWidth filterMultiplier outputData)

end DepthwiseConvKernel_4_2

end Loads

/-! ## Row pointers at the start of an output row -/

section RowStart

variable {α : Type} [Zero α] [Add α] [Mul α]

namespace DepthwiseConvKernel_3_1

/-- The loop-carried variables of `run` when the processing of output row `h` of
output channel `c` starts: the channel loop has run `c` times, the filter of channel
`c` is loaded and the row loop has run `h` times. -/
def rowStart (inputData filterData : Nat → α)
    (inputHeight inputWidth outputHeight outputWidth filterMultiplier : Nat)
    (outputData : Nat → α) (c h : Nat) : State3 α :=
  let steps := outputWidth >>> 2
  let remain := outputWidth &&& 3
  let cs := forLoop c
    (channelBody inputData filterData inputHeight inputWidth outputHeight steps remain
      filterMultiplier)
    ⟨0, 0, outputData⟩
  let k := loadFilter3 filterData cs.filterData
  let r0 := (c / filterMultiplier) * (inputHeight * inputWidth)
  let r1 := r0 + inputWidth
  let r2 := r0 + inputWidth * 2
  forLoop h (fun _ st => rowBody inputData k steps remain st)
    ⟨r0, r1, r2, cs.outputData, cs.output⟩

end DepthwiseConvKernel_3_1

namespace DepthwiseConvKernel_3_2

/-- The assignments to the row pointers at the top of the row loop:
`r0 = start + 2 * h * inputWidth`, `r1 = start + (2 * h + 1) * inputWidth`, ... -/
def rowPointers (start inputWidth h : Nat) (st : State3 α) : State3 α :=
  { st with r0 := start + 2 * h * inputWidth,
              r1 := start + (2 * h + 1) * inputWidth,
              r2 := start + (2 * h + 2) * inputWidth }

/-- The loop-carried variables of `run` when the processing of output row `h` of
output channel `c` starts: the channel loop has run `c` times, the filter of channel
`c` is loaded and the row loop has run `h` times, and the row pointers of row `h` are assigned. -/
def rowStart (inputData filterData : Nat → α)
    (inputHeight inputWidth outputHeight outputWidth filterMultiplier : Nat)
    (outputData : Nat → α) (c h : Nat) : State3 α :=
  let steps := outputWidth >>> 2
  let remain := outputWidth &&& 3
  let cs := forLoop c
    (channelBody inputData filterData inputHeight inputWidth outputHeight steps remain
      filterMultiplier)
    ⟨0, 0, outputData⟩
  let k := loadFilter3 filterData cs.filterData
  let start := (c / filterMultiplier) * (inputHeight * inputWidth)
  rowPointers start inputWidth h
    (forLoop h (rowBody inputData k start inputWidth steps remain)
      ⟨start, start, start, cs.outputData, cs.output⟩)

end DepthwiseConvKernel_3_2

namespace DepthwiseConvKernel_4_1

/-- The loop-carried variables of `run` when the processing of output row `h` of
output channel `c` starts: the channel loop has run `c` times, the filter of channel
`c` is loaded and the row loop has run `h` times. -/
def rowStart (inputData filterData : Nat → α)
    (inputHeight inputWidth outputHeight outputWidth filterMultiplier : Nat)
    (outputData : Nat → α) (c h : Nat) : State4 α :=
  let steps := outputWidth >>> 2
  let remain := outputWidth &&& 3
  let cs := forLoop c
    (channelBody inputData filterData inputHeight inputWidth outputHeight steps remain
      filterMultiplier)
    ⟨0, 0, outputData⟩
  let k := loadFilter4 filterData cs.filterData
  let r0 := (c / filterMultiplier) * (inputHeight * inputWidth)
  let r1 := r0 + inputWidth
  let r2 := r0 + inputWidth * 2
  let r3 := r0 + inputWidth * 3
  forLoop h (fun _ st => rowBody inputData k steps remain st)
    ⟨r0, r1, r2, r3, cs.outputData, cs.output⟩

end DepthwiseConvKernel_4_1

namespace DepthwiseConvKernel_4_2

/-- The assignments to the row pointers at the top of the row loop:
`r0 = start + 2 * h * inputWidth`, `r1 = start + (2 * h + 1) * inputWidth`, ... -/
def rowPointers (start inputWidth h : Nat) (st : State4 α) : State4 α :=
  { st with r0 := start + 2 * h * inputWidth,
              r1 := start + (2 * h + 1) * inputWidth,
              r2 := start + (2 * h + 2) * inputWidth,
              r3 := start + (2 * h + 3) * inputWidth }

/-- The loop-carried variables of `run` when the processing of output row `h` of
output channel `c` starts: the channel loop has run `c` times, the filter of channel
`c` is loaded and the row loop has run `h` times, and the row pointers of row `h` are assigned. -/
def rowStart (inputData filterData : Nat → α)
    (inputHeight inputWidth outputHeight outputWidth filterMultiplier : Nat)
    (outputData : Nat → α) (c h : Nat) : State4 α :=
  let steps := outputWidth >>> 2
  let remain := outputWidth &&& 3
  let cs := forLoop c
    (channelBody inputData filterData inputHeight inputWidth outputHeight steps remain
      filterMultiplier)
    ⟨0, 0, outputData⟩
  let k := loadFilter4 filterData cs.filterData
  let start := (c / filterMultiplier) * (inputHeight * inputWidth)
  rowPointers start inputWidth h
    (forLoop h (rowBody inputData k start inputWidth steps remain)
      ⟨start, start, start, start, cs.outputData, cs.output⟩)

end DepthwiseConvKernel_4_2

end RowStart

/-! ## Stores performed by the kernels and accesses of `Padding::run`

The offsets written through `vst1q_f32`, scalar stores, `memset` and `memcpy`, and the
offsets `Padding::run` reads, recorded loop by loop in program order. -/

/-- The element offsets written by `vst1q_f32` at offset `p`. -/
def vst1q_f32_offsets (p : Nat) : List Nat := [p, p + 1, p + 2, p + 3]

section Stores

variable {α : Type} [Zero α] [Add α] [Mul α]

namespace DepthwiseConvKernel_3_1

/-- The output offsets stored by the bulk loop of a row, run from state `st`: one
`vst1q_f32` at the output pointer per step. -/
def bulkStores (inputData : Nat → α) (k : Filter3 α) (steps : Nat) (st : State3 α) :
    List Nat :=
  loopLoads steps (fun _ st => bulkStep inputData k st)
    (fun _ st => vst1q_f32_offsets st.outputData) st

/-- The output offsets stored by the remainder loop of a row, run from state `st`: one
scalar store at the output pointer per step. -/
def remainStores (inputData : Nat → α) (k : Filter3 α) (remain : Nat) (st : State3 α) :
    List Nat :=
  loopLoads remain (fun _ st => remainStep inputData k st) (fun _ st => [st.outputData]) st

/-- The output offsets stored by one iteration of the row loop: the stores of the bulk
loop, then those of the remainder loop. -/
def rowStores (inputData : Nat → α) (k : Filter3 α) (steps remain : Nat)
    (st : State3 α) : List Nat :=
  bulkStores inputData k steps st ++
  remainStores inputData k remain (forLoop steps (fun _ st => bulkStep inputData k st) st)

/-- The output offsets stored by one iteration of the channel loop. -/
def channelStores (inputData filterData : Nat → α)
    (inputHeight inputWidth outputHeight steps remain filterMultiplier : Nat)
    (c : Nat) (cs : ChannelState α) : List Nat :=
  let k := loadFilter3 filterData cs.filterData
  let r0 := (c / filterMultiplier) * (inputHeight * inputWidth)
  let r1 := r0 + inputWidth
  let r2 := r0 + inputWidth * 2
  loopLoads outputHeight (fun _ st => rowBody inputData k steps remain st)
    (fun _ st => rowStores inputData k steps remain st)
    ⟨r0, r1, r2, cs.outputData, cs.output⟩

/-- All output offsets stored by `DepthwiseConvKernel<3, 1>::run`, in program order. -/
def outputStores (inputData filterData : Nat → α)
    (inputHeight inputWidth outputChannels outputHeight outputWidth filterMultiplier : Nat)
    (outputData : Nat → α) : List Nat :=
  let steps := outputWidth >>> 2
  let remain := outputWidth &&& 3
  loopLoads outputChannels
    (channelBody inputData filterData inputHeight inputWidth outputHeight steps remain
      filterMultiplier)
    (channelStores inputData filterData inputHeight inputWidth outputHeight steps remain
      filterMultiplier)
    ⟨0, 0, outputData⟩

end DepthwiseConvKernel_3_1

namespace DepthwiseConvKernel_3_2

/-- The output offsets stored by the bulk loop of a row, run from state `st`: one
`vst1q_f32` at the output pointer per step. -/
def bulkStores (inputData : Nat → α) (k : Filter3 α) (steps : Nat) (st : State3 α) :
    List Nat :=
  loopLoads steps (fun _ st => bulkStep inputData k st)
    (fun _ st => vst1q_f32_offsets st.outputData) st

/-- The output offsets stored by the remainder loop of a row, run from state `st`: one
scalar store at the output pointer per step. -/
def remainStores (inputData : Nat → α) (k : Filter3 α) (remain : Nat) (st : State3 α) :
    List Nat :=
  loopLoads remain (fun _ st => remainStep inputData k st) (fun _ st => [st.outputData]) st

/-- The output offsets stored by one iteration of the row loop: the stores of the bulk
loop, then those of the remainder loop. -/
def rowStores (inputData : Nat → α) (k : Filter3 α) (start inputWidth steps remain : Nat)
    (h : Nat) (st : State3 α) : List Nat :=
  let st := rowPointers start inputWidth h st
  bulkStores inputData k steps st ++
  remainStores inputData k remain (forLoop steps (fun _ st => bulkStep inputData k st) st)

/-- The output offsets stored by one iteration of the channel loop. -/
def channelStores (inputData filterData : Nat → α)
    (inputHeight inputWidth outputHeight steps remain filterMultiplier : Nat)
    (c : Nat) (cs : ChannelState α) : List Nat :=
  let k := loadFilter3 filterData cs.filterData
  let start := (c / filterMultiplier) * (inputHeight * inputWidth)
  loopLoads outputHeight (rowBody inputData k start inputWidth steps remain)
    (rowStores inputData k start inputWidth steps remain)
    ⟨start, start, start, cs.outputData, cs.output⟩

/-- All output offsets stored by `DepthwiseConvKernel<3, 2>::run`, in program order. -/
def outputStores (inputData filterData : Nat → α)
    (inputHeight inputWidth outputChannels outputHeight outputWidth filterMultiplier : Nat)
    (outputData : Nat → α) : List Nat :=
  let steps := outputWidth >>> 2
  let remain := outputWidth &&& 3
  loopLoads outputChannels
    (channelBody inputData filterData inputHeight inputWidth outputHeight steps remain
      filterMultiplier)
    (channelStores inputData filterData inputHeight inputWidth outputHeight steps remain
      filterMultiplier)
    ⟨0, 0, outputData⟩

end DepthwiseConvKernel_3_2

namespace DepthwiseConvKernel_4_1

/-- The output offsets stored by the bulk loop of a row, run from state `st`: one
`vst1q_f32` at the output pointer per step. -/
def bulkStores (inputData : Nat → α) (k : Filter4 α) (steps : Nat) (st : State4 α) :
    List Nat :=
  loopLoads steps (fun _ st => bulkStep inputData k st)
    (fun _ st => vst1q_f32_offsets st.outputData) st

/-- The output offsets stored by the remainder loop of a row, run from state `st`: one
scalar store at the output pointer per step. -/
def remainStores (inputData : Nat → α) (k : Filter4 α) (remain : Nat) (st : State4 α) :
    List Nat :=
  loopLoads remain (fun _ st => remainStep inputData k st) (fun _ st => [st.outputData]) st

/-- The output offsets stored by one iteration of the row loop: the stores of the bulk
loop, then those of the remainder loop. -/
def rowStores (inputData : Nat → α) (k : Filter4 α) (steps remain : Nat)
    (st : State4 α) : List Nat :=
  bulkStores inputData k steps st ++
  remainStores inputData k remain (forLoop steps (fun _ st => bulkStep inputData k st) st)

/-- The output offsets stored by one iteration of the channel loop. -/
def channelStores (inputData filterData : Nat → α)
    (inputHeight inputWidth outputHeight steps remain filterMultiplier : Nat)
    (c : Nat) (cs : ChannelState α) : List Nat :=
  let k := loadFilter4 filterData cs.filterData
  let r0 := (c / filterMultiplier) * (inputHeight * inputWidth)
  let r1 := r0 + inputWidth
  let r2 := r0 + inputWidth * 2
  let r3 := r0 + inputWidth * 3
  loopLoads outputHeight (fun _ st => rowBody inputData k steps remain st)
    (fun _ st => rowStores inputData k steps remain st)
    ⟨r0, r1, r2, r3, cs.outputData, cs.output⟩

/-- All output offsets stored by `DepthwiseConvKernel<4, 1>::run`, in program order. -/
def outputStores (inputData filterData : Nat → α)
    (inputHeight inputWidth outputChannels outputHeight outputWidth filterMultiplier : Nat)
    (outputData : Nat → α) : List Nat :=
  let steps := outputWidth >>> 2
  let remain := outputWidth &&& 3
  loopLoads outputChannels
    (channelBody inputData filterData inputHeight inputWidth outputHeight steps remain
      filterMultiplier)
    (channelStores inputData filterData inputHeight inputWidth outputHeight steps remain
      filterMultiplier)
    ⟨0, 0, outputData⟩

end DepthwiseConvKernel_4_1

namespace DepthwiseConvKernel_4_2

/-- The output offsets stored by the bulk loop of a row, run from state `st`: one
`vst1q_f32` at the output pointer per step. -/
def bulkStores (inputData : Nat → α) (k : Filter4 α) (steps : Nat) (st : State4 α) :
    List Nat :=
  loopLoads steps (fun _ st => bulkStep inputData k st)
    (fun _ st => vst1q_f32_offsets st.outputData) st

/-- The output offsets stored by the remainder loop of a row, run from state `st`: one
scalar store at the output pointer per step. -/
def remainStores (inputData : Nat → α) (k : Filter4 α) (remain : Nat) (st : State4 α) :
    List Nat :=
  loopLoads remain (fun _ st => remainStep inputData k st) (fun _ st => [st.outputData]) st

/-- The output offsets stored by one iteration of the row loop: the stores of the bulk
loop, then those of the remainder loop. -/
def rowStores (inputData : Nat → α) (k : Filter4 α) (start inputWidth steps remain : Nat)
    (h : Nat) (st : State4 α) : List Nat :=
  let st := rowPointers start inputWidth h st
  bulkStores inputData k steps st ++
  remainStores inputData k remain (forLoop steps (fun _ st => bulkStep inputData k st) st)

/-- The output offsets stored by one iteration of the channel loop. -/
def channelStores (inputData filterData : Nat → α)
    (inputHeight inputWidth outputHeight steps remain filterMultiplier : Nat)
    (c : Nat) (cs : ChannelState α) : List Nat :=
  let k := loadFilter4 filterData cs.filterData
  let start := (c / filterMultiplier) * (inputHeight * inputWidth)
  loopLoads outputHeight (rowBody inputData k start inputWidth steps remain)
    (rowStores inputData k start inputWidth steps remain)
    ⟨start, start, start, start, cs.outputData, cs.output⟩

/-- All output offsets stored by `DepthwiseConvKernel<4, 2>::run`, in program order. -/
def outputStores (inputData filterData : Nat → α)
    (inputHeight inputWidth outputChannels outputHeight outputWidth filterMultiplier : Nat)
    (outputData : Nat → α) : List Nat :=
  let steps := outputWidth >>> 2
  let remain := outputWidth &&& 3
  loopLoads outputChannels
    (channelBody inputData filterData inputHeight inputWidth outputHeight steps remain
      filterMultiplier)
    (channelStores inputData filterData inputHeight inputWidth outputHeight steps remain
      filterMultiplier)
    ⟨0, 0, outputData⟩

end DepthwiseConvKernel_4_2

end Stores

section PaddingAccesses

variable {α : Type} [Zero α]

/-- The `dest` offsets written by the guarded halo fill from state `st`: the
`destWidth * paddingHeight` offsets of the `memset` when `paddingHeight > 0`, none
otherwise. -/
def haloStores (destWidth paddingHeight : Nat) (st : PaddingState α) : List Nat :=
  if paddingHeight > 0 then List.range' st.dest (destWidth * paddingHeight) else []

/-- The `dest` offsets written by a head or tail loop of `paddingWidth` zero stores,
run from state `st`. -/
def zeroStores (paddingWidth : Nat) (st : PaddingState α) : List Nat :=
  loopLoads paddingWidth (fun _ st => zeroStep st) (fun _ st => [st.dest]) st

namespace Padding

/-- The `dest` offsets written by one iteration of the row loop of `Padding<T>::run`:
the head zeros, the `inputWidth` offsets of the `memcpy`, the tail zeros. -/
def rowStores (src : Nat → α) (inputWidth paddingWidth : Nat) (st : PaddingState α) :
    List Nat :=
  let st1 := forLoop paddingWidth (fun _ st => zeroStep st) st
  let st2 : PaddingState α :=
    { src := st1.src + inputWidth, dest := st1.dest + inputWidth,
      destData := memcpy st1.destData st1.dest src st1.src inputWidth }
  zeroStores paddingWidth st ++ List.range' st1.dest inputWidth ++ zeroStores paddingWidth st2

/-- The `src` offsets read by one iteration of the row loop of `Padding<T>::run`: the
`inputWidth` offsets of the `memcpy`. -/
def rowLoads (inputWidth paddingWidth : Nat) (st : PaddingState α) : List Nat :=
  let st1 := forLoop paddingWidth (fun _ st => zeroStep st) st
  List.range' st1.src inputWidth

/-- The `dest` offsets written by one iteration of the channel loop. -/
def channelStores (src : Nat → α) (destWidth inputHeight inputWidth paddingHeight
    paddingWidth : Nat) (st : PaddingState α) : List Nat :=
  let st1 := haloRows destWidth paddingHeight st
  let st2 := forLoop inputHeight (fun _ st => rowBody src inputWidth paddingWidth st) st1
  haloStores destWidth paddingHeight st ++
  loopLoads inputHeight (fun _ st => rowBody src inputWidth paddingWidth st)
    (fun _ st => rowStores src inputWidth paddingWidth st) st1 ++
  haloStores destWidth paddingHeight st2

/-- The `src` offsets read by one iteration of the channel loop. -/
def channelLoads (src : Nat → α) (destWidth inputHeight inputWidth paddingHeight
    paddingWidth : Nat) (st : PaddingState α) : List Nat :=
  let st1 := haloRows destWidth paddingHeight st
  loopLoads inputHeight (fun _ st => rowBody src inputWidth paddingWidth st)
    (fun _ st => rowLoads inputWidth paddingWidth st) st1

/-- All `dest` offsets written by `Padding<T>::run`, in program order. -/
def stores (src dest : Nat → α)
    (channels inputHeight inputWidth paddingHeight paddingWidth : Nat) : List Nat :=
  let destWidth := inputWidth + 2 * paddingWidth
  loopLoads channels
    (fun _ st => channelBody src destWidth inputHeight inputWidth paddingHeight paddingWidth st)
    (fun _ st => channelStores src destWidth inputHeight inputWidth paddingHeight
      paddingWidth st)
    ⟨0, 0, dest⟩

/-- All `src` offsets read by `Padding<T>::run`, in program order. -/
def loads (src dest : Nat → α)
    (channels inputHeight inputWidth paddingHeight paddingWidth : Nat) : List Nat :=
  let destWidth := inputWidth + 2 * paddingWidth
  loopLoads channels
    (fun _ st => channelBody src destWidth inputHeight inputWidth paddingHeight paddingWidth st)
    (fun _ st => channelLoads src destWidth inputHeight inputWidth paddingHeight
      paddingWidth st)
    ⟨0, 0, dest⟩

end Padding

namespace Padding_float

/-- The `dest` offsets written by the two copy loops of a row of `Padding<float>::run`,
run from state `st`: one `vst1q_f32` per 4-wide step, one scalar store per remainder
step. -/
def copyStores (src : Nat → α) (inputWidth : Nat) (st : PaddingState α) : List Nat :=
  let step := inputWidth >>> 2
  let remain := inputWidth &&& 3
  loopLoads step (fun _ st => copyStep src st) (fun _ st => vst1q_f32_offsets st.dest) st ++
  loopLoads remain (fun _ st => remainStep src st) (fun _ st => [st.dest])
    (forLoop step (fun _ st => copyStep src st) st)

/-- The `src` offsets read by the two copy loops of a row of `Padding<float>::run`, run
from state `st`: one `vld1q_f32` per 4-wide step, one scalar load per remainder
step. -/
def copyLoads (src : Nat → α) (inputWidth : Nat) (st : PaddingState α) : List Nat :=
  let step := inputWidth >>> 2
  let remain := inputWidth &&& 3
  loopLoads step (fun _ st => copyStep src st) (fun _ st => vld1q_f32_offsets st.src) st ++
  loopLoads remain (fun _ st => remainStep src st) (fun _ st => [st.src])
    (forLoop step (fun _ st => copyStep src st) st)

end Padding_float

end PaddingAccesses

/-! ## Symbolic values -/

/-- A symbolic value: the expression tree of a computation over input elements and
filter coefficients. -/
inductive SymValue where
  | zero : SymValue
  | input : Nat → SymValue
  | filter : Nat → SymValue
  | add : SymValue → SymValue → SymValue
  | mul : SymValue → SymValue → SymValue
deriving DecidableEq, Repr

/-- The symbolic sum: `0` is neutral, and nothing else is identified (the sum is
neither associative nor commutative). -/
def SymValue.sum : SymValue → SymValue → SymValue
  | SymValue.zero, b => b
  | a, SymValue.zero => a
  | a, b => SymValue.add a b

/-- The symbolic product: `0` is absorbing, and nothing else is identified. -/
def SymValue.prod : SymValue → SymValue → SymValue
  | SymValue.zero, _ => SymValue.zero
  | _, SymValue.zero => SymValue.zero
  | a, b => SymValue.mul a b

instance : Zero SymValue := ⟨SymValue.zero⟩

instance : Add SymValue := ⟨SymValue.sum⟩

instance : Mul SymValue := ⟨SymValue.prod⟩

/-! ## Specification-side definitions -/

section SpecDefs

variable {α : Type}

/-- The buffer `m` with the `n` elements from offset `p` on replaced by
`g 0, g 1, .., g (n - 1)`. -/
def fill (p n : Nat) (g : Nat → α) (m : Nat → α) : Nat → α :=
  fun idx => if p ≤ idx ∧ idx < p + n then g (idx - p) else m idx

/-- The 3x3 window sum with the window rows at offsets `a0 a1 a2` and the filter
taps in the lanes `0..2` of the registers of `k`. -/
def window3 [Add α] [Mul α] (inputData : Nat → α) (k : Filter3 α) (a0 a1 a2 : Nat) : α :=
  inputData a0 * k.k0.l0 + inputData (a0 + 1) * k.k0.l1 + inputData (a0 + 2) * k.k0.l2
  + inputData a1 * k.k1.l0 + inputData (a1 + 1) * k.k1.l1 + inputData (a1 + 2) * k.k1.l2
  + inputData a2 * k.k2.l0 + inputData (a2 + 1) * k.k2.l1 + inputData (a2 + 2) * k.k2.l2

/-- The 4x4 window sum with the window rows at offsets `a0 .. a3` and the filter
taps in the lanes of the registers of `k`. -/
def window4 [Add α] [Mul α] (inputData : Nat → α) (k : Filter4 α) (a0 a1 a2 a3 : Nat) : α :=
  inputData a0 * k.k0.l0 + inputData (a0 + 1) * k.k0.l1 + inputData (a0 + 2) * k.k0.l2
  + inputData (a0 + 3) * k.k0.l3
  + inputData a1 * k.k1.l0 + inputData (a1 + 1) * k.k1.l1 + inputData (a1 + 2) * k.k1.l2
  + inputData (a1 + 3) * k.k1.l3
  + inputData a2 * k.k2.l0 + inputData (a2 + 1) * k.k2.l1 + inputData (a2 + 2) * k.k2.l2
  + inputData (a2 + 3) * k.k2.l3
  + inputData a3 * k.k3.l0 + inputData (a3 + 1) * k.k3.l1 + inputData (a3 + 2) * k.k3.l2
  + inputData (a3 + 3) * k.k3.l3

/-- Row `x`-th element of a padded row whose source row starts at offset `s`: the
source element inside `[paddingWidth, paddingWidth + inputWidth)`, zero outside. -/
def paddedRow [Zero α] (src : Nat → α) (s inputWidth paddingWidth : Nat) (x : Nat) : α :=
  if paddingWidth ≤ x ∧ x < paddingWidth + inputWidth then src (s + (x - paddingWidth))
  else 0

/-- Element `t` of a padded channel of row width `destWidth` whose source channel
starts at offset `s`: the source element in the interior, zero in the halo. -/
def paddedChannel [Zero α] (src : Nat → α)
    (s inputHeight inputWidth paddingHeight paddingWidth destWidth : Nat) (t : Nat) : α :=
  if paddingHeight ≤ t / destWidth ∧ t / destWidth < paddingHeight + inputHeight ∧
      paddingWidth ≤ t % destWidth ∧ t % destWidth < paddingWidth + inputWidth
  then src (s + (t / destWidth - paddingHeight) * inputWidth + (t % destWidth - paddingWidth))
  else 0

/-- The documented shape precondition in one spatial dimension:
`outputDim = floor((inputDim - filterSize) / stride) + 1`, the input holding at least
one window. -/
def validDim (filterSize stride inputDim outputDim : Nat) : Prop :=
  filterSize ≤ inputDim ∧ outputDim = (inputDim - filterSize) / stride + 1

instance (filterSize stride inputDim outputDim : Nat) :
    Decidable (validDim filterSize stride inputDim outputDim) :=
  inferInstanceAs (Decidable
    (filterSize ≤ inputDim ∧ outputDim = (inputDim - filterSize) / stride + 1))

/-- The filter block of output channel `c` is one-hot: `1` at tap `(i0, j0)` and `0` at
every other tap. -/
def oneHot [Zero α] [One α] (filterSize : Nat) (filterData : Nat → α) (c i0 j0 : Nat) :
    Prop :=
  ∀ i, i < filterSize → ∀ j, j < filterSize →
    filterData (filterSize * filterSize * c + filterSize * i + j)
      = if i = i0 ∧ j = j0 then 1 else 0

end SpecDefs

/-! ## Buffers filled block by block -/

section FillLemmas

variable {α : Type}

theorem fill_apply_in (p n : Nat) (g m : Nat → α) (t : Nat) (ht : t < n) :
    fill p n g m (p + t) = g t := by
  have h1 : p ≤ p + t ∧ p + t < p + n := ⟨by omega, by omega⟩
  simp [fill, h1]

theorem fill_apply_out (p n : Nat) (g m : Nat → α) (idx : Nat)
    (h : idx < p ∨ p + n ≤ idx) : fill p n g m idx = m idx := by
  have h1 : ¬ (p ≤ idx ∧ idx < p + n) := by omega
  simp [fill, h1]

theorem fill_zero (p : Nat) (g m : Nat → α) : fill p 0 g m = m := by
  funext idx
  exact fill_apply_out p 0 g m idx (by omega)

theorem fill_congr (p n : Nat) (g g2 m : Nat → α) (h : ∀ t, t < n → g t = g2 t) :
    fill p n g m = fill p n g2 m := by
  funext idx
  unfold fill
  by_cases hc : p ≤ idx ∧ idx < p + n
  · rw [if_pos hc, if_pos hc]
    exact h _ (by omega)
  · rw [if_neg hc, if_neg hc]

theorem fill_append (p n k : Nat) (g m : Nat → α) :
    fill (p + n) k (fun l => g (n + l)) (fill p n g m) = fill p (n + k) g m := by
  funext idx
  unfold fill
  by_cases h1 : p + n ≤ idx ∧ idx < p + n + k
  · have h2 : p ≤ idx ∧ idx < p + (n + k) := by omega
    rw [if_pos h1, if_pos h2]
    have h3 : n + (idx - (p + n)) = idx - p := by omega
    show g (n + (idx - (p + n))) = g (idx - p)
    rw [h3]
  · rw [if_neg h1]
    by_cases h2 : p ≤ idx ∧ idx < p + n
    · have h3 : p ≤ idx ∧ idx < p + (n + k) := by omega
      rw [if_pos h2, if_pos h3]
    · have h3 : ¬ (p ≤ idx ∧ idx < p + (n + k)) := by omega
      rw [if_neg h2, if_neg h3]

theorem vst1q_f32_eq_fill (m : Nat → α) (p : Nat) (v : float32x4_t α) (g : Nat → α)
    (h0 : g 0 = v.l0) (h1 : g 1 = v.l1) (h2 : g 2 = v.l2) (h3 : g 3 = v.l3) :
    vst1q_f32 m p v = fill p 4 g m := by
  funext idx
  unfold vst1q_f32 fill
  by_cases c0 : idx = p
  · subst c0
    simp [h0]
  by_cases c1 : idx = p + 1
  · subst c1
    simp [h1]
  by_cases c2 : idx = p + 2
  · subst c2
    simp [h2]
  by_cases c3 : idx = p + 3
  · subst c3
    simp [h3]
  have hc : ¬ (p ≤ idx ∧ idx < p + 4) := by omega
  simp [c0, c1, c2, c3, hc]

theorem store_eq_fill (m : Nat → α) (p : Nat) (x : α) (g : Nat → α) (h0 : g 0 = x) :
    store m p x = fill p 1 g m := by
  funext idx
  unfold store fill
  by_cases c0 : idx = p
  · subst c0
    simp [h0]
  · have hc : ¬ (p ≤ idx ∧ idx < p + 1) := by omega
    simp [c0, hc]

/-- A loop whose `i`-th iteration writes the `k` elements `G (i * k) ..` at the output
pointer and advances it by `k` fills `n * k` elements with `G`.  `Inv` is a loop
invariant on the remaining loop-carried variables. -/
theorem forLoop_fill {σ : Type} (od : σ → Nat) (mem : σ → Nat → α) (Inv : Nat → σ → Prop)
    (k : Nat) (G : Nat → α) (body : Nat → σ → σ) (n : Nat)
    (hstep : ∀ i s, i < n → Inv i s →
      Inv (i + 1) (body i s) ∧ od (body i s) = od s + k ∧
      mem (body i s) = fill (od s) k (fun l => G (i * k + l)) (mem s))
    (s0 : σ) (h0 : Inv 0 s0) :
    Inv n (forLoop n body s0) ∧ od (forLoop n body s0) = od s0 + n * k ∧
      mem (forLoop n body s0) = fill (od s0) (n * k) G (mem s0) := by
  induction n with
  | zero =>
    refine ⟨h0, by simp [forLoop], ?_⟩
    simp only [forLoop, Nat.zero_mul]
    exact (fill_zero _ _ _).symm
  | succ n ih =>
    obtain ⟨hi, ho, hm⟩ := ih (fun i s hin hI => hstep i s (by omega) hI)
    obtain ⟨hi2, ho2, hm2⟩ := hstep n (forLoop n body s0) (by omega) hi
    refine ⟨hi2, ?_, ?_⟩
    · show od (body n (forLoop n body s0)) = _
      rw [ho2, ho, Nat.succ_mul]
      omega
    · show mem (body n (forLoop n body s0)) = _
      rw [hm2, ho, hm, Nat.succ_mul]
      exact fill_append (od s0) (n * k) k G (mem s0)

theorem fill_append_of (p n k : Nat) (g1 G m : Nat → α)
    (h : ∀ l, l < k → g1 l = G (n + l)) :
    fill (p + n) k g1 (fill p n G m) = fill p (n + k) G m := by
  rw [fill_congr (p + n) k g1 (fun l => G (n + l)) _ h, fill_append]

theorem fill_block (p n k : Nat) (g1 G m : Nat → α)
    (h : ∀ l, l < k → g1 l = G (n * k + l)) :
    fill (p + n * k) k g1 (fill p (n * k) G m) = fill p ((n + 1) * k) G m := by
  rw [fill_congr (p + n * k) k g1 (fun l => G (n * k + l)) _ h, fill_append, Nat.succ_mul]

theorem block_div (n k r : Nat) (h : r < k) : (n * k + r) / k = n := by
  have hk : 0 < k := by omega
  rw [Nat.add_comm, Nat.add_mul_div_right _ _ hk, Nat.div_eq_of_lt h, Nat.zero_add]

theorem block_mod (n k r : Nat) (h : r < k) : (n * k + r) % k = r := by
  rw [Nat.add_comm, Nat.add_mul_mod_self_right, Nat.mod_eq_of_lt h]

theorem block_lt (n k i r : Nat) (hi : i < n) (hr : r < k) : i * k + r < n * k := by
  have h1 : (i + 1) * k ≤ n * k := Nat.mul_le_mul_right k hi
  rw [Nat.succ_mul] at h1
  omega

theorem shiftRight_two (n : Nat) : n >>> 2 = n / 4 := by
  rw [Nat.shiftRight_eq_div_pow]

theorem and_three (n : Nat) : n &&& 3 = n % 4 := by
  exact Nat.and_pow_two_sub_one_eq_mod n 2

end FillLemmas

/-! ## Lanes of the bulk vectors and the remainder values -/

section WindowLemmas

variable {α : Type} [CommSemiring α]

theorem remainValue3_eq (inputData : Nat → α) (k : Filter3 α) (r0 r1 r2 : Nat)
    (h0 : k.k0.l3 = 0) (h1 : k.k1.l3 = 0) (h2 : k.k2.l3 = 0) :
    remainValue3 inputData k r0 r1 r2 = window3 inputData k r0 r1 r2 := by
  simp only [remainValue3, conv3x3, vld1q_f32, vmulq_f32, vmlaq_f32, vaddvq_f32, window3,
    h0, h1, h2]
  ring

theorem remainValue4_eq (inputData : Nat → α) (k : Filter4 α) (r0 r1 r2 r3 : Nat) :
    remainValue4 inputData k r0 r1 r2 r3 = window4 inputData k r0 r1 r2 r3 := by
  simp only [remainValue4, conv4x4, vld1q_f32, vmulq_f32, vmlaq_f32, vaddvq_f32, window4]
  ring

theorem loadFilter3_l3 (filter : Nat → α) (p : Nat) :
    (loadFilter3 filter p).k0.l3 = 0 ∧ (loadFilter3 filter p).k1.l3 = 0 ∧
      (loadFilter3 filter p).k2.l3 = 0 := by
  simp [loadFilter3, vsetq_lane_f32]

namespace DepthwiseConvKernel_3_1

theorem bulkVector_lanes_31 (inputData : Nat → α) (k : Filter3 α) (r0 r1 r2 : Nat) :
    (bulkVector inputData k r0 r1 r2).l0 = window3 inputData k r0 r1 r2 ∧
    (bulkVector inputData k r0 r1 r2).l1 = window3 inputData k (r0 + 1) (r1 + 1) (r2 + 1) ∧
    (bulkVector inputData k r0 r1 r2).l2 = window3 inputData k (r0 + 2) (r1 + 2) (r2 + 2) ∧
    (bulkVector inputData k r0 r1 r2).l3 = window3 inputData k (r0 + 3) (r1 + 3) (r2 + 3) := by
  simp only [bulkVector, accumulate3, vld1q_f32, vextq_f32, vdupq_n_f32, vmlaq_laneq_f32,
    vgetq_lane_f32, vaddq_f32, window3, Nat.add_assoc, Nat.reduceAdd]
  refine ⟨?_, ?_, ?_, ?_⟩ <;> ring

end DepthwiseConvKernel_3_1

namespace DepthwiseConvKernel_3_2

theorem bulkVector_lanes_32 (inputData : Nat → α) (k : Filter3 α) (r0 r1 r2 : Nat) :
    (bulkVector inputData k r0 r1 r2).l0 = window3 inputData k r0 r1 r2 ∧
    (bulkVector inputData k r0 r1 r2).l1 = window3 inputData k (r0 + 2) (r1 + 2) (r2 + 2) ∧
    (bulkVector inputData k r0 r1 r2).l2 = window3 inputData k (r0 + 4) (r1 + 4) (r2 + 4) ∧
    (bulkVector inputData k r0 r1 r2).l3 = window3 inputData k (r0 + 6) (r1 + 6) (r2 + 6) := by
  simp only [bulkVector, accumulate3, vld1q_f32, vld2q_f32, vextq_f32, vdupq_n_f32,
    vmlaq_laneq_f32, vgetq_lane_f32, vaddq_f32, window3, Nat.add_assoc, Nat.reduceAdd]
  refine ⟨?_, ?_, ?_, ?_⟩ <;> ring

end DepthwiseConvKernel_3_2

namespace DepthwiseConvKernel_4_1

theorem bulkVector_lanes_41 (inputData : Nat → α) (k : Filter4 α) (r0 r1 r2 r3 : Nat) :
    (bulkVector inputData k r0 r1 r2 r3).l0 = window4 inputData k r0 r1 r2 r3 ∧
    (bulkVector inputData k r0 r1 r2 r3).l1
      = window4 inputData k (r0 + 1) (r1 + 1) (r2 + 1) (r3 + 1) ∧
    (bulkVector inputData k r0 r1 r2 r3).l2
      = window4 inputData k (r0 + 2) (r1 + 2) (r2 + 2) (r3 + 2) ∧
    (bulkVector inputData k r0 r1 r2 r3).l3
      = window4 inputData k (r0 + 3) (r1 + 3) (r2 + 3) (r3 + 3) := by
  simp only [bulkVector, accumulate4, vld1q_f32, vextq_f32, vdupq_n_f32, vmlaq_laneq_f32,
    vgetq_lane_f32, vaddq_f32, window4, Nat.add_assoc, Nat.reduceAdd]
  refine ⟨?_, ?_, ?_, ?_⟩ <;> ring

end DepthwiseConvKernel_4_1

namespace DepthwiseConvKernel_4_2

theorem bulkVector_lanes_42 (inputData : Nat → α) (k : Filter4 α) (r0 r1 r2 r3 : Nat) :
    (bulkVector inputData k r0 r1 r2 r3).l0 = window4 inputData k r0 r1 r2 r3 ∧
    (bulkVector inputData k r0 r1 r2 r3).l1
      = window4 inputData k (r0 + 2) (r1 + 2) (r2 + 2) (r3 + 2) ∧
    (bulkVector inputData k r0 r1 r2 r3).l2
      = window4 inputData k (r0 + 4) (r1 + 4) (r2 + 4) (r3 + 4) ∧
    (bulkVector inputData k r0 r1 r2 r3).l3
      = window4 inputData k (r0 + 6) (r1 + 6) (r2 + 6) (r3 + 6) := by
  simp only [bulkVector, accumulate4, vld1q_f32, vld2q_f32, vextq_f32, vdupq_n_f32,
    vmlaq_laneq_f32, vgetq_lane_f32, vaddq_f32, window4, Nat.add_assoc, Nat.reduceAdd]
  refine ⟨?_, ?_, ?_, ?_⟩ <;> ring

end DepthwiseConvKernel_4_2

end WindowLemmas

/-! ## Closed forms of the loops of `DepthwiseConvKernel<3, 1>` -/

section Loops31

variable {α : Type} [CommSemiring α]

namespace DepthwiseConvKernel_3_1

theorem bulkLoop_eq_31 (inputData : Nat → α) (k : Filter3 α) (n : Nat) (st : State3 α) :
    forLoop n (fun _ st => bulkStep inputData k st) st =
      { r0 := st.r0 + 4 * n, r1 := st.r1 + 4 * n, r2 := st.r2 + 4 * n,
        outputData := st.outputData + 4 * n,
        output := fill st.outputData (4 * n)
          (fun t => window3 inputData k (st.r0 + t) (st.r1 + t) (st.r2 + t)) st.output } := by
  induction n with
  | zero =>
    cases st
    simp [forLoop, fill_zero]
  | succ n ih =>
    show bulkStep inputData k (forLoop n _ st) = _
    rw [ih]
    obtain ⟨h0, h1, h2, h3⟩ :=
      bulkVector_lanes_31 inputData k (st.r0 + 4 * n) (st.r1 + 4 * n) (st.r2 + 4 * n)
    simp only [bulkStep]
    rw [vst1q_f32_eq_fill _ _ _
      (fun l => window3 inputData k (st.r0 + (4 * n + l)) (st.r1 + (4 * n + l))
        (st.r2 + (4 * n + l)))
      (by rw [h0]; rfl) (by rw [h1]; simp only [Nat.add_assoc])
      (by rw [h2]; simp only [Nat.add_assoc]) (by rw [h3]; simp only [Nat.add_assoc])]
    rw [fill_append st.outputData (4 * n) 4
      (fun t => window3 inputData k (st.r0 + t) (st.r1 + t) (st.r2 + t)) st.output]
    simp only [Nat.mul_succ, Nat.add_assoc]

theorem remainLoop_eq_31 (inputData : Nat → α) (k : Filter3 α)
    (hk : k.k0.l3 = 0 ∧ k.k1.l3 = 0 ∧ k.k2.l3 = 0) (n : Nat) (st : State3 α) :
    forLoop n (fun _ st => remainStep inputData k st) st =
      { r0 := st.r0 + n, r1 := st.r1 + n, r2 := st.r2 + n,
        outputData := st.outputData + n,
        output := fill st.outputData n
          (fun t => window3 inputData k (st.r0 + t) (st.r1 + t) (st.r2 + t)) st.output } := by
  induction n with
  | zero =>
    cases st
    simp [forLoop, fill_zero]
  | succ n ih =>
    show remainStep inputData k (forLoop n _ st) = _
    rw [ih]
    simp only [remainStep]
    rw [store_eq_fill _ _ _
      (fun l => window3 inputData k (st.r0 + (n + l)) (st.r1 + (n + l)) (st.r2 + (n + l)))
      (by rw [remainValue3_eq _ _ _ _ _ hk.1 hk.2.1 hk.2.2]; rfl)]
    rw [fill_append st.outputData n 1
      (fun t => window3 inputData k (st.r0 + t) (st.r1 + t) (st.r2 + t)) st.output]
    simp only [Nat.add_assoc]

theorem rowBody_eq_31 (inputData : Nat → α) (k : Filter3 α)
    (hk : k.k0.l3 = 0 ∧ k.k1.l3 = 0 ∧ k.k2.l3 = 0) (outputWidth : Nat) (st : State3 α) :
    rowBody inputData k (outputWidth >>> 2) (outputWidth &&& 3) st =
      { r0 := st.r0 + (outputWidth + 2), r1 := st.r1 + (outputWidth + 2),
        r2 := st.r2 + (outputWidth + 2),
        outputData := st.outputData + outputWidth,
        output := fill st.outputData outputWidth
          (fun t => window3 inputData k (st.r0 + t) (st.r1 + t) (st.r2 + t)) st.output } := by
  have hw : 4 * (outputWidth / 4) + outputWidth % 4 = outputWidth := by omega
  simp only [rowBody, bulkLoop_eq_31, remainLoop_eq_31 inputData k hk, shiftRight_two, and_three]
  have hf := fill_append st.outputData (4 * (outputWidth / 4)) (outputWidth % 4)
    (fun t => window3 inputData k (st.r0 + t) (st.r1 + t) (st.r2 + t)) st.output
  simp only [hw] at hf
  simp only [Nat.add_assoc, hf, hw]

theorem rowLoop_eq_31 (inputData : Nat → α) (k : Filter3 α)
    (hk : k.k0.l3 = 0 ∧ k.k1.l3 = 0 ∧ k.k2.l3 = 0) (outputWidth n : Nat) (st : State3 α) :
    forLoop n (fun _ st => rowBody inputData k (outputWidth >>> 2) (outputWidth &&& 3) st) st =
      { r0 := st.r0 + n * (outputWidth + 2), r1 := st.r1 + n * (outputWidth + 2),
        r2 := st.r2 + n * (outputWidth + 2),
        outputData := st.outputData + n * outputWidth,
        output := fill st.outputData (n * outputWidth)
          (fun t => window3 inputData k
            (st.r0 + (t / outputWidth) * (outputWidth + 2) + t % outputWidth)
            (st.r1 + (t / outputWidth) * (outputWidth + 2) + t % outputWidth)
            (st.r2 + (t / outputWidth) * (outputWidth + 2) + t % outputWidth))
          st.output } := by
  induction n with
  | zero =>
    cases st
    simp [forLoop, fill_zero]
  | succ n ih =>
    show rowBody inputData k (outputWidth >>> 2) (outputWidth &&& 3) (forLoop n _ st) = _
    rw [ih, rowBody_eq_31 inputData k hk]
    simp only
    rw [fill_block]
    · simp only [Nat.succ_mul, Nat.add_assoc]
    · intro l hl
      simp only [block_div n outputWidth l hl, block_mod n outputWidth l hl, Nat.add_assoc]

theorem channelBody_eq_31 (inputData filterData : Nat → α)
    (inputHeight inputWidth outputHeight outputWidth filterMultiplier c : Nat)
    (cs : ChannelState α) :
    channelBody inputData filterData inputHeight inputWidth outputHeight
        (outputWidth >>> 2) (outputWidth &&& 3) filterMultiplier c cs =
      { filterData := cs.filterData + 9,
        outputData := cs.outputData + outputHeight * outputWidth,
        output := fill cs.outputData (outputHeight * outputWidth)
          (fun t => window3 inputData (loadFilter3 filterData cs.filterData)
            ((c / filterMultiplier) * (inputHeight * inputWidth)
              + (t / outputWidth) * (outputWidth + 2) + t % outputWidth)
            ((c / filterMultiplier) * (inputHeight * inputWidth) + inputWidth
              + (t / outputWidth) * (outputWidth + 2) + t % outputWidth)
            ((c / filterMultiplier) * (inputHeight * inputWidth) + inputWidth * 2
              + (t / outputWidth) * (outputWidth + 2) + t % outputWidth))
          cs.output } := by
  simp only [channelBody, rowLoop_eq_31 inputData _ (loadFilter3_l3 filterData cs.filterData)]

theorem channelLoop_eq_31 (inputData filterData : Nat → α)
    (inputHeight inputWidth outputHeight outputWidth filterMultiplier n : Nat)
    (cs : ChannelState α) :
    forLoop n (channelBody inputData filterData inputHeight inputWidth outputHeight
        (outputWidth >>> 2) (outputWidth &&& 3) filterMultiplier) cs =
      { filterData := cs.filterData + 9 * n,
        outputData := cs.outputData + n * (outputHeight * outputWidth),
        output := fill cs.outputData (n * (outputHeight * outputWidth))
          (fun t => window3 inputData
            (loadFilter3 filterData (cs.filterData + 9 * (t / (outputHeight * outputWidth))))
            (((t / (outputHeight * outputWidth)) / filterMultiplier) * (inputHeight * inputWidth)
              + ((t % (outputHeight * outputWidth)) / outputWidth) * (outputWidth + 2)
              + (t % (outputHeight * outputWidth)) % outputWidth)
            (((t / (outputHeight * outputWidth)) / filterMultiplier) * (inputHeight * inputWidth)
              + inputWidth
              + ((t % (outputHeight * outputWidth)) / outputWidth) * (outputWidth + 2)
              + (t % (outputHeight * outputWidth)) % outputWidth)
            (((t / (outputHeight * outputWidth)) / filterMultiplier) * (inputHeight * inputWidth)
              + inputWidth * 2
              + ((t % (outputHeight * outputWidth)) / outputWidth) * (outputWidth + 2)
              + (t % (outputHeight * outputWidth)) % outputWidth))
          cs.output } := by
  induction n with
  | zero =>
    cases cs
    simp [forLoop, fill_zero]
  | succ n ih =>
    show channelBody inputData filterData inputHeight inputWidth outputHeight
        (outputWidth >>> 2) (outputWidth &&& 3) filterMultiplier n (forLoop n _ cs) = _
    rw [ih, channelBody_eq_31]
    simp only
    rw [fill_block]
    · have e1 : 9 * (n + 1) = 9 * n + 9 := by omega
      simp only [Nat.succ_mul, e1, Nat.add_assoc]
    · intro l hl
      simp only [block_div n (outputHeight * outputWidth) l hl,
        block_mod n (outputHeight * outputWidth) l hl]

/-- The value of every output element written by `DepthwiseConvKernel<3, 1>::run`,
for arbitrary dimensions: successive output rows start `outputWidth + 2` input
elements apart, the three rows of a window are `inputWidth` apart. -/
theorem run_apply_31 (inputData filterData outputData : Nat → α)
    (inputHeight inputWidth outputChannels outputHeight outputWidth filterMultiplier : Nat)
    (c h w : Nat) (hc : c < outputChannels) (hh : h < outputHeight) (hw : w < outputWidth) :
    run inputData filterData inputHeight inputWidth outputChannels outputHeight outputWidth
        filterMultiplier outputData (c * (outputHeight * outputWidth) + (h * outputWidth + w)) =
      window3 inputData (loadFilter3 filterData (9 * c))
        ((c / filterMultiplier) * (inputHeight * inputWidth) + h * (outputWidth + 2) + w)
        ((c / filterMultiplier) * (inputHeight * inputWidth) + inputWidth
          + h * (outputWidth + 2) + w)
        ((c / filterMultiplier) * (inputHeight * inputWidth) + inputWidth * 2
          + h * (outputWidth + 2) + w) := by
  have hl : h * outputWidth + w < outputHeight * outputWidth := block_lt _ _ _ _ hh hw
  have ht : c * (outputHeight * outputWidth) + (h * outputWidth + w)
      < outputChannels * (outputHeight * outputWidth) := block_lt _ _ _ _ hc hl
  have h0 := fill_apply_in 0 (outputChannels * (outputHeight * outputWidth))
    (fun t => window3 inputData
            (loadFilter3 filterData (0 + 9 * (t / (outputHeight * outputWidth))))
            (((t / (outputHeight * outputWidth)) / filterMultiplier) * (inputHeight * inputWidth)
              + ((t % (outputHeight * outputWidth)) / outputWidth) * (outputWidth + 2)
              + (t % (outputHeight * outputWidth)) % outputWidth)
            (((t / (outputHeight * outputWidth)) / filterMultiplier) * (inputHeight * inputWidth)
              + inputWidth
              + ((t % (outputHeight * outputWidth)) / outputWidth) * (outputWidth + 2)
              + (t % (outputHeight * outputWidth)) % outputWidth)
            (((t / (outputHeight * outputWidth)) / filterMultiplier) * (inputHeight * inputWidth)
              + inputWidth * 2
              + ((t % (outputHeight * outputWidth)) / outputWidth) * (outputWidth + 2)
              + (t % (outputHeight * outputWidth)) % outputWidth))
    outputData _ ht
  simp only [Nat.zero_add] at h0
  simp only [run, channelLoop_eq_31, Nat.zero_add, h0, block_div c _ _ hl, block_mod c _ _ hl,
    block_div h _ _ hw, block_mod h _ _ hw]

end DepthwiseConvKernel_3_1

end Loops31

/-! ## Closed forms of the loops of `DepthwiseConvKernel<3, 2>` -/

section Loops32

variable {α : Type} [CommSemiring α]

namespace DepthwiseConvKernel_3_2

theorem bulkLoop_eq_32 (inputData : Nat → α) (k : Filter3 α) (n : Nat) (st : State3 α) :
    forLoop n (fun _ st => bulkStep inputData k st) st =
      { r0 := st.r0 + 8 * n, r1 := st.r1 + 8 * n, r2 := st.r2 + 8 * n,
        outputData := st.outputData + 4 * n,
        output := fill st.outputData (4 * n)
          (fun t => window3 inputData k (st.r0 + 2 * t) (st.r1 + 2 * t) (st.r2 + 2 * t)) st.output } := by
  induction n with
  | zero =>
    cases st
    simp [forLoop, fill_zero]
  | succ n ih =>
    show bulkStep inputData k (forLoop n _ st) = _
    rw [ih]
    obtain ⟨h0, h1, h2, h3⟩ := bulkVector_lanes_32 inputData k (st.r0 + 8 * n) (st.r1 + 8 * n) (st.r2 + 8 * n)
    simp only [bulkStep]
    have e0 : window3 inputData k (st.r0 + 2 * (4 * n + 0)) (st.r1 + 2 * (4 * n + 0)) (st.r2 + 2 * (4 * n + 0))
        = (bulkVector inputData k (st.r0 + 8 * n) (st.r1 + 8 * n) (st.r2 + 8 * n)).l0 := by
      rw [h0]; congr 1 <;> omega
    have e1 : window3 inputData k (st.r0 + 2 * (4 * n + 1)) (st.r1 + 2 * (4 * n + 1)) (st.r2 + 2 * (4 * n + 1))
        = (bulkVector inputData k (st.r0 + 8 * n) (st.r1 + 8 * n) (st.r2 + 8 * n)).l1 := by
      rw [h1]; congr 1 <;> omega
    have e2 : window3 inputData k (st.r0 + 2 * (4 * n + 2)) (st.r1 + 2 * (4 * n + 2)) (st.r2 + 2 * (4 * n + 2))
        = (bulkVector inputData k (st.r0 + 8 * n) (st.r1 + 8 * n) (st.r2 + 8 * n)).l2 := by
      rw [h2]; congr 1 <;> omega
    have e3 : window3 inputData k (st.r0 + 2 * (4 * n + 3)) (st.r1 + 2 * (4 * n + 3)) (st.r2 + 2 * (4 * n + 3))
        = (bulkVector inputData k (st.r0 + 8 * n) (st.r1 + 8 * n) (st.r2 + 8 * n)).l3 := by
      rw [h3]; congr 1 <;> omega
    rw [vst1q_f32_eq_fill _ _ _
      (fun l => window3 inputData k (st.r0 + 2 * (4 * n + l)) (st.r1 + 2 * (4 * n + l)) (st.r2 + 2 * (4 * n + l))) e0 e1 e2 e3]
    rw [fill_append st.outputData (4 * n) 4
      (fun t => window3 inputData k (st.r0 + 2 * t) (st.r1 + 2 * t) (st.r2 + 2 * t)) st.output]
    simp only [Nat.mul_succ, Nat.add_assoc]

theorem remainLoop_eq_32 (inputData : Nat → α) (k : Filter3 α)
    (hk : k.k0.l3 = 0 ∧ k.k1.l3 = 0 ∧ k.k2.l3 = 0) (n : Nat) (st : State3 α) :
    forLoop n (fun _ st => remainStep inputData k st) st =
      { r0 := st.r0 + 2 * n, r1 := st.r1 + 2 * n, r2 := st.r2 + 2 * n,
        outputData := st.outputData + n,
        output := fill st.outputData n
          (fun t => window3 inputData k (st.r0 + 2 * t) (st.r1 + 2 * t) (st.r2 + 2 * t)) st.output } := by
  induction n with
  | zero =>
    cases st
    simp [forLoop, fill_zero]
  | succ n ih =>
    show remainStep inputData k (forLoop n _ st) = _
    rw [ih]
    simp only [remainStep]
    rw [store_eq_fill _ _ _
      (fun l => window3 inputData k (st.r0 + 2 * (n + l)) (st.r1 + 2 * (n + l)) (st.r2 + 2 * (n + l)))
      (by rw [remainValue3_eq _ _ _ _ _ hk.1 hk.2.1 hk.2.2]; rfl)]
    rw [fill_append st.outputData n 1
      (fun t => window3 inputData k (st.r0 + 2 * t) (st.r1 + 2 * t) (st.r2 + 2 * t)) st.output]
    simp only [Nat.mul_succ, Nat.add_assoc]

theorem rowBody_eq_32 (inputData : Nat → α) (k : Filter3 α)
    (hk : k.k0.l3 = 0 ∧ k.k1.l3 = 0 ∧ k.k2.l3 = 0)
    (start inputWidth outputWidth h : Nat) (st : State3 α) :
    rowBody inputData k start inputWidth (outputWidth >>> 2) (outputWidth &&& 3) h st =
      { r0 := start + 2 * h * inputWidth + 2 * outputWidth, r1 := start + (2 * h + 1) * inputWidth + 2 * outputWidth, r2 := start + (2 * h + 2) * inputWidth + 2 * outputWidth,
        outputData := st.outputData + outputWidth,
        output := fill st.outputData outputWidth
          (fun t => window3 inputData k (start + 2 * h * inputWidth + 2 * t) (start + (2 * h + 1) * inputWidth + 2 * t) (start + (2 * h + 2) * inputWidth + 2 * t)) st.output } := by
  have hw : 4 * (outputWidth / 4) + outputWidth % 4 = outputWidth := by omega
  have hw2 : 8 * (outputWidth / 4) + 2 * (outputWidth % 4) = 2 * outputWidth := by omega
  simp only [rowBody, bulkLoop_eq_32, remainLoop_eq_32 inputData k hk, shiftRight_two, and_three]
  rw [fill_append_of st.outputData (4 * (outputWidth / 4)) (outputWidth % 4) _
    (fun t => window3 inputData k (start + 2 * h * inputWidth + 2 * t) (start + (2 * h + 1) * inputWidth + 2 * t) (start + (2 * h + 2) * inputWidth + 2 * t)) st.output
    (fun l _ => by congr 1 <;> omega)]
  simp only [Nat.add_assoc, hw, hw2]

theorem rowLoop_eq_32 (inputData : Nat → α) (k : Filter3 α)
    (hk : k.k0.l3 = 0 ∧ k.k1.l3 = 0 ∧ k.k2.l3 = 0)
    (start inputWidth outputWidth n : Nat) (st : State3 α) :
    (forLoop n (rowBody inputData k start inputWidth (outputWidth >>> 2) (outputWidth &&& 3))
        st).outputData = st.outputData + n * outputWidth ∧
    (forLoop n (rowBody inputData k start inputWidth (outputWidth >>> 2) (outputWidth &&& 3))
        st).output =
      fill st.outputData (n * outputWidth)
        (fun t => window3 inputData k (start + 2 * (t / outputWidth) * inputWidth + 2 * (t % outputWidth)) (start + (2 * (t / outputWidth) + 1) * inputWidth + 2 * (t % outputWidth)) (start + (2 * (t / outputWidth) + 2) * inputWidth + 2 * (t % outputWidth)))
        st.output := by
  have key := forLoop_fill (fun s : State3 α => s.outputData) (fun s => s.output)
    (fun _ _ => True) outputWidth
    (fun t => window3 inputData k (start + 2 * (t / outputWidth) * inputWidth + 2 * (t % outputWidth)) (start + (2 * (t / outputWidth) + 1) * inputWidth + 2 * (t % outputWidth)) (start + (2 * (t / outputWidth) + 2) * inputWidth + 2 * (t % outputWidth)))
    (rowBody inputData k start inputWidth (outputWidth >>> 2) (outputWidth &&& 3)) n
    (fun i s _ _ => by
      rw [rowBody_eq_32 inputData k hk]
      refine ⟨trivial, rfl, ?_⟩
      simp only
      apply fill_congr
      intro l hl
      simp only [block_div i outputWidth l hl, block_mod i outputWidth l hl])
    st trivial
  exact key.2

theorem channelBody_eq_32 (inputData filterData : Nat → α)
    (inputHeight inputWidth outputHeight outputWidth filterMultiplier c : Nat)
    (cs : ChannelState α) :
    channelBody inputData filterData inputHeight inputWidth outputHeight
        (outputWidth >>> 2) (outputWidth &&& 3) filterMultiplier c cs =
      { filterData := cs.filterData + 9,
        outputData := cs.outputData + outputHeight * outputWidth,
        output := fill cs.outputData (outputHeight * outputWidth)
          (fun t => window3 inputData (loadFilter3 filterData cs.filterData) ((c / filterMultiplier) * (inputHeight * inputWidth) + 2 * (t / outputWidth) * inputWidth + 2 * (t % outputWidth)) ((c / filterMultiplier) * (inputHeight * inputWidth) + (2 * (t / outputWidth) + 1) * inputWidth + 2 * (t % outputWidth)) ((c / filterMultiplier) * (inputHeight * inputWidth) + (2 * (t / outputWidth) + 2) * inputWidth + 2 * (t % outputWidth)))
          cs.output } := by
  obtain ⟨h1, h2⟩ := rowLoop_eq_32 inputData (loadFilter3 filterData cs.filterData) (loadFilter3_l3 filterData cs.filterData)
    ((c / filterMultiplier) * (inputHeight * inputWidth)) inputWidth outputWidth outputHeight
    ⟨(c / filterMultiplier) * (inputHeight * inputWidth), (c / filterMultiplier) * (inputHeight * inputWidth), (c / filterMultiplier) * (inputHeight * inputWidth), cs.outputData, cs.output⟩
  simp only [channelBody, h1, h2]

theorem channelLoop_eq_32 (inputData filterData : Nat → α)
    (inputHeight inputWidth outputHeight outputWidth filterMultiplier n : Nat)
    (cs : ChannelState α) :
    forLoop n (channelBody inputData filterData inputHeight inputWidth outputHeight
        (outputWidth >>> 2) (outputWidth &&& 3) filterMultiplier) cs =
      { filterData := cs.filterData + 9 * n,
        outputData := cs.outputData + n * (outputHeight * outputWidth),
        output := fill cs.outputData (n * (outputHeight * outputWidth))
          (fun t => window3 inputData (loadFilter3 filterData (cs.filterData + 9 * (t / (outputHeight * outputWidth)))) (((t / (outputHeight * outputWidth)) / filterMultiplier) * (inputHeight * inputWidth) + 2 * ((t % (outputHeight * outputWidth)) / outputWidth) * inputWidth + 2 * ((t % (outputHeight * outputWidth)) % outputWidth)) (((t / (outputHeight * outputWidth)) / filterMultiplier) * (inputHeight * inputWidth) + (2 * ((t % (outputHeight * outputWidth)) / outputWidth) + 1) * inputWidth + 2 * ((t % (outputHeight * outputWidth)) % outputWidth)) (((t / (outputHeight * outputWidth)) / filterMultiplier) * (inputHeight * inputWidth) + (2 * ((t % (outputHeight * outputWidth)) / outputWidth) + 2) * inputWidth + 2 * ((t % (outputHeight * outputWidth)) % outputWidth)))
          cs.output } := by
  induction n with
  | zero =>
    cases cs
    simp [forLoop, fill_zero]
  | succ n ih =>
    show channelBody inputData filterData inputHeight inputWidth outputHeight
        (outputWidth >>> 2) (outputWidth &&& 3) filterMultiplier n (forLoop n _ cs) = _
    rw [ih, channelBody_eq_32]
    simp only
    rw [fill_block]
    · have e1 : 9 * (n + 1) = 9 * n + 9 := by omega
      simp only [Nat.succ_mul, e1, Nat.add_assoc]
    · intro l hl
      simp only [block_div n (outputHeight * outputWidth) l hl,
        block_mod n (outputHeight * outputWidth) l hl]

/-- The value of every output element written by `DepthwiseConvKernel<3, 2>::run`,
for arbitrary dimensions. -/
theorem run_apply_32 (inputData filterData outputData : Nat → α)
    (inputHeight inputWidth outputChannels outputHeight outputWidth filterMultiplier : Nat)
    (c h w : Nat) (hc : c < outputChannels) (hh : h < outputHeight) (hw : w < outputWidth) :
    run inputData filterData inputHeight inputWidth outputChannels outputHeight outputWidth
        filterMultiplier outputData (c * (outputHeight * outputWidth) + (h * outputWidth + w)) =
      window3 inputData (loadFilter3 filterData (9 * c)) ((c / filterMultiplier) * (inputHeight * inputWidth) + 2 * h * inputWidth + 2 * w) ((c / filterMultiplier) * (inputHeight * inputWidth) + (2 * h + 1) * inputWidth + 2 * w) ((c / filterMultiplier) * (inputHeight * inputWidth) + (2 * h + 2) * inputWidth + 2 * w) := by
  have hl : h * outputWidth + w < outputHeight * outputWidth := block_lt _ _ _ _ hh hw
  have ht : c * (outputHeight * outputWidth) + (h * outputWidth + w)
      < outputChannels * (outputHeight * outputWidth) := block_lt _ _ _ _ hc hl
  have h0 := fill_apply_in 0 (outputChannels * (outputHeight * outputWidth))
    (fun t => window3 inputData (loadFilter3 filterData (0 + 9 * (t / (outputHeight * outputWidth)))) (((t / (outputHeight * outputWidth)) / filterMultiplier) * (inputHeight * inputWidth) + 2 * ((t % (outputHeight * outputWidth)) / outputWidth) * inputWidth + 2 * ((t % (outputHeight * outputWidth)) % outputWidth)) (((t / (outputHeight * outputWidth)) / filterMultiplier) * (inputHeight * inputWidth) + (2 * ((t % (outputHeight * outputWidth)) / outputWidth) + 1) * inputWidth + 2 * ((t % (outputHeight * outputWidth)) % outputWidth)) (((t / (outputHeight * outputWidth)) / filterMultiplier) * (inputHeight * inputWidth) + (2 * ((t % (outputHeight * outputWidth)) / outputWidth) + 2) * inputWidth + 2 * ((t % (outputHeight * outputWidth)) % outputWidth)))
    outputData _ ht
  simp only [Nat.zero_add] at h0
  simp only [run, channelLoop_eq_32, Nat.zero_add, h0, block_div c _ _ hl, block_mod c _ _ hl,
    block_div h _ _ hw, block_mod h _ _ hw]

end DepthwiseConvKernel_3_2

end Loops32

/-! ## Closed forms of the loops of `DepthwiseConvKernel<4, 1>` -/

section Loops41

variable {α : Type} [CommSemiring α]

namespace DepthwiseConvKernel_4_1

theorem bulkLoop_eq_41 (inputData : Nat → α) (k : Filter4 α) (n : Nat) (st : State4 α) :
    forLoop n (fun _ st => bulkStep inputData k st) st =
      { r0 := st.r0 + 4 * n, r1 := st.r1 + 4 * n, r2 := st.r2 + 4 * n, r3 := st.r3 + 4 * n,
        outputData := st.outputData + 4 * n,
        output := fill st.outputData (4 * n)
          (fun t => window4 inputData k (st.r0 + t) (st.r1 + t) (st.r2 + t) (st.r3 + t)) st.output } := by
  induction n with
  | zero =>
    cases st
    simp [forLoop, fill_zero]
  | succ n ih =>
    show bulkStep inputData k (forLoop n _ st) = _
    rw [ih]
    obtain ⟨h0, h1, h2, h3⟩ := bulkVector_lanes_41 inputData k (st.r0 + 4 * n) (st.r1 + 4 * n) (st.r2 + 4 * n) (st.r3 + 4 * n)
    simp only [bulkStep]
    rw [vst1q_f32_eq_fill _ _ _
      (fun l => window4 inputData k (st.r0 + (4 * n + l)) (st.r1 + (4 * n + l)) (st.r2 + (4 * n + l)) (st.r3 + (4 * n + l)))
      (by rw [h0]; rfl) (by rw [h1]; simp only [Nat.add_assoc])
      (by rw [h2]; simp only [Nat.add_assoc]) (by rw [h3]; simp only [Nat.add_assoc])]
    rw [fill_append st.outputData (4 * n) 4
      (fun t => window4 inputData k (st.r0 + t) (st.r1 + t) (st.r2 + t) (st.r3 + t)) st.output]
    simp only [Nat.mul_succ, Nat.add_assoc]

theorem remainLoop_eq_41 (inputData : Nat → α) (k : Filter4 α) (n : Nat) (st : State4 α) :
    forLoop n (fun _ st => remainStep inputData k st) st =
      { r0 := st.r0 + n, r1 := st.r1 + n, r2 := st.r2 + n, r3 := st.r3 + n,
        outputData := st.outputData + n,
        output := fill st.outputData n
          (fun t => window4 inputData k (st.r0 + t) (st.r1 + t) (st.r2 + t) (st.r3 + t)) st.output } := by
  induction n with
  | zero =>
    cases st
    simp [forLoop, fill_zero]
  | succ n ih =>
    show remainStep inputData k (forLoop n _ st) = _
    rw [ih]
    simp only [remainStep]
    rw [store_eq_fill _ _ _
      (fun l => window4 inputData k (st.r0 + (n + l)) (st.r1 + (n + l)) (st.r2 + (n + l)) (st.r3 + (n + l)))
      (by rw [remainValue4_eq]; rfl)]
    rw [fill_append st.outputData n 1
      (fun t => window4 inputData k (st.r0 + t) (st.r1 + t) (st.r2 + t) (st.r3 + t)) st.output]
    simp only [Nat.add_assoc]

theorem rowBody_eq_41 (inputData : Nat → α) (k : Filter4 α) (outputWidth : Nat) (st : State4 α) :
    rowBody inputData k (outputWidth >>> 2) (outputWidth &&& 3) st =
      { r0 := st.r0 + (outputWidth + 3), r1 := st.r1 + (outputWidth + 3), r2 := st.r2 + (outputWidth + 3), r3 := st.r3 + (outputWidth + 3),
        outputData := st.outputData + outputWidth,
        output := fill st.outputData outputWidth
          (fun t => window4 inputData k (st.r0 + t) (st.r1 + t) (st.r2 + t) (st.r3 + t)) st.output } := by
  have hw : 4 * (outputWidth / 4) + outputWidth % 4 = outputWidth := by omega
  simp only [rowBody, bulkLoop_eq_41, remainLoop_eq_41 inputData k, shiftRight_two, and_three]
  have hf := fill_append st.outputData (4 * (outputWidth / 4)) (outputWidth % 4)
    (fun t => window4 inputData k (st.r0 + t) (st.r1 + t) (st.r2 + t) (st.r3 + t)) st.output
  simp only [hw] at hf
  simp only [Nat.add_assoc, hf, hw]

theorem rowLoop_eq_41 (inputData : Nat → α) (k : Filter4 α) (outputWidth n : Nat) (st : State4 α) :
    forLoop n (fun _ st => rowBody inputData k (outputWidth >>> 2) (outputWidth &&& 3) st) st =
      { r0 := st.r0 + n * (outputWidth + 3), r1 := st.r1 + n * (outputWidth + 3), r2 := st.r2 + n * (outputWidth + 3), r3 := st.r3 + n * (outputWidth + 3),
        outputData := st.outputData + n * outputWidth,
        output := fill st.outputData (n * outputWidth)
          (fun t => window4 inputData k (st.r0 + (t / outputWidth) * (outputWidth + 3) + t % outputWidth) (st.r1 + (t / outputWidth) * (outputWidth + 3) + t % outputWidth) (st.r2 + (t / outputWidth) * (outputWidth + 3) + t % outputWidth) (st.r3 + (t / outputWidth) * (outputWidth + 3) + t % outputWidth))
          st.output } := by
  induction n with
  | zero =>
    cases st
    simp [forLoop, fill_zero]
  | succ n ih =>
    show rowBody inputData k (outputWidth >>> 2) (outputWidth &&& 3) (forLoop n _ st) = _
    rw [ih, rowBody_eq_41 inputData k]
    simp only
    rw [fill_block]
    · simp only [Nat.succ_mul, Nat.add_assoc]
    · intro l hl
      simp only [block_div n outputWidth l hl, block_mod n outputWidth l hl, Nat.add_assoc]

theorem channelBody_eq_41 (inputData filterData : Nat → α)
    (inputHeight inputWidth outputHeight outputWidth filterMultiplier c : Nat)
    (cs : ChannelState α) :
    channelBody inputData filterData inputHeight inputWidth outputHeight
        (outputWidth >>> 2) (outputWidth &&& 3) filterMultiplier c cs =
      { filterData := cs.filterData + 16,
        outputData := cs.outputData + outputHeight * outputWidth,
        output := fill cs.outputData (outputHeight * outputWidth)
          (fun t => window4 inputData (loadFilter4 filterData cs.filterData) ((c / filterMultiplier) * (inputHeight * inputWidth)
              + (t / outputWidth) * (outputWidth + 3) + t % outputWidth) ((c / filterMultiplier) * (inputHeight * inputWidth) + inputWidth
              + (t / outputWidth) * (outputWidth + 3) + t % outputWidth) ((c / filterMultiplier) * (inputHeight * inputWidth) + inputWidth * 2
              + (t / outputWidth) * (outputWidth + 3) + t % outputWidth) ((c / filterMultiplier) * (inputHeight * inputWidth) + inputWidth * 3
              + (t / outputWidth) * (outputWidth + 3) + t % outputWidth))
          cs.output } := by
  simp only [channelBody, rowLoop_eq_41]

theorem channelLoop_eq_41 (inputData filterData : Nat → α)
    (inputHeight inputWidth outputHeight outputWidth filterMultiplier n : Nat)
    (cs : ChannelState α) :
    forLoop n (channelBody inputData filterData inputHeight inputWidth outputHeight
        (outputWidth >>> 2) (outputWidth &&& 3) filterMultiplier) cs =
      { filterData := cs.filterData + 16 * n,
        outputData := cs.outputData + n * (outputHeight * outputWidth),
        output := fill cs.outputData (n * (outputHeight * outputWidth))
          (fun t => window4 inputData (loadFilter4 filterData (cs.filterData + 16 * (t / (outputHeight * outputWidth)))) (((t / (outputHeight * outputWidth)) / filterMultiplier) * (inputHeight * inputWidth)
              + ((t % (outputHeight * outputWidth)) / outputWidth) * (outputWidth + 3) + (t % (outputHeight * outputWidth)) % outputWidth) (((t / (outputHeight * outputWidth)) / filterMultiplier) * (inputHeight * inputWidth) + inputWidth
              + ((t % (outputHeight * outputWidth)) / outputWidth) * (outputWidth + 3) + (t % (outputHeight * outputWidth)) % outputWidth) (((t / (outputHeight * outputWidth)) / filterMultiplier) * (inputHeight * inputWidth) + inputWidth * 2
              + ((t % (outputHeight * outputWidth)) / outputWidth) * (outputWidth + 3) + (t % (outputHeight * outputWidth)) % outputWidth) (((t / (outputHeight * outputWidth)) / filterMultiplier) * (inputHeight * inputWidth) + inputWidth * 3
              + ((t % (outputHeight * outputWidth)) / outputWidth) * (outputWidth + 3) + (t % (outputHeight * outputWidth)) % outputWidth))
          cs.output } := by
  induction n with
  | zero =>
    cases cs
    simp [forLoop, fill_zero]
  | succ n ih =>
    show channelBody inputData filterData inputHeight inputWidth outputHeight
        (outputWidth >>> 2) (outputWidth &&& 3) filterMultiplier n (forLoop n _ cs) = _
    rw [ih, channelBody_eq_41]
    simp only
    rw [fill_block]
    · have e1 : 16 * (n + 1) = 16 * n + 16 := by omega
      simp only [Nat.succ_mul, e1, Nat.add_assoc]
    · intro l hl
      simp only [block_div n (outputHeight * outputWidth) l hl,
        block_mod n (outputHeight * outputWidth) l hl]

/-- The value of every output element written by `DepthwiseConvKernel<4, 1>::run`,
for arbitrary dimensions: successive output rows start `outputWidth + 3` input
elements apart, the four rows of a window are `inputWidth` apart. -/
theorem run_apply_41 (inputData filterData outputData : Nat → α)
    (inputHeight inputWidth outputChannels outputHeight outputWidth filterMultiplier : Nat)
    (c h w : Nat) (hc : c < outputChannels) (hh : h < outputHeight) (hw : w < outputWidth) :
    run inputData filterData inputHeight inputWidth outputChannels outputHeight outputWidth
        filterMultiplier outputData (c * (outputHeight * outputWidth) + (h * outputWidth + w)) =
      window4 inputData (loadFilter4 filterData (16 * c)) ((c / filterMultiplier) * (inputHeight * inputWidth)
              + h * (outputWidth + 3) + w) ((c / filterMultiplier) * (inputHeight * inputWidth) + inputWidth
              + h * (outputWidth + 3) + w) ((c / filterMultiplier) * (inputHeight * inputWidth) + inputWidth * 2
              + h * (outputWidth + 3) + w) ((c / filterMultiplier) * (inputHeight * inputWidth) + inputWidth * 3
              + h * (outputWidth + 3) + w) := by
  have hl : h * outputWidth + w < outputHeight * outputWidth := block_lt _ _ _ _ hh hw
  have ht : c * (outputHeight * outputWidth) + (h * outputWidth + w)
      < outputChannels * (outputHeight * outputWidth) := block_lt _ _ _ _ hc hl
  have h0 := fill_apply_in 0 (outputChannels * (outputHeight * outputWidth))
    (fun t => window4 inputData (loadFilter4 filterData (0 + 16 * (t / (outputHeight * outputWidth)))) (((t / (outputHeight * outputWidth)) / filterMultiplier) * (inputHeight * inputWidth)
              + ((t % (outputHeight * outputWidth)) / outputWidth) * (outputWidth + 3) + (t % (outputHeight * outputWidth)) % outputWidth) (((t / (outputHeight * outputWidth)) / filterMultiplier) * (inputHeight * inputWidth) + inputWidth
              + ((t % (outputHeight * outputWidth)) / outputWidth) * (outputWidth + 3) + (t % (outputHeight * outputWidth)) % outputWidth) (((t / (outputHeight * outputWidth)) / filterMultiplier) * (inputHeight * inputWidth) + inputWidth * 2
              + ((t % (outputHeight * outputWidth)) / outputWidth) * (outputWidth + 3) + (t % (outputHeight * outputWidth)) % outputWidth) (((t / (outputHeight * outputWidth)) / filterMultiplier) * (inputHeight * inputWidth) + inputWidth * 3
              + ((t % (outputHeight * outputWidth)) / outputWidth) * (outputWidth + 3) + (t % (outputHeight * outputWidth)) % outputWidth))
    outputData _ ht
  simp only [Nat.zero_add] at h0
  simp only [run, channelLoop_eq_41, Nat.zero_add, h0, block_div c _ _ hl, block_mod c _ _ hl,
    block_div h _ _ hw, block_mod h _ _ hw]

end DepthwiseConvKernel_4_1

end Loops41

/-! ## Closed forms of the loops of `DepthwiseConvKernel<4, 2>` -/

section Loops42

variable {α : Type} [CommSemiring α]

namespace DepthwiseConvKernel_4_2

theorem bulkLoop_eq_42 (inputData : Nat → α) (k : Filter4 α) (n : Nat) (st : State4 α) :
    forLoop n (fun _ st => bulkStep inputData k st) st =
      { r0 := st.r0 + 8 * n, r1 := st.r1 + 8 * n, r2 := st.r2 + 8 * n, r3 := st.r3 + 8 * n,
        outputData := st.outputData + 4 * n,
        output := fill st.outputData (4 * n)
          (fun t => window4 inputData k (st.r0 + 2 * t) (st.r1 + 2 * t) (st.r2 + 2 * t) (st.r3 + 2 * t)) st.output } := by
  induction n with
  | zero =>
    cases st
    simp [forLoop, fill_zero]
  | succ n ih =>
    show bulkStep inputData k (forLoop n _ st) = _
    rw [ih]
    obtain ⟨h0, h1, h2, h3⟩ := bulkVector_lanes_42 inputData k (st.r0 + 8 * n) (st.r1 + 8 * n) (st.r2 + 8 * n) (st.r3 + 8 * n)
    simp only [bulkStep]
    have e0 : window4 inputData k (st.r0 + 2 * (4 * n + 0)) (st.r1 + 2 * (4 * n + 0)) (st.r2 + 2 * (4 * n + 0)) (st.r3 + 2 * (4 * n + 0))
        = (bulkVector inputData k (st.r0 + 8 * n) (st.r1 + 8 * n) (st.r2 + 8 * n) (st.r3 + 8 * n)).l0 := by
      rw [h0]; congr 1 <;> omega
    have e1 : window4 inputData k (st.r0 + 2 * (4 * n + 1)) (st.r1 + 2 * (4 * n + 1)) (st.r2 + 2 * (4 * n + 1)) (st.r3 + 2 * (4 * n + 1))
        = (bulkVector inputData k (st.r0 + 8 * n) (st.r1 + 8 * n) (st.r2 + 8 * n) (st.r3 + 8 * n)).l1 := by
      rw [h1]; congr 1 <;> omega
    have e2 : window4 inputData k (st.r0 + 2 * (4 * n + 2)) (st.r1 + 2 * (4 * n + 2)) (st.r2 + 2 * (4 * n + 2)) (st.r3 + 2 * (4 * n + 2))
        = (bulkVector inputData k (st.r0 + 8 * n) (st.r1 + 8 * n) (st.r2 + 8 * n) (st.r3 + 8 * n)).l2 := by
      rw [h2]; congr 1 <;> omega
    have e3 : window4 inputData k (st.r0 + 2 * (4 * n + 3)) (st.r1 + 2 * (4 * n + 3)) (st.r2 + 2 * (4 * n + 3)) (st.r3 + 2 * (4 * n + 3))
        = (bulkVector inputData k (st.r0 + 8 * n) (st.r1 + 8 * n) (st.r2 + 8 * n) (st.r3 + 8 * n)).l3 := by
      rw [h3]; congr 1 <;> omega
    rw [vst1q_f32_eq_fill _ _ _
      (fun l => window4 inputData k (st.r0 + 2 * (4 * n + l)) (st.r1 + 2 * (4 * n + l)) (st.r2 + 2 * (4 * n + l)) (st.r3 + 2 * (4 * n + l))) e0 e1 e2 e3]
    rw [fill_append st.outputData (4 * n) 4
      (fun t => window4 inputData k (st.r0 + 2 * t) (st.r1 + 2 * t) (st.r2 + 2 * t) (st.r3 + 2 * t)) st.output]
    simp only [Nat.mul_succ, Nat.add_assoc]

theorem remainLoop_eq_42 (inputData : Nat → α) (k : Filter4 α) (n : Nat) (st : State4 α) :
    forLoop n (fun _ st => remainStep inputData k st) st =
      { r0 := st.r0 + 2 * n, r1 := st.r1 + 2 * n, r2 := st.r2 + 2 * n, r3 := st.r3 + 2 * n,
        outputData := st.outputData + n,
        output := fill st.outputData n
          (fun t => window4 inputData k (st.r0 + 2 * t) (st.r1 + 2 * t) (st.r2 + 2 * t) (st.r3 + 2 * t)) st.output } := by
  induction n with
  | zero =>
    cases st
    simp [forLoop, fill_zero]
  | succ n ih =>
    show remainStep inputData k (forLoop n _ st) = _
    rw [ih]
    simp only [remainStep]
    rw [store_eq_fill _ _ _
      (fun l => window4 inputData k (st.r0 + 2 * (n + l)) (st.r1 + 2 * (n + l)) (st.r2 + 2 * (n + l)) (st.r3 + 2 * (n + l)))
      (by rw [remainValue4_eq]; rfl)]
    rw [fill_append st.outputData n 1
      (fun t => window4 inputData k (st.r0 + 2 * t) (st.r1 + 2 * t) (st.r2 + 2 * t) (st.r3 + 2 * t)) st.output]
    simp only [Nat.mul_succ, Nat.add_assoc]

theorem rowBody_eq_42 (inputData : Nat → α) (k : Filter4 α)
    (start inputWidth outputWidth h : Nat) (st : State4 α) :
    rowBody inputData k start inputWidth (outputWidth >>> 2) (outputWidth &&& 3) h st =
      { r0 := start + 2 * h * inputWidth + 2 * outputWidth, r1 := start + (2 * h + 1) * inputWidth + 2 * outputWidth, r2 := start + (2 * h + 2) * inputWidth + 2 * outputWidth, r3 := start + (2 * h + 3) * inputWidth + 2 * outputWidth,
        outputData := st.outputData + outputWidth,
        output := fill st.outputData outputWidth
          (fun t => window4 inputData k (start + 2 * h * inputWidth + 2 * t) (start + (2 * h + 1) * inputWidth + 2 * t) (start + (2 * h + 2) * inputWidth + 2 * t) (start + (2 * h + 3) * inputWidth + 2 * t)) st.output } := by
  have hw : 4 * (outputWidth / 4) + outputWidth % 4 = outputWidth := by omega
  have hw2 : 8 * (outputWidth / 4) + 2 * (outputWidth % 4) = 2 * outputWidth := by omega
  simp only [rowBody, bulkLoop_eq_42, remainLoop_eq_42 inputData k, shiftRight_two, and_three]
  rw [fill_append_of st.outputData (4 * (outputWidth / 4)) (outputWidth % 4) _
    (fun t => window4 inputData k (start + 2 * h * inputWidth + 2 * t) (start + (2 * h + 1) * inputWidth + 2 * t) (start + (2 * h + 2) * inputWidth + 2 * t) (start + (2 * h + 3) * inputWidth + 2 * t)) st.output
    (fun l _ => by congr 1 <;> omega)]
  simp only [Nat.add_assoc, hw, hw2]

theorem rowLoop_eq_42 (inputData : Nat → α) (k : Filter4 α)
    (start inputWidth outputWidth n : Nat) (st : State4 α) :
    (forLoop n (rowBody inputData k start inputWidth (outputWidth >>> 2) (outputWidth &&& 3))
        st).outputData = st.outputData + n * outputWidth ∧
    (forLoop n (rowBody inputData k start inputWidth (outputWidth >>> 2) (outputWidth &&& 3))
        st).output =
      fill st.outputData (n * outputWidth)
        (fun t => window4 inputData k (start + 2 * (t / outputWidth) * inputWidth + 2 * (t % outputWidth)) (start + (2 * (t / outputWidth) + 1) * inputWidth + 2 * (t % outputWidth)) (start + (2 * (t / outputWidth) + 2) * inputWidth + 2 * (t % outputWidth)) (start + (2 * (t / outputWidth) + 3) * inputWidth + 2 * (t % outputWidth)))
        st.output := by
  have key := forLoop_fill (fun s : State4 α => s.outputData) (fun s => s.output)
    (fun _ _ => True) outputWidth
    (fun t => window4 inputData k (start + 2 * (t / outputWidth) * inputWidth + 2 * (t % outputWidth)) (start + (2 * (t / outputWidth) + 1) * inputWidth + 2 * (t % outputWidth)) (start + (2 * (t / outputWidth) + 2) * inputWidth + 2 * (t % outputWidth)) (start + (2 * (t / outputWidth) + 3) * inputWidth + 2 * (t % outputWidth)))
    (rowBody inputData k start inputWidth (outputWidth >>> 2) (outputWidth &&& 3)) n
    (fun i s _ _ => by
      rw [rowBody_eq_42 inputData k]
      refine ⟨trivial, rfl, ?_⟩
      simp only
      apply fill_congr
      intro l hl
      simp only [block_div i outputWidth l hl, block_mod i outputWidth l hl])
    st trivial
  exact key.2

theorem channelBody_eq_42 (inputData filterData : Nat → α)
    (inputHeight inputWidth outputHeight outputWidth filterMultiplier c : Nat)
    (cs : ChannelState α) :
    channelBody inputData filterData inputHeight inputWidth outputHeight
        (outputWidth >>> 2) (outputWidth &&& 3) filterMultiplier c cs =
      { filterData := cs.filterData + 16,
        outputData := cs.outputData + outputHeight * outputWidth,
        output := fill cs.outputData (outputHeight * outputWidth)
          (fun t => window4 inputData (loadFilter4 filterData cs.filterData) ((c / filterMultiplier) * (inputHeight * inputWidth) + 2 * (t / outputWidth) * inputWidth + 2 * (t % outputWidth)) ((c / filterMultiplier) * (inputHeight * inputWidth) + (2 * (t / outputWidth) + 1) * inputWidth + 2 * (t % outputWidth)) ((c / filterMultiplier) * (inputHeight * inputWidth) + (2 * (t / outputWidth) + 2) * inputWidth + 2 * (t % outputWidth)) ((c / filterMultiplier) * (inputHeight * inputWidth) + (2 * (t / outputWidth) + 3) * inputWidth + 2 * (t % outputWidth)))
          cs.output } := by
  obtain ⟨h1, h2⟩ := rowLoop_eq_42 inputData (loadFilter4 filterData cs.filterData) 
    ((c / filterMultiplier) * (inputHeight * inputWidth)) inputWidth outputWidth outputHeight
    ⟨(c / filterMultiplier) * (inputHeight * inputWidth), (c / filterMultiplier) * (inputHeight * inputWidth), (c / filterMultiplier) * (inputHeight * inputWidth), (c / filterMultiplier) * (inputHeight * inputWidth), cs.outputData, cs.output⟩
  simp only [channelBody, h1, h2]

theorem channelLoop_eq_42 (inputData filterData : Nat → α)
    (inputHeight inputWidth outputHeight outputWidth filterMultiplier n : Nat)
    (cs : ChannelState α) :
    forLoop n (channelBody inputData filterData inputHeight inputWidth outputHeight
        (outputWidth >>> 2) (outputWidth &&& 3) filterMultiplier) cs =
      { filterData := cs.filterData + 16 * n,
        outputData := cs.outputData + n * (outputHeight * outputWidth),
        output := fill cs.outputData (n * (outputHeight * outputWidth))
          (fun t => window4 inputData (loadFilter4 filterData (cs.filterData + 16 * (t / (outputHeight * outputWidth)))) (((t / (outputHeight * outputWidth)) / filterMultiplier) * (inputHeight * inputWidth) + 2 * ((t % (outputHeight * outputWidth)) / outputWidth) * inputWidth + 2 * ((t % (outputHeight * outputWidth)) % outputWidth)) (((t / (outputHeight * outputWidth)) / filterMultiplier) * (inputHeight * inputWidth) + (2 * ((t % (outputHeight * outputWidth)) / outputWidth) + 1) * inputWidth + 2 * ((t % (outputHeight * outputWidth)) % outputWidth)) (((t / (outputHeight * outputWidth)) / filterMultiplier) * (inputHeight * inputWidth) + (2 * ((t % (outputHeight * outputWidth)) / outputWidth) + 2) * inputWidth + 2 * ((t % (outputHeight * outputWidth)) % outputWidth)) (((t / (outputHeight * outputWidth)) / filterMultiplier) * (inputHeight * inputWidth) + (2 * ((t % (outputHeight * outputWidth)) / outputWidth) + 3) * inputWidth + 2 * ((t % (outputHeight * outputWidth)) % outputWidth)))
          cs.output } := by
  induction n with
  | zero =>
    cases cs
    simp [forLoop, fill_zero]
  | succ n ih =>
    show channelBody inputData filterData inputHeight inputWidth outputHeight
        (outputWidth >>> 2) (outputWidth &&& 3) filterMultiplier n (forLoop n _ cs) = _
    rw [ih, channelBody_eq_42]
    simp only
    rw [fill_block]
    · have e1 : 16 * (n + 1) = 16 * n + 16 := by omega
      simp only [Nat.succ_mul, e1, Nat.add_assoc]
    · intro l hl
      simp only [block_div n (outputHeight * outputWidth) l hl,
        block_mod n (outputHeight * outputWidth) l hl]

/-- The value of every output element written by `DepthwiseConvKernel<4, 2>::run`,
for arbitrary dimensions. -/
theorem run_apply_42 (inputData filterData outputData : Nat → α)
    (inputHeight inputWidth outputChannels outputHeight outputWidth filterMultiplier : Nat)
    (c h w : Nat) (hc : c < outputChannels) (hh : h < outputHeight) (hw : w < outputWidth) :
    run inputData filterData inputHeight inputWidth outputChannels outputHeight outputWidth
        filterMultiplier outputData (c * (outputHeight * outputWidth) + (h * outputWidth + w)) =
      window4 inputData (loadFilter4 filterData (16 * c)) ((c / filterMultiplier) * (inputHeight * inputWidth) + 2 * h * inputWidth + 2 * w) ((c / filterMultiplier) * (inputHeight * inputWidth) + (2 * h + 1) * inputWidth + 2 * w) ((c / filterMultiplier) * (inputHeight * inputWidth) + (2 * h + 2) * inputWidth + 2 * w) ((c / filterMultiplier) * (inputHeight * inputWidth) + (2 * h + 3) * inputWidth + 2 * w) := by
  have hl : h * outputWidth + w < outputHeight * outputWidth := block_lt _ _ _ _ hh hw
  have ht : c * (outputHeight * outputWidth) + (h * outputWidth + w)
      < outputChannels * (outputHeight * outputWidth) := block_lt _ _ _ _ hc hl
  have h0 := fill_apply_in 0 (outputChannels * (outputHeight * outputWidth))
    (fun t => window4 inputData (loadFilter4 filterData (0 + 16 * (t / (outputHeight * outputWidth)))) (((t / (outputHeight * outputWidth)) / filterMultiplier) * (inputHeight * inputWidth) + 2 * ((t % (outputHeight * outputWidth)) / outputWidth) * inputWidth + 2 * ((t % (outputHeight * outputWidth)) % outputWidth)) (((t / (outputHeight * outputWidth)) / filterMultiplier) * (inputHeight * inputWidth) + (2 * ((t % (outputHeight * outputWidth)) / outputWidth) + 1) * inputWidth + 2 * ((t % (outputHeight * outputWidth)) % outputWidth)) (((t / (outputHeight * outputWidth)) / filterMultiplier) * (inputHeight * inputWidth) + (2 * ((t % (outputHeight * outputWidth)) / outputWidth) + 2) * inputWidth + 2 * ((t % (outputHeight * outputWidth)) % outputWidth)) (((t / (outputHeight * outputWidth)) / filterMultiplier) * (inputHeight * inputWidth) + (2 * ((t % (outputHeight * outputWidth)) / outputWidth) + 3) * inputWidth + 2 * ((t % (outputHeight * outputWidth)) % outputWidth)))
    outputData _ ht
  simp only [Nat.zero_add] at h0
  simp only [run, channelLoop_eq_42, Nat.zero_add, h0, block_div c _ _ hl, block_mod c _ _ hl,
    block_div h _ _ hw, block_mod h _ _ hw]

end DepthwiseConvKernel_4_2

end Loops42

/-! ## Window sums as double sums over the taps -/

section WindowSums

variable {α : Type} [CommSemiring α]

/-- The 3x3 window sum with the filter registers loaded at `filterData + p` is the
double sum over the taps; `f i j` is the offset of the input element under tap `(i, j)`. -/
theorem window3_eq_sum (inputData filterData : Nat → α) (p a0 a1 a2 : Nat)
    (f : Nat → Nat → Nat) (h0 : ∀ j, f 0 j = a0 + j) (h1 : ∀ j, f 1 j = a1 + j)
    (h2 : ∀ j, f 2 j = a2 + j) :
    window3 inputData (loadFilter3 filterData p) a0 a1 a2 =
      ∑ i ∈ Finset.range 3, ∑ j ∈ Finset.range 3,
        inputData (f i j) * filterData (p + 3 * i + j) := by
  simp only [Finset.sum_range_succ, Finset.sum_range_zero, h0, h1, h2, window3, loadFilter3,
    vld1q_f32, vsetq_lane_f32, Nat.mul_zero, Nat.add_zero, Nat.mul_one, zero_add,
    Nat.add_assoc, Nat.reduceAdd, Nat.reduceMul]
  ring

/-- The 4x4 window sum with the filter registers loaded at `filterData + p` is the
double sum over the taps; `f i j` is the offset of the input element under tap `(i, j)`. -/
theorem window4_eq_sum (inputData filterData : Nat → α) (p a0 a1 a2 a3 : Nat)
    (f : Nat → Nat → Nat) (h0 : ∀ j, f 0 j = a0 + j) (h1 : ∀ j, f 1 j = a1 + j)
    (h2 : ∀ j, f 2 j = a2 + j) (h3 : ∀ j, f 3 j = a3 + j) :
    window4 inputData (loadFilter4 filterData p) a0 a1 a2 a3 =
      ∑ i ∈ Finset.range 4, ∑ j ∈ Finset.range 4,
        inputData (f i j) * filterData (p + 4 * i + j) := by
  simp only [Finset.sum_range_succ, Finset.sum_range_zero, h0, h1, h2, h3, window4,
    loadFilter4, vld1q_f32, Nat.mul_zero, Nat.add_zero, Nat.mul_one, zero_add,
    Nat.add_assoc, Nat.reduceAdd, Nat.reduceMul]
  ring

end WindowSums

/-! ## The kernels compute the reference correlation -/

section Reference

variable {α : Type} [CommSemiring α]

/-- C1: `DepthwiseConvKernel<3, 1>::run` computes the reference correlation.  In exact
arithmetic, for a positive `filterMultiplier`, `inputWidth = outputWidth + 2` and
`inputHeight ≥ outputHeight + 2`, the element written at flat output index
`c * outputHeight * outputWidth + h * outputWidth + w` is the sum over the taps
`i, j < 3` of `input[(c / filterMultiplier) * inputHeight * inputWidth
+ (h + i) * inputWidth + (w + j)] * filter[9 * c + 3 * i + j]`, whether the column is
handled by the bulk pass or by the remainder pass. -/
theorem depthwiseConv_3_1_reference (inputData filterData outputData : Nat → α)
    (inputHeight inputWidth outputChannels outputHeight outputWidth filterMultiplier : Nat)
    (_hfm : 0 < filterMultiplier) (hW : inputWidth = outputWidth + 2)
    (_hH : outputHeight + 2 ≤ inputHeight)
    (c h w : Nat) (hc : c < outputChannels) (hh : h < outputHeight) (hw : w < outputWidth) :
    DepthwiseConvKernel_3_1.run inputData filterData inputHeight inputWidth outputChannels
        outputHeight outputWidth filterMultiplier outputData
        (c * outputHeight * outputWidth + h * outputWidth + w) =
      ∑ i ∈ Finset.range 3, ∑ j ∈ Finset.range 3,
        inputData ((c / filterMultiplier) * inputHeight * inputWidth
          + (h + i) * inputWidth + (w + j)) * filterData (9 * c + 3 * i + j) := by
  have hidx : c * outputHeight * outputWidth + h * outputWidth + w
      = c * (outputHeight * outputWidth) + (h * outputWidth + w) := by ring
  rw [hidx, DepthwiseConvKernel_3_1.run_apply_31 _ _ _ _ _ _ _ _ _ c h w hc hh hw]
  subst hW
  apply window3_eq_sum <;> intro j <;> ring

/-- C2: `DepthwiseConvKernel<3, 2>::run` computes the reference correlation with
stride 2.  In exact arithmetic, for a positive `filterMultiplier`,
`inputWidth ≥ 2 * (outputWidth - 1) + 3` (written `2 * outputWidth + 1 ≤ inputWidth`)
and `inputHeight ≥ 2 * (outputHeight - 1) + 3`, the element written at flat output
index `c * outputHeight * outputWidth + h * outputWidth + w` is the sum over the taps
`i, j < 3` of `input[(c / filterMultiplier) * inputHeight * inputWidth
+ (2 * h + i) * inputWidth + (2 * w + j)] * filter[9 * c + 3 * i + j]`. -/
theorem depthwiseConv_3_2_reference (inputData filterData outputData : Nat → α)
    (inputHeight inputWidth outputChannels outputHeight outputWidth filterMultiplier : Nat)
    (_hfm : 0 < filterMultiplier) (_hW : 2 * outputWidth + 1 ≤ inputWidth)
    (_hH : 2 * outputHeight + 1 ≤ inputHeight)
    (c h w : Nat) (hc : c < outputChannels) (hh : h < outputHeight) (hw : w < outputWidth) :
    DepthwiseConvKernel_3_2.run inputData filterData inputHeight inputWidth outputChannels
        outputHeight outputWidth filterMultiplier outputData
        (c * outputHeight * outputWidth + h * outputWidth + w) =
      ∑ i ∈ Finset.range 3, ∑ j ∈ Finset.range 3,
        inputData ((c / filterMultiplier) * inputHeight * inputWidth
          + (2 * h + i) * inputWidth + (2 * w + j)) * filterData (9 * c + 3 * i + j) := by
  have hidx : c * outputHeight * outputWidth + h * outputWidth + w
      = c * (outputHeight * outputWidth) + (h * outputWidth + w) := by ring
  rw [hidx, DepthwiseConvKernel_3_2.run_apply_32 _ _ _ _ _ _ _ _ _ c h w hc hh hw]
  apply window3_eq_sum <;> intro j <;> ring

/-- C3: `DepthwiseConvKernel<4, 1>::run` computes the reference correlation.  In exact
arithmetic, for a positive `filterMultiplier`, `inputWidth = outputWidth + 3` and
`inputHeight ≥ outputHeight + 3`, the element written at flat output index
`c * outputHeight * outputWidth + h * outputWidth + w` is the sum over the taps
`i, j < 4` of `input[(c / filterMultiplier) * inputHeight * inputWidth
+ (h + i) * inputWidth + (w + j)] * filter[16 * c + 4 * i + j]`. -/
theorem depthwiseConv_4_1_reference (inputData filterData outputData : Nat → α)
    (inputHeight inputWidth outputChannels outputHeight outputWidth filterMultiplier : Nat)
    (_hfm : 0 < filterMultiplier) (hW : inputWidth = outputWidth + 3)
    (_hH : outputHeight + 3 ≤ inputHeight)
    (c h w : Nat) (hc : c < outputChannels) (hh : h < outputHeight) (hw : w < outputWidth) :
    DepthwiseConvKernel_4_1.run inputData filterData inputHeight inputWidth outputChannels
        outputHeight outputWidth filterMultiplier outputData
        (c * outputHeight * outputWidth + h * outputWidth + w) =
      ∑ i ∈ Finset.range 4, ∑ j ∈ Finset.range 4,
        inputData ((c / filterMultiplier) * inputHeight * inputWidth
          + (h + i) * inputWidth + (w + j)) * filterData (16 * c + 4 * i + j) := by
  have hidx : c * outputHeight * outputWidth + h * outputWidth + w
      = c * (outputHeight * outputWidth) + (h * outputWidth + w) := by ring
  rw [hidx, DepthwiseConvKernel_4_1.run_apply_41 _ _ _ _ _ _ _ _ _ c h w hc hh hw]
  subst hW
  apply window4_eq_sum <;> intro j <;> ring

/-- C4: `DepthwiseConvKernel<4, 2>::run` computes the reference correlation with
stride 2.  In exact arithmetic, for a positive `filterMultiplier`,
`inputWidth ≥ 2 * (outputWidth - 1) + 4` (written `2 * outputWidth + 2 ≤ inputWidth`)
and `inputHeight ≥ 2 * (outputHeight - 1) + 4`, the element written at flat output
index `c * outputHeight * outputWidth + h * outputWidth + w` is the sum over the taps
`i, j < 4` of `input[(c / filterMultiplier) * inputHeight * inputWidth
+ (2 * h + i) * inputWidth + (2 * w + j)] * filter[16 * c + 4 * i + j]`. -/
theorem depthwiseConv_4_2_reference (inputData filterData outputData : Nat → α)
    (inputHeight inputWidth outputChannels outputHeight outputWidth filterMultiplier : Nat)
    (_hfm : 0 < filterMultiplier) (_hW : 2 * outputWidth + 2 ≤ inputWidth)
    (_hH : 2 * outputHeight + 2 ≤ inputHeight)
    (c h w : Nat) (hc : c < outputChannels) (hh : h < outputHeight) (hw : w < outputWidth) :
    DepthwiseConvKernel_4_2.run inputData filterData inputHeight inputWidth outputChannels
        outputHeight outputWidth filterMultiplier outputData
        (c * outputHeight * outputWidth + h * outputWidth + w) =
      ∑ i ∈ Finset.range 4, ∑ j ∈ Finset.range 4,
        inputData ((c / filterMultiplier) * inputHeight * inputWidth
          + (2 * h + i) * inputWidth + (2 * w + j)) * filterData (16 * c + 4 * i + j) := by
  have hidx : c * outputHeight * outputWidth + h * outputWidth + w
      = c * (outputHeight * outputWidth) + (h * outputWidth + w) := by ring
  rw [hidx, DepthwiseConvKernel_4_2.run_apply_42 _ _ _ _ _ _ _ _ _ c h w hc hh hw]
  apply window4_eq_sum <;> intro j <;> ring

/-- Witness for C1: one channel of a 6x6 input, 4x4 output, the element at row 1,
column 3 (a column of the bulk pass). -/
theorem depthwiseConv_3_1_reference_witness :
    (0 < 1 ∧ 6 = 4 + 2 ∧ 4 + 2 ≤ 6 ∧ 0 < 1 ∧ 1 < 4 ∧ 3 < 4) ∧
    DepthwiseConvKernel_3_1.run (fun p => (p : Int)) (fun p => (p : Int) + 1) 6 6 1 4 4 1
        (fun _ => 0) (0 * 4 * 4 + 1 * 4 + 3) =
      ∑ i ∈ Finset.range 3, ∑ j ∈ Finset.range 3,
        (fun p : Nat => (p : Int)) ((0 / 1) * 6 * 6 + (1 + i) * 6 + (3 + j))
          * (fun p : Nat => (p : Int) + 1) (9 * 0 + 3 * i + j) :=
  ⟨by decide, depthwiseConv_3_1_reference (fun p => (p : Int)) (fun p => (p : Int) + 1)
    (fun _ => 0) 6 6 1 4 4 1 (by decide) rfl (by decide) 0 1 3 (by decide) (by decide)
    (by decide)⟩

/-- Witness for C2: two channels sharing one 7x7 input channel, 3x3 output, an element
of the second output channel handled by the remainder pass. -/
theorem depthwiseConv_3_2_reference_witness :
    (0 < 2 ∧ 2 * 3 + 1 ≤ 7 ∧ 2 * 3 + 1 ≤ 7 ∧ 1 < 2 ∧ 2 < 3 ∧ 1 < 3) ∧
    DepthwiseConvKernel_3_2.run (fun p => (p : Int)) (fun p => (p : Int) + 1) 7 7 2 3 3 2
        (fun _ => 0) (1 * 3 * 3 + 2 * 3 + 1) =
      ∑ i ∈ Finset.range 3, ∑ j ∈ Finset.range 3,
        (fun p : Nat => (p : Int)) ((1 / 2) * 7 * 7 + (2 * 2 + i) * 7 + (2 * 1 + j))
          * (fun p : Nat => (p : Int) + 1) (9 * 1 + 3 * i + j) :=
  ⟨by decide, depthwiseConv_3_2_reference (fun p => (p : Int)) (fun p => (p : Int) + 1)
    (fun _ => 0) 7 7 2 3 3 2 (by decide) (by decide) (by decide) 1 2 1 (by decide)
    (by decide) (by decide)⟩

/-- Witness for C3: one channel of an 8x8 input, 5x5 output, the element at row 2,
column 4 (the column of the remainder pass). -/
theorem depthwiseConv_4_1_reference_witness :
    (0 < 1 ∧ 8 = 5 + 3 ∧ 5 + 3 ≤ 8 ∧ 0 < 1 ∧ 2 < 5 ∧ 4 < 5) ∧
    DepthwiseConvKernel_4_1.run (fun p => (p : Int)) (fun p => (p : Int) + 1) 8 8 1 5 5 1
        (fun _ => 0) (0 * 5 * 5 + 2 * 5 + 4) =
      ∑ i ∈ Finset.range 4, ∑ j ∈ Finset.range 4,
        (fun p : Nat => (p : Int)) ((0 / 1) * 8 * 8 + (2 + i) * 8 + (4 + j))
          * (fun p : Nat => (p : Int) + 1) (16 * 0 + 4 * i + j) :=
  ⟨by decide, depthwiseConv_4_1_reference (fun p => (p : Int)) (fun p => (p : Int) + 1)
    (fun _ => 0) 8 8 1 5 5 1 (by decide) rfl (by decide) 0 2 4 (by decide) (by decide)
    (by decide)⟩

/-- Witness for C4: one channel of a 12x12 input, 5x5 output, an element of the bulk
pass. -/
theorem depthwiseConv_4_2_reference_witness :
    (0 < 1 ∧ 2 * 5 + 2 ≤ 12 ∧ 2 * 5 + 2 ≤ 12 ∧ 0 < 1 ∧ 4 < 5 ∧ 3 < 5) ∧
    DepthwiseConvKernel_4_2.run (fun p => (p : Int)) (fun p => (p : Int) + 1) 12 12 1 5 5 1
        (fun _ => 0) (0 * 5 * 5 + 4 * 5 + 3) =
      ∑ i ∈ Finset.range 4, ∑ j ∈ Finset.range 4,
        (fun p : Nat => (p : Int)) ((0 / 1) * 12 * 12 + (2 * 4 + i) * 12 + (2 * 3 + j))
          * (fun p : Nat => (p : Int) + 1) (16 * 0 + 4 * i + j) :=
  ⟨by decide, depthwiseConv_4_2_reference (fun p => (p : Int)) (fun p => (p : Int) + 1)
    (fun _ => 0) 12 12 1 5 5 1 (by decide) (by decide) (by decide) 0 4 3 (by decide)
    (by decide) (by decide)⟩

/-! ## Stride-1 kernels on inputs wider than the window span -/

/-- C8, as stated, fails: on a 4x4 input with a 2x1 output (3x3 filter) and on a 5x5
input with a 2x1 output (4x4 filter) the input is one column wider than the minimum;
with the identity input and a one-hot filter at tap `(0, 0)`, the element of output
row 1 is not the one the contract formula names. -/
theorem stride1_wide_input_counterexample :
    ((3 + (1 - 1) ≤ 4 ∧ 3 + (2 - 1) ≤ 4 ∧ 0 < 1 ∧ 1 < 2 ∧ 0 < 1) ∧
      DepthwiseConvKernel_3_1.run (fun p => (p : Int)) (fun p => if p = 0 then 1 else 0)
          4 4 1 2 1 1 (fun _ => 0) (0 * 2 * 1 + 1 * 1 + 0) ≠
        ∑ i ∈ Finset.range 3, ∑ j ∈ Finset.range 3,
          (fun p : Nat => (p : Int)) ((0 / 1) * 4 * 4 + (1 + i) * 4 + (0 + j))
            * (fun p : Nat => if p = 0 then (1 : Int) else 0) (9 * 0 + 3 * i + j)) ∧
    ((4 + (1 - 1) ≤ 5 ∧ 4 + (2 - 1) ≤ 5 ∧ 0 < 1 ∧ 1 < 2 ∧ 0 < 1) ∧
      DepthwiseConvKernel_4_1.run (fun p => (p : Int)) (fun p => if p = 0 then 1 else 0)
          5 5 1 2 1 1 (fun _ => 0) (0 * 2 * 1 + 1 * 1 + 0) ≠
        ∑ i ∈ Finset.range 4, ∑ j ∈ Finset.range 4,
          (fun p : Nat => (p : Int)) ((0 / 1) * 5 * 5 + (1 + i) * 5 + (0 + j))
            * (fun p : Nat => if p = 0 then (1 : Int) else 0) (16 * 0 + 4 * i + j)) := by
  decide

/-- C8, amended: in exact arithmetic, for every `inputWidth` and `inputHeight` (in
particular for `inputWidth ≥ filterSize + (outputWidth - 1)`), the stride-1 kernels
write at output `[c][h][w]` the sum over the taps `i, j < filterSize` of
`input[(c / filterMultiplier) * inputHeight * inputWidth
+ h * (outputWidth + filterSize - 1) + i * inputWidth + (w + j)] * filter[c][i][j]`:
the rows of one window are `inputWidth` apart, the windows of successive output rows
start `outputWidth + filterSize - 1` elements apart. -/
theorem stride1_row_advance (inputData filterData outputData : Nat → α)
    (inputHeight inputWidth outputChannels outputHeight outputWidth filterMultiplier : Nat)
    (c h w : Nat) (hc : c < outputChannels) (hh : h < outputHeight) (hw : w < outputWidth) :
    DepthwiseConvKernel_3_1.run inputData filterData inputHeight inputWidth outputChannels
        outputHeight outputWidth filterMultiplier outputData
        (c * outputHeight * outputWidth + h * outputWidth + w) =
      ∑ i ∈ Finset.range 3, ∑ j ∈ Finset.range 3,
        inputData ((c / filterMultiplier) * inputHeight * inputWidth
          + h * (outputWidth + 2) + i * inputWidth + (w + j))
          * filterData (9 * c + 3 * i + j) ∧
    DepthwiseConvKernel_4_1.run inputData filterData inputHeight inputWidth outputChannels
        outputHeight outputWidth filterMultiplier outputData
        (c * outputHeight * outputWidth + h * outputWidth + w) =
      ∑ i ∈ Finset.range 4, ∑ j ∈ Finset.range 4,
        inputData ((c / filterMultiplier) * inputHeight * inputWidth
          + h * (outputWidth + 3) + i * inputWidth + (w + j))
          * filterData (16 * c + 4 * i + j) := by
  have hidx : c * outputHeight * outputWidth + h * outputWidth + w
      = c * (outputHeight * outputWidth) + (h * outputWidth + w) := by ring
  constructor
  · rw [hidx, DepthwiseConvKernel_3_1.run_apply_31 _ _ _ _ _ _ _ _ _ c h w hc hh hw]
    apply window3_eq_sum <;> intro j <;> ring
  · rw [hidx, DepthwiseConvKernel_4_1.run_apply_41 _ _ _ _ _ _ _ _ _ c h w hc hh hw]
    apply window4_eq_sum <;> intro j <;> ring

/-- Witness for the amended C8, at the shapes of the counterexample. -/
theorem stride1_row_advance_witness :
    (0 < 1 ∧ 1 < 2 ∧ 0 < 1) ∧
    (DepthwiseConvKernel_3_1.run (fun p => (p : Int)) (fun p => if p = 0 then 1 else 0)
        4 4 1 2 1 1 (fun _ => 0) (0 * 2 * 1 + 1 * 1 + 0) =
      ∑ i ∈ Finset.range 3, ∑ j ∈ Finset.range 3,
        (fun p : Nat => (p : Int)) ((0 / 1) * 4 * 4 + 1 * (1 + 2) + i * 4 + (0 + j))
          * (fun p : Nat => if p = 0 then (1 : Int) else 0) (9 * 0 + 3 * i + j) ∧
    DepthwiseConvKernel_4_1.run (fun p => (p : Int)) (fun p => if p = 0 then 1 else 0)
        4 4 1 2 1 1 (fun _ => 0) (0 * 2 * 1 + 1 * 1 + 0) =
      ∑ i ∈ Finset.range 4, ∑ j ∈ Finset.range 4,
        (fun p : Nat => (p : Int)) ((0 / 1) * 4 * 4 + 1 * (1 + 3) + i * 4 + (0 + j))
          * (fun p : Nat => if p = 0 then (1 : Int) else 0) (16 * 0 + 4 * i + j)) :=
  ⟨by decide, stride1_row_advance (fun p => (p : Int)) (fun p => if p = 0 then 1 else 0)
    (fun _ => 0) 4 4 1 2 1 1 0 1 0 (by decide) (by decide) (by decide)⟩

/-! ## One-hot filters and window addressing -/

theorem onehot_sum (n : Nat) (F : Nat → Nat → α) (g : Nat → Nat → α) (i0 j0 : Nat)
    (hi0 : i0 < n) (hj0 : j0 < n)
    (hg : ∀ i, i < n → ∀ j, j < n → g i j = if i = i0 ∧ j = j0 then 1 else 0) :
    ∑ i ∈ Finset.range n, ∑ j ∈ Finset.range n, F i j * g i j = F i0 j0 := by
  rw [Finset.sum_eq_single i0]
  · rw [Finset.sum_eq_single j0]
    · rw [hg i0 hi0 j0 hj0]
      simp
    · intro j hj hne
      rw [hg i0 hi0 j (Finset.mem_range.mp hj)]
      simp [hne]
    · intro hn
      exact absurd (Finset.mem_range.mpr hj0) hn
  · intro i hi hne
    apply Finset.sum_eq_zero
    intro j hj
    rw [hg i (Finset.mem_range.mp hi) j (Finset.mem_range.mp hj)]
    simp [hne]
  · intro hn
    exact absurd (Finset.mem_range.mpr hi0) hn

/-- C9: window addressing with a one-hot filter.  For each variant
`(filterSize, stride)` in `(3,1), (3,2), (4,1), (4,2)`, a valid shape, a tap
`(i0, j0)` with `i0, j0 < filterSize` and a filter whose block for output channel `c`
is `1` at that tap and `0` at the other taps, the kernel writes
`output[c][h][w] = input[c / filterMultiplier][stride * h + i0][stride * w + j0]`. -/
theorem onehot_window_addressing (inputData filterData outputData : Nat → α)
    (inputHeight inputWidth outputChannels outputHeight outputWidth filterMultiplier : Nat)
    (c h w i0 j0 : Nat) (_hfm : 0 < filterMultiplier)
    (hc : c < outputChannels) (hh : h < outputHeight) (hw : w < outputWidth) :
    (validDim 3 1 inputHeight outputHeight → validDim 3 1 inputWidth outputWidth →
      i0 < 3 → j0 < 3 → oneHot 3 filterData c i0 j0 →
      DepthwiseConvKernel_3_1.run inputData filterData inputHeight inputWidth outputChannels
          outputHeight outputWidth filterMultiplier outputData
          (c * outputHeight * outputWidth + h * outputWidth + w) =
        inputData ((c / filterMultiplier) * inputHeight * inputWidth
          + (1 * h + i0) * inputWidth + (1 * w + j0))) ∧
    (validDim 3 2 inputHeight outputHeight → validDim 3 2 inputWidth outputWidth →
      i0 < 3 → j0 < 3 → oneHot 3 filterData c i0 j0 →
      DepthwiseConvKernel_3_2.run inputData filterData inputHeight inputWidth outputChannels
          outputHeight outputWidth filterMultiplier outputData
          (c * outputHeight * outputWidth + h * outputWidth + w) =
        inputData ((c / filterMultiplier) * inputHeight * inputWidth
          + (2 * h + i0) * inputWidth + (2 * w + j0))) ∧
    (validDim 4 1 inputHeight outputHeight → validDim 4 1 inputWidth outputWidth →
      i0 < 4 → j0 < 4 → oneHot 4 filterData c i0 j0 →
      DepthwiseConvKernel_4_1.run inputData filterData inputHeight inputWidth outputChannels
          outputHeight outputWidth filterMultiplier outputData
          (c * outputHeight * outputWidth + h * outputWidth + w) =
        inputData ((c / filterMultiplier) * inputHeight * inputWidth
          + (1 * h + i0) * inputWidth + (1 * w + j0))) ∧
    (validDim 4 2 inputHeight outputHeight → validDim 4 2 inputWidth outputWidth →
      i0 < 4 → j0 < 4 → oneHot 4 filterData c i0 j0 →
      DepthwiseConvKernel_4_2.run inputData filterData inputHeight inputWidth outputChannels
          outputHeight outputWidth filterMultiplier outputData
          (c * outputHeight * outputWidth + h * outputWidth + w) =
        inputData ((c / filterMultiplier) * inputHeight * inputWidth
          + (2 * h + i0) * inputWidth + (2 * w + j0))) := by
  have hidx : c * outputHeight * outputWidth + h * outputWidth + w
      = c * (outputHeight * outputWidth) + (h * outputWidth + w) := by ring
  refine ⟨?_, ?_, ?_, ?_⟩
  · intro _ hvW hi0 hj0 hot
    have hW : inputWidth = outputWidth + 2 := by
      have h1 := hvW.1
      have h2 := hvW.2
      omega
    rw [hidx, DepthwiseConvKernel_3_1.run_apply_31 _ _ _ _ _ _ _ _ _ c h w hc hh hw]
    subst hW
    rw [window3_eq_sum inputData filterData (9 * c) _ _ _
      (fun i j => (c / filterMultiplier) * inputHeight * (outputWidth + 2)
        + (1 * h + i) * (outputWidth + 2) + (1 * w + j))
      (fun j => by ring) (fun j => by ring) (fun j => by ring)]
    exact onehot_sum 3 _ (fun i j => filterData (9 * c + 3 * i + j)) i0 j0 hi0 hj0 hot
  · intro _ _ hi0 hj0 hot
    rw [hidx, DepthwiseConvKernel_3_2.run_apply_32 _ _ _ _ _ _ _ _ _ c h w hc hh hw]
    rw [window3_eq_sum inputData filterData (9 * c) _ _ _
      (fun i j => (c / filterMultiplier) * inputHeight * inputWidth
        + (2 * h + i) * inputWidth + (2 * w + j))
      (fun j => by ring) (fun j => by ring) (fun j => by ring)]
    exact onehot_sum 3 _ (fun i j => filterData (9 * c + 3 * i + j)) i0 j0 hi0 hj0 hot
  · intro _ hvW hi0 hj0 hot
    have hW : inputWidth = outputWidth + 3 := by
      have h1 := hvW.1
      have h2 := hvW.2
      omega
    rw [hidx, DepthwiseConvKernel_4_1.run_apply_41 _ _ _ _ _ _ _ _ _ c h w hc hh hw]
    subst hW
    rw [window4_eq_sum inputData filterData (16 * c) _ _ _ _
      (fun i j => (c / filterMultiplier) * inputHeight * (outputWidth + 3)
        + (1 * h + i) * (outputWidth + 3) + (1 * w + j))
      (fun j => by ring) (fun j => by ring) (fun j => by ring) (fun j => by ring)]
    exact onehot_sum 4 _ (fun i j => filterData (16 * c + 4 * i + j)) i0 j0 hi0 hj0 hot
  · intro _ _ hi0 hj0 hot
    rw [hidx, DepthwiseConvKernel_4_2.run_apply_42 _ _ _ _ _ _ _ _ _ c h w hc hh hw]
    rw [window4_eq_sum inputData filterData (16 * c) _ _ _ _
      (fun i j => (c / filterMultiplier) * inputHeight * inputWidth
        + (2 * h + i) * inputWidth + (2 * w + j))
      (fun j => by ring) (fun j => by ring) (fun j => by ring) (fun j => by ring)]
    exact onehot_sum 4 _ (fun i j => filterData (16 * c + 4 * i + j)) i0 j0 hi0 hj0 hot

/-- Witness for C9: each variant at a valid shape, with the identity input and a
one-hot filter; the output element is the offset of the addressed input element. -/
theorem onehot_window_addressing_witness :
    DepthwiseConvKernel_3_1.run (fun p => (p : Int))
        (fun p => if p = 9 * 0 + 3 * 1 + 2 then 1 else 0) 6 6 1 4 4 1 (fun _ => 0)
        (0 * 4 * 4 + 2 * 4 + 3) = ((0 / 1 * 6 * 6 + (1 * 2 + 1) * 6 + (1 * 3 + 2) : Nat) : Int) ∧
    DepthwiseConvKernel_3_2.run (fun p => (p : Int))
        (fun p => if p = 9 * 0 + 3 * 1 + 2 then 1 else 0) 6 6 1 2 2 1 (fun _ => 0)
        (0 * 2 * 2 + 1 * 2 + 1) = ((0 / 1 * 6 * 6 + (2 * 1 + 1) * 6 + (2 * 1 + 2) : Nat) : Int) ∧
    DepthwiseConvKernel_4_1.run (fun p => (p : Int))
        (fun p => if p = 16 * 0 + 4 * 3 + 1 then 1 else 0) 8 8 1 5 5 1 (fun _ => 0)
        (0 * 5 * 5 + 4 * 5 + 4) = ((0 / 1 * 8 * 8 + (1 * 4 + 3) * 8 + (1 * 4 + 1) : Nat) : Int) ∧
    DepthwiseConvKernel_4_2.run (fun p => (p : Int))
        (fun p => if p = 16 * 0 + 4 * 3 + 1 then 1 else 0) 8 8 1 3 3 1 (fun _ => 0)
        (0 * 3 * 3 + 2 * 3 + 2) = ((0 / 1 * 8 * 8 + (2 * 2 + 3) * 8 + (2 * 2 + 1) : Nat) : Int) :=
  ⟨(onehot_window_addressing (fun p => (p : Int))
      (fun p => if p = 9 * 0 + 3 * 1 + 2 then 1 else 0) (fun _ => 0) 6 6 1 4 4 1 0 2 3 1 2
      (by decide) (by decide) (by decide) (by decide)).1
      (by decide) (by decide) (by decide) (by decide) (by unfold oneHot; decide),
   (onehot_window_addressing (fun p => (p : Int))
      (fun p => if p = 9 * 0 + 3 * 1 + 2 then 1 else 0) (fun _ => 0) 6 6 1 2 2 1 0 1 1 1 2
      (by decide) (by decide) (by decide) (by decide)).2.1
      (by decide) (by decide) (by decide) (by decide) (by unfold oneHot; decide),
   (onehot_window_addressing (fun p => (p : Int))
      (fun p => if p = 16 * 0 + 4 * 3 + 1 then 1 else 0) (fun _ => 0) 8 8 1 5 5 1 0 4 4 3 1
      (by decide) (by decide) (by decide) (by decide)).2.2.1
      (by decide) (by decide) (by decide) (by decide) (by unfold oneHot; decide),
   (onehot_window_addressing (fun p => (p : Int))
      (fun p => if p = 16 * 0 + 4 * 3 + 1 then 1 else 0) (fun _ => 0) 8 8 1 3 3 1 0 2 2 3 1
      (by decide) (by decide) (by decide) (by decide)).2.2.2
      (by decide) (by decide) (by decide) (by decide) (by unfold oneHot; decide)⟩

/-! ## The remainder pass against lane 0 of a bulk step -/

/-- C10: the remainder path agrees with the bulk path.  For each of the four
variants, for any row pointers, the value the scalar remainder pass computes
(`conv3x3` / `conv4x4` applied to the 4-element loads at the row pointers and the
loaded filter registers) equals, in exact arithmetic, lane 0 of the vector one bulk
step started at the same row pointers stores. -/
theorem remainder_agrees_with_bulk_lane0 (inputData filterData : Nat → α)
    (filterOffset r0 r1 r2 r3 : Nat) :
    remainValue3 inputData (loadFilter3 filterData filterOffset) r0 r1 r2 =
      (DepthwiseConvKernel_3_1.bulkVector inputData
        (loadFilter3 filterData filterOffset) r0 r1 r2).l0 ∧
    remainValue3 inputData (loadFilter3 filterData filterOffset) r0 r1 r2 =
      (DepthwiseConvKernel_3_2.bulkVector inputData
        (loadFilter3 filterData filterOffset) r0 r1 r2).l0 ∧
    remainValue4 inputData (loadFilter4 filterData filterOffset) r0 r1 r2 r3 =
      (DepthwiseConvKernel_4_1.bulkVector inputData
        (loadFilter4 filterData filterOffset) r0 r1 r2 r3).l0 ∧
    remainValue4 inputData (loadFilter4 filterData filterOffset) r0 r1 r2 r3 =
      (DepthwiseConvKernel_4_2.bulkVector inputData
        (loadFilter4 filterData filterOffset) r0 r1 r2 r3).l0 := by
  obtain ⟨z0, z1, z2⟩ := loadFilter3_l3 filterData filterOffset
  refine ⟨?_, ?_, ?_, ?_⟩
  · rw [remainValue3_eq _ _ _ _ _ z0 z1 z2,
      (DepthwiseConvKernel_3_1.bulkVector_lanes_31 inputData _ r0 r1 r2).1]
  · rw [remainValue3_eq _ _ _ _ _ z0 z1 z2,
      (DepthwiseConvKernel_3_2.bulkVector_lanes_32 inputData _ r0 r1 r2).1]
  · rw [remainValue4_eq, (DepthwiseConvKernel_4_1.bulkVector_lanes_41 inputData _ r0 r1 r2 r3).1]
  · rw [remainValue4_eq, (DepthwiseConvKernel_4_2.bulkVector_lanes_42 inputData _ r0 r1 r2 r3).1]

end Reference

/-! ## Closed forms of the loops of `Padding::run` -/

section PaddingLoops

variable {α : Type} [Zero α]

theorem memset_eq_fill (mem : Nat → α) (p n : Nat) :
    memset mem p n = fill p n (fun _ => 0) mem := rfl

omit [Zero α] in
theorem memcpy_eq_fill (mem : Nat → α) (p : Nat) (src : Nat → α) (q n : Nat) :
    memcpy mem p src q n = fill p n (fun t => src (q + t)) mem := rfl

theorem zeroLoop_eq (n : Nat) (st : PaddingState α) :
    forLoop n (fun _ st => zeroStep st) st =
      { src := st.src, dest := st.dest + n,
        destData := fill st.dest n (fun _ => 0) st.destData } := by
  induction n with
  | zero =>
    cases st
    simp [forLoop, fill_zero]
  | succ n ih =>
    show zeroStep (forLoop n _ st) = _
    rw [ih]
    simp only [zeroStep]
    rw [store_eq_fill _ _ _ (fun _ => (0 : α)) rfl,
      fill_append st.dest n 1 (fun _ => (0 : α)) st.destData]
    simp only [Nat.add_assoc]

theorem haloRows_eq (destWidth paddingHeight : Nat) (st : PaddingState α) :
    haloRows destWidth paddingHeight st =
      { src := st.src, dest := st.dest + destWidth * paddingHeight,
        destData := fill st.dest (destWidth * paddingHeight) (fun _ => 0) st.destData } := by
  unfold haloRows
  by_cases h : paddingHeight > 0
  · rw [if_pos h, memset_eq_fill]
  · have h0 : paddingHeight = 0 := by omega
    subst h0
    cases st
    simp [fill_zero]

/-- The three segments of a padded row, written one after the other. -/
theorem paddedRow_segments (src : Nat → α) (s inputWidth paddingWidth d : Nat)
    (m : Nat → α) :
    fill (d + (paddingWidth + inputWidth)) paddingWidth (fun _ => 0)
      (fill (d + paddingWidth) inputWidth (fun t => src (s + t))
        (fill d paddingWidth (fun _ => 0) m)) =
    fill d (paddingWidth + inputWidth + paddingWidth)
      (paddedRow src s inputWidth paddingWidth) m := by
  rw [fill_congr d paddingWidth (fun _ => 0) (paddedRow src s inputWidth paddingWidth) m
      (fun t ht => by
        have hn : ¬ (paddingWidth ≤ t ∧ t < paddingWidth + inputWidth) := by omega
        simp only [paddedRow, if_neg hn]),
    fill_append_of d paddingWidth inputWidth _ (paddedRow src s inputWidth paddingWidth) m
      (fun l hl => by
        have hp : paddingWidth ≤ paddingWidth + l ∧
            paddingWidth + l < paddingWidth + inputWidth := by omega
        simp only [paddedRow, if_pos hp, Nat.add_sub_cancel_left]),
    fill_append_of d (paddingWidth + inputWidth) paddingWidth _
      (paddedRow src s inputWidth paddingWidth) m
      (fun l _ => by
        have hn : ¬ (paddingWidth ≤ paddingWidth + inputWidth + l ∧
            paddingWidth + inputWidth + l < paddingWidth + inputWidth) := by omega
        simp only [paddedRow, if_neg hn])]

namespace Padding

theorem rowBody_eq_generic (src : Nat → α) (inputWidth paddingWidth : Nat)
    (st : PaddingState α) :
    rowBody src inputWidth paddingWidth st =
      { src := st.src + inputWidth,
        dest := st.dest + (paddingWidth + inputWidth + paddingWidth),
        destData := fill st.dest (paddingWidth + inputWidth + paddingWidth)
          (paddedRow src st.src inputWidth paddingWidth) st.destData } := by
  simp only [rowBody, zeroLoop_eq, memcpy_eq_fill]
  rw [← paddedRow_segments]
  simp only [Nat.add_assoc]

theorem rowLoop_eq_generic (src : Nat → α) (inputWidth paddingWidth n : Nat)
    (st : PaddingState α) :
    forLoop n (fun _ st => rowBody src inputWidth paddingWidth st) st =
      { src := st.src + n * inputWidth,
        dest := st.dest + n * (paddingWidth + inputWidth + paddingWidth),
        destData := fill st.dest (n * (paddingWidth + inputWidth + paddingWidth))
          (fun t => paddedRow src
            (st.src + (t / (paddingWidth + inputWidth + paddingWidth)) * inputWidth)
            inputWidth paddingWidth (t % (paddingWidth + inputWidth + paddingWidth)))
          st.destData } := by
  induction n with
  | zero =>
    cases st
    simp [forLoop, fill_zero]
  | succ n ih =>
    show rowBody src inputWidth paddingWidth (forLoop n _ st) = _
    rw [ih, rowBody_eq_generic]
    simp only
    rw [fill_block]
    · simp only [Nat.succ_mul, Nat.add_assoc]
    · intro l hl
      simp only [block_div n _ l hl, block_mod n _ l hl]

/-- The top halo, the rows and the bottom halo of a padded channel, written one after
the other. -/
theorem paddedChannel_segments (src : Nat → α)
    (s inputHeight inputWidth paddingHeight paddingWidth destWidth d : Nat) (m : Nat → α) :
    fill (d + (destWidth * paddingHeight + inputHeight * destWidth))
        (destWidth * paddingHeight) (fun _ => 0)
      (fill (d + destWidth * paddingHeight) (inputHeight * destWidth)
        (fun t => paddedRow src (s + (t / destWidth) * inputWidth) inputWidth paddingWidth
          (t % destWidth))
        (fill d (destWidth * paddingHeight) (fun _ => 0) m)) =
    fill d (destWidth * paddingHeight + inputHeight * destWidth + destWidth * paddingHeight)
      (paddedChannel src s inputHeight inputWidth paddingHeight paddingWidth destWidth) m := by
  rw [fill_congr d (destWidth * paddingHeight) (fun _ => 0)
      (paddedChannel src s inputHeight inputWidth paddingHeight paddingWidth destWidth) m
      (fun t ht => by
        have h1 : t / destWidth < paddingHeight := Nat.div_lt_of_lt_mul ht
        have hn : ¬ (paddingHeight ≤ t / destWidth ∧
            t / destWidth < paddingHeight + inputHeight ∧
            paddingWidth ≤ t % destWidth ∧ t % destWidth < paddingWidth + inputWidth) := by
          omega
        simp only [paddedChannel, if_neg hn]),
    fill_append_of d (destWidth * paddingHeight) (inputHeight * destWidth) _
      (paddedChannel src s inputHeight inputWidth paddingHeight paddingWidth destWidth) m
      (fun l hl => by
        have hpos : 0 < destWidth := by
          rcases Nat.eq_zero_or_pos destWidth with h0 | h0
          · subst h0
            simp at hl
          · exact h0
        have h1 : l / destWidth < inputHeight :=
          Nat.div_lt_of_lt_mul (by rw [Nat.mul_comm]; exact hl)
        have h2 : (destWidth * paddingHeight + l) / destWidth
            = paddingHeight + l / destWidth := Nat.mul_add_div hpos _ _
        have h3 : (destWidth * paddingHeight + l) % destWidth = l % destWidth :=
          Nat.mul_add_mod _ _ _
        simp only [paddedChannel, paddedRow, h2, h3]
        by_cases hx : paddingWidth ≤ l % destWidth ∧ l % destWidth < paddingWidth + inputWidth
        · have hy : paddingHeight ≤ paddingHeight + l / destWidth ∧
              paddingHeight + l / destWidth < paddingHeight + inputHeight ∧
              paddingWidth ≤ l % destWidth ∧ l % destWidth < paddingWidth + inputWidth :=
            ⟨Nat.le_add_right _ _, Nat.add_lt_add_left h1 _, hx.1, hx.2⟩
          rw [if_pos hx, if_pos hy, Nat.add_sub_cancel_left]
        · have hy : ¬ (paddingHeight ≤ paddingHeight + l / destWidth ∧
              paddingHeight + l / destWidth < paddingHeight + inputHeight ∧
              paddingWidth ≤ l % destWidth ∧ l % destWidth < paddingWidth + inputWidth) :=
            fun hh => hx ⟨hh.2.2.1, hh.2.2.2⟩
          rw [if_neg hx, if_neg hy]),
    fill_append_of d (destWidth * paddingHeight + inputHeight * destWidth)
      (destWidth * paddingHeight) _
      (paddedChannel src s inputHeight inputWidth paddingHeight paddingWidth destWidth) m
      (fun l hl => by
        have hpos : 0 < destWidth := by
          rcases Nat.eq_zero_or_pos destWidth with h0 | h0
          · subst h0
            simp at hl
          · exact h0
        have he : destWidth * paddingHeight + inputHeight * destWidth + l
            = destWidth * (paddingHeight + inputHeight) + l := by ring
        have h2 : (destWidth * (paddingHeight + inputHeight) + l) / destWidth
            = paddingHeight + inputHeight + l / destWidth := Nat.mul_add_div hpos _ _
        have hn : ¬ (paddingHeight ≤ (paddingHeight + inputHeight + l / destWidth) ∧
            (paddingHeight + inputHeight + l / destWidth) < paddingHeight + inputHeight ∧
            paddingWidth ≤ (destWidth * (paddingHeight + inputHeight) + l) % destWidth ∧
            (destWidth * (paddingHeight + inputHeight) + l) % destWidth
              < paddingWidth + inputWidth) :=
          fun hh => absurd hh.2.1 (Nat.not_lt.mpr (Nat.le_add_right _ _))
        simp only [paddedChannel, he, h2, if_neg hn])]

theorem channelBody_eq_generic (src : Nat → α)
    (inputHeight inputWidth paddingHeight paddingWidth : Nat) (st : PaddingState α) :
    channelBody src (paddingWidth + inputWidth + paddingWidth) inputHeight inputWidth
        paddingHeight paddingWidth st =
      { src := st.src + inputHeight * inputWidth,
        dest := st.dest + ((paddingWidth + inputWidth + paddingWidth) * paddingHeight
          + inputHeight * (paddingWidth + inputWidth + paddingWidth)
          + (paddingWidth + inputWidth + paddingWidth) * paddingHeight),
        destData := fill st.dest ((paddingWidth + inputWidth + paddingWidth) * paddingHeight
            + inputHeight * (paddingWidth + inputWidth + paddingWidth)
            + (paddingWidth + inputWidth + paddingWidth) * paddingHeight)
          (paddedChannel src st.src inputHeight inputWidth paddingHeight paddingWidth
            (paddingWidth + inputWidth + paddingWidth)) st.destData } := by
  simp only [channelBody, haloRows_eq, rowLoop_eq_generic]
  rw [← paddedChannel_segments]
  simp only [Nat.add_assoc]

theorem channelLoop_eq_generic (src : Nat → α)
    (inputHeight inputWidth paddingHeight paddingWidth n : Nat) (st : PaddingState α) :
    forLoop n (fun _ st => channelBody src (paddingWidth + inputWidth + paddingWidth)
        inputHeight inputWidth paddingHeight paddingWidth st) st =
      { src := st.src + n * (inputHeight * inputWidth),
        dest := st.dest + n * ((paddingWidth + inputWidth + paddingWidth) * paddingHeight
          + inputHeight * (paddingWidth + inputWidth + paddingWidth)
          + (paddingWidth + inputWidth + paddingWidth) * paddingHeight),
        destData := fill st.dest
          (n * ((paddingWidth + inputWidth + paddingWidth) * paddingHeight
            + inputHeight * (paddingWidth + inputWidth + paddingWidth)
            + (paddingWidth + inputWidth + paddingWidth) * paddingHeight))
          (fun t => paddedChannel src
            (st.src + (t / ((paddingWidth + inputWidth + paddingWidth) * paddingHeight
              + inputHeight * (paddingWidth + inputWidth + paddingWidth)
              + (paddingWidth + inputWidth + paddingWidth) * paddingHeight))
              * (inputHeight * inputWidth))
            inputHeight inputWidth paddingHeight paddingWidth
            (paddingWidth + inputWidth + paddingWidth)
            (t % ((paddingWidth + inputWidth + paddingWidth) * paddingHeight
              + inputHeight * (paddingWidth + inputWidth + paddingWidth)
              + (paddingWidth + inputWidth + paddingWidth) * paddingHeight)))
          st.destData } := by
  induction n with
  | zero =>
    cases st
    simp [forLoop, fill_zero]
  | succ n ih =>
    show channelBody src (paddingWidth + inputWidth + paddingWidth) inputHeight inputWidth
      paddingHeight paddingWidth (forLoop n _ st) = _
    rw [ih, channelBody_eq_generic]
    simp only
    rw [fill_block]
    · simp only [Nat.succ_mul, Nat.add_assoc]
    · intro l hl
      simp only [block_div n _ l hl, block_mod n _ l hl]

/-- The buffer `Padding<T>::run` leaves behind, in closed form. -/
theorem run_eq_generic (src dest : Nat → α)
    (channels inputHeight inputWidth paddingHeight paddingWidth : Nat) :
    run src dest channels inputHeight inputWidth paddingHeight paddingWidth =
      fill 0 (channels * ((paddingWidth + inputWidth + paddingWidth) * paddingHeight
            + inputHeight * (paddingWidth + inputWidth + paddingWidth)
            + (paddingWidth + inputWidth + paddingWidth) * paddingHeight))
        (fun t => paddedChannel src
          ((t / ((paddingWidth + inputWidth + paddingWidth) * paddingHeight
              + inputHeight * (paddingWidth + inputWidth + paddingWidth)
              + (paddingWidth + inputWidth + paddingWidth) * paddingHeight))
              * (inputHeight * inputWidth))
          inputHeight inputWidth paddingHeight paddingWidth
          (paddingWidth + inputWidth + paddingWidth)
          (t % ((paddingWidth + inputWidth + paddingWidth) * paddingHeight
              + inputHeight * (paddingWidth + inputWidth + paddingWidth)
              + (paddingWidth + inputWidth + paddingWidth) * paddingHeight)))
        dest := by
  have hdw : inputWidth + 2 * paddingWidth = paddingWidth + inputWidth + paddingWidth := by
    omega
  simp only [run, hdw, channelLoop_eq_generic, Nat.zero_add]

/-- The value of every element written by `Padding<T>::run`. -/
theorem run_apply_generic (src dest : Nat → α)
    (channels inputHeight inputWidth paddingHeight paddingWidth c y x : Nat)
    (hc : c < channels) (hy : y < inputHeight + 2 * paddingHeight)
    (hx : x < inputWidth + 2 * paddingWidth) :
    run src dest channels inputHeight inputWidth paddingHeight paddingWidth
        (c * ((inputHeight + 2 * paddingHeight) * (inputWidth + 2 * paddingWidth))
          + (y * (inputWidth + 2 * paddingWidth) + x)) =
      if paddingHeight ≤ y ∧ y < paddingHeight + inputHeight ∧
          paddingWidth ≤ x ∧ x < paddingWidth + inputWidth
      then src (c * (inputHeight * inputWidth) + (y - paddingHeight) * inputWidth
        + (x - paddingWidth))
      else 0 := by
  have hdw : inputWidth + 2 * paddingWidth = paddingWidth + inputWidth + paddingWidth := by
    omega
  have hS : (inputHeight + 2 * paddingHeight) * (inputWidth + 2 * paddingWidth)
      = (paddingWidth + inputWidth + paddingWidth) * paddingHeight
        + inputHeight * (paddingWidth + inputWidth + paddingWidth)
        + (paddingWidth + inputWidth + paddingWidth) * paddingHeight := by
    ring
  have hl : y * (inputWidth + 2 * paddingWidth) + x
      < (inputHeight + 2 * paddingHeight) * (inputWidth + 2 * paddingWidth) :=
    block_lt _ _ _ _ hy hx
  have ht : c * ((inputHeight + 2 * paddingHeight) * (inputWidth + 2 * paddingWidth))
      + (y * (inputWidth + 2 * paddingWidth) + x)
      < channels * ((inputHeight + 2 * paddingHeight) * (inputWidth + 2 * paddingWidth)) :=
    block_lt _ _ _ _ hc hl
  rw [run_eq_generic, ← hS, ← hdw]
  have h0 := fill_apply_in 0
    (channels * ((inputHeight + 2 * paddingHeight) * (inputWidth + 2 * paddingWidth)))
    (fun t => paddedChannel src
      ((t / ((inputHeight + 2 * paddingHeight) * (inputWidth + 2 * paddingWidth)))
        * (inputHeight * inputWidth))
      inputHeight inputWidth paddingHeight paddingWidth (inputWidth + 2 * paddingWidth)
      (t % ((inputHeight + 2 * paddingHeight) * (inputWidth + 2 * paddingWidth))))
    dest _ ht
  simp only [Nat.zero_add] at h0
  rw [h0]
  simp only [block_div c _ _ hl, block_mod c _ _ hl, paddedChannel, block_div y _ _ hx,
    block_mod y _ _ hx]

end Padding

namespace Padding_float

omit [Zero α] in
theorem copyLoop_eq (src : Nat → α) (n : Nat) (st : PaddingState α) :
    forLoop n (fun _ st => copyStep src st) st =
      { src := st.src + 4 * n, dest := st.dest + 4 * n,
        destData := fill st.dest (4 * n) (fun t => src (st.src + t)) st.destData } := by
  induction n with
  | zero =>
    cases st
    simp [forLoop, fill_zero]
  | succ n ih =>
    show copyStep src (forLoop n _ st) = _
    rw [ih]
    simp only [copyStep]
    rw [vst1q_f32_eq_fill _ _ _ (fun l => src (st.src + (4 * n + l))) rfl
        (by simp only [vld1q_f32, Nat.add_assoc]) (by simp only [vld1q_f32, Nat.add_assoc])
        (by simp only [vld1q_f32, Nat.add_assoc]),
      fill_append st.dest (4 * n) 4 (fun t => src (st.src + t)) st.destData]
    simp only [Nat.mul_succ, Nat.add_assoc]

omit [Zero α] in
theorem copyRemainLoop_eq (src : Nat → α) (n : Nat) (st : PaddingState α) :
    forLoop n (fun _ st => remainStep src st) st =
      { src := st.src + n, dest := st.dest + n,
        destData := fill st.dest n (fun t => src (st.src + t)) st.destData } := by
  induction n with
  | zero =>
    cases st
    simp [forLoop, fill_zero]
  | succ n ih =>
    show remainStep src (forLoop n _ st) = _
    rw [ih]
    simp only [remainStep]
    rw [store_eq_fill _ _ _ (fun l => src (st.src + (n + l)))
        (show (fun l => src (st.src + (n + l))) 0 = src (st.src + n) from rfl),
      fill_append st.dest n 1 (fun t => src (st.src + t)) st.destData]
    simp only [Nat.add_assoc]

/-- The 4-wide copy loop followed by the scalar copy loop is the `memcpy` of the
generic routine: the two row bodies are the same function. -/
theorem rowBody_eq_float (src : Nat → α) (inputWidth paddingWidth : Nat)
    (st : PaddingState α) :
    rowBody src inputWidth paddingWidth st = Padding.rowBody src inputWidth paddingWidth st := by
  have hw : 4 * (inputWidth / 4) + inputWidth % 4 = inputWidth := by omega
  simp only [rowBody, Padding.rowBody, zeroLoop_eq, copyLoop_eq, copyRemainLoop_eq,
    shiftRight_two, and_three, memcpy_eq_fill]
  have hf := fill_append (st.dest + paddingWidth) (4 * (inputWidth / 4)) (inputWidth % 4)
    (fun t => src (st.src + t)) (fill st.dest paddingWidth (fun _ => (0 : α)) st.destData)
  simp only [hw, Nat.add_assoc] at hf
  simp only [Nat.add_assoc, hf, hw]

/-- The NEON specialisation and the generic routine leave the same buffer. -/
theorem run_eq_float (src dest : Nat → α)
    (channels inputHeight inputWidth paddingHeight paddingWidth : Nat) :
    run src dest channels inputHeight inputWidth paddingHeight paddingWidth =
      Padding.run src dest channels inputHeight inputWidth paddingHeight paddingWidth := by
  have hrow : (fun (_ : Nat) (st : PaddingState α) => rowBody src inputWidth paddingWidth st)
      = (fun _ st => Padding.rowBody src inputWidth paddingWidth st) := by
    funext _ st
    exact rowBody_eq_float src inputWidth paddingWidth st
  simp only [run, Padding.run, channelBody, Padding.channelBody, hrow]

end Padding_float

end PaddingLoops

/-! ## The padding operator -/

section PaddingClaims

variable {α : Type} [Zero α]

/-- C5: `Padding<T>::run` produces the zero-padded tensor.  With
`destHeight = inputHeight + 2 * paddingHeight` and
`destWidth = inputWidth + 2 * paddingWidth`, for `c < channels`, `y < destHeight`,
`x < destWidth`, the element `dest[c * destHeight * destWidth + y * destWidth + x]` is
`src[c * inputHeight * inputWidth + (y - paddingHeight) * inputWidth
+ (x - paddingWidth)]` when `paddingHeight ≤ y < paddingHeight + inputHeight` and
`paddingWidth ≤ x < paddingWidth + inputWidth`, and `0` otherwise. -/
theorem padding_zero_padded (src dest : Nat → α)
    (channels inputHeight inputWidth paddingHeight paddingWidth c y x : Nat)
    (hc : c < channels) (hy : y < inputHeight + 2 * paddingHeight)
    (hx : x < inputWidth + 2 * paddingWidth) :
    Padding.run src dest channels inputHeight inputWidth paddingHeight paddingWidth
        (c * (inputHeight + 2 * paddingHeight) * (inputWidth + 2 * paddingWidth)
          + y * (inputWidth + 2 * paddingWidth) + x) =
      if (paddingHeight ≤ y ∧ y < paddingHeight + inputHeight) ∧
          (paddingWidth ≤ x ∧ x < paddingWidth + inputWidth)
      then src (c * inputHeight * inputWidth + (y - paddingHeight) * inputWidth
        + (x - paddingWidth))
      else 0 := by
  have hidx : c * (inputHeight + 2 * paddingHeight) * (inputWidth + 2 * paddingWidth)
      + y * (inputWidth + 2 * paddingWidth) + x
      = c * ((inputHeight + 2 * paddingHeight) * (inputWidth + 2 * paddingWidth))
        + (y * (inputWidth + 2 * paddingWidth) + x) := by ring
  rw [hidx, Padding.run_apply_generic src dest channels inputHeight inputWidth paddingHeight
    paddingWidth c y x hc hy hx]
  simp only [and_assoc, Nat.mul_assoc]

/-- Witness for C5 (the 2x2 input padded by one on every side): an interior element
and a halo element of the 4x4 result. -/
theorem padding_zero_padded_witness :
    ((0 < 1 ∧ 2 < 2 + 2 * 1 ∧ 1 < 2 + 2 * 1) ∧
      Padding.run (fun p => (p : Int) + 5) (fun _ => 7) 1 2 2 1 1
          (0 * (2 + 2 * 1) * (2 + 2 * 1) + 2 * (2 + 2 * 1) + 1) =
        if (1 ≤ 2 ∧ 2 < 1 + 2) ∧ (1 ≤ 1 ∧ 1 < 1 + 2)
        then (fun p : Nat => (p : Int) + 5) (0 * 2 * 2 + (2 - 1) * 2 + (1 - 1)) else 0) ∧
    ((0 < 1 ∧ 3 < 2 + 2 * 1 ∧ 1 < 2 + 2 * 1) ∧
      Padding.run (fun p => (p : Int) + 5) (fun _ => 7) 1 2 2 1 1
          (0 * (2 + 2 * 1) * (2 + 2 * 1) + 3 * (2 + 2 * 1) + 1) =
        if (1 ≤ 3 ∧ 3 < 1 + 2) ∧ (1 ≤ 1 ∧ 1 < 1 + 2)
        then (fun p : Nat => (p : Int) + 5) (0 * 2 * 2 + (3 - 1) * 2 + (1 - 1)) else 0) :=
  ⟨⟨by decide, padding_zero_padded (fun p => (p : Int) + 5) (fun _ => 7) 1 2 2 1 1 0 2 1
      (by decide) (by decide) (by decide)⟩,
   ⟨by decide, padding_zero_padded (fun p => (p : Int) + 5) (fun _ => 7) 1 2 2 1 1 0 3 1
      (by decide) (by decide) (by decide)⟩⟩

/-- C6: padding with `paddingHeight = 0` and `paddingWidth = 0` is the identity copy.
After `Padding::run`, generic or NEON, the first
`channels * inputHeight * inputWidth` elements of `dest` equal, index for index, those
of `src`. -/
theorem padding_zero_is_identity (src dest : Nat → α)
    (channels inputHeight inputWidth i : Nat)
    (hi : i < channels * inputHeight * inputWidth) :
    Padding.run src dest channels inputHeight inputWidth 0 0 i = src i ∧
    Padding_float.run src dest channels inputHeight inputWidth 0 0 i = src i := by
  have hi2 : i < channels * (inputHeight * inputWidth) := by
    rw [← Nat.mul_assoc]
    exact hi
  have hW : 0 < inputWidth := by
    rcases Nat.eq_zero_or_pos inputWidth with h0 | h0
    · subst h0
      simp at hi
    · exact h0
  have hc : i / (inputHeight * inputWidth) < channels :=
    Nat.div_lt_of_lt_mul (by rw [Nat.mul_comm]; exact hi2)
  have hpos : 0 < inputHeight * inputWidth :=
    Nat.pos_of_ne_zero (fun h0 => by rw [h0] at hi2; simp at hi2)
  have hu : i % (inputHeight * inputWidth) < inputWidth * inputHeight :=
    lt_of_lt_of_eq (Nat.mod_lt _ hpos) (Nat.mul_comm _ _)
  have hy : i % (inputHeight * inputWidth) / inputWidth < inputHeight :=
    Nat.div_lt_of_lt_mul hu
  have hx : i % (inputHeight * inputWidth) % inputWidth < inputWidth := Nat.mod_lt _ hW
  have key := Padding.run_apply_generic src dest channels inputHeight inputWidth 0 0
    (i / (inputHeight * inputWidth)) (i % (inputHeight * inputWidth) / inputWidth)
    (i % (inputHeight * inputWidth) % inputWidth) hc (by omega) (by omega)
  have hcond : 0 ≤ i % (inputHeight * inputWidth) / inputWidth ∧
      i % (inputHeight * inputWidth) / inputWidth < 0 + inputHeight ∧
      0 ≤ i % (inputHeight * inputWidth) % inputWidth ∧
      i % (inputHeight * inputWidth) % inputWidth < 0 + inputWidth :=
    ⟨Nat.zero_le _, by rw [Nat.zero_add]; exact hy, Nat.zero_le _,
      by rw [Nat.zero_add]; exact hx⟩
  rw [if_pos hcond] at key
  simp only [Nat.mul_zero, Nat.add_zero, Nat.sub_zero, Nat.add_assoc,
    Nat.div_add_mod'] at key
  rw [Padding_float.run_eq_float]
  exact ⟨key, key⟩

/-- Witness for C6: two channels of a 2x3 input, an element of the second channel. -/
theorem padding_zero_is_identity_witness :
    8 < 2 * 2 * 3 ∧
    Padding.run (fun p => (p : Int) + 5) (fun _ => 7) 2 2 3 0 0 8 = (8 : Int) + 5 ∧
    Padding_float.run (fun p => (p : Int) + 5) (fun _ => 7) 2 2 3 0 0 8 = (8 : Int) + 5 :=
  ⟨by decide, padding_zero_is_identity (fun p => (p : Int) + 5) (fun _ => 7) 2 2 3 8
    (by decide)⟩

end PaddingClaims


/-! ## Loads of the kernels against the buffer lengths -/

section LoadLemmas

theorem mem_vld1q_f32_offsets (p x : Nat) (h : x ∈ vld1q_f32_offsets p) :
    p ≤ x ∧ x < p + 4 := by
  simp only [vld1q_f32_offsets, List.mem_cons, List.mem_singleton, List.not_mem_nil,
    or_false] at h
  omega

theorem mem_vld2q_f32_offsets (p x : Nat) (h : x ∈ vld2q_f32_offsets p) :
    p ≤ x ∧ x < p + 8 := by
  simp only [vld2q_f32_offsets, List.mem_cons, List.mem_singleton, List.not_mem_nil,
    or_false] at h
  omega

theorem forLoop_traced_fst {σ : Type} (body : Nat → σ → σ) (loads : Nat → σ → List Nat)
    (n : Nat) (p : σ × List Nat) :
    (forLoop n (traced body loads) p).1 = forLoop n body p.1 := by
  induction n with
  | zero => rfl
  | succ n ih =>
    show (traced body loads n (forLoop n (traced body loads) p)).1 = body n (forLoop n body p.1)
    simp only [traced, ih]

theorem mem_forLoop_traced {σ : Type} (body : Nat → σ → σ) (loads : Nat → σ → List Nat)
    (n : Nat) (p : σ × List Nat) (x : Nat) :
    x ∈ (forLoop n (traced body loads) p).2 ↔
      x ∈ p.2 ∨ ∃ i, i < n ∧ x ∈ loads i (forLoop i body p.1) := by
  induction n with
  | zero =>
    constructor
    · intro h
      exact Or.inl h
    · rintro (h | ⟨i, hi, _⟩)
      · exact h
      · omega
  | succ n ih =>
    show x ∈ (traced body loads n (forLoop n (traced body loads) p)).2 ↔ _
    simp only [traced, List.mem_append, ih, forLoop_traced_fst]
    constructor
    · rintro ((h | ⟨i, hi, hx⟩) | h)
      · exact Or.inl h
      · exact Or.inr ⟨i, by omega, hx⟩
      · exact Or.inr ⟨n, by omega, h⟩
    · rintro (h | ⟨i, hi, hx⟩)
      · exact Or.inl (Or.inl h)
      · rcases Nat.lt_succ_iff_lt_or_eq.mp hi with h1 | h1
        · exact Or.inl (Or.inr ⟨i, h1, hx⟩)
        · subst h1
          exact Or.inr hx

/-- An offset is loaded by a loop exactly when some iteration loads it. -/
theorem mem_loopLoads {σ : Type} (n : Nat) (body : Nat → σ → σ)
    (loads : Nat → σ → List Nat) (s : σ) (x : Nat) :
    x ∈ loopLoads n body loads s ↔ ∃ i, i < n ∧ x ∈ loads i (forLoop i body s) := by
  simp only [loopLoads, mem_forLoop_traced, List.not_mem_nil, false_or]

theorem checked_eq_some {β : Type} (inputLoads : List Nat) (inputLength : Nat)
    (filterLoads : List Nat) (filterLength : Nat) (result : β)
    (h1 : ∀ x ∈ inputLoads, x < inputLength) (h2 : ∀ x ∈ filterLoads, x < filterLength) :
    checked inputLoads inputLength filterLoads filterLength result = some result := by
  unfold checked
  rw [if_pos ⟨h1, h2⟩]

/-- The input channel read by output channel `c` lies inside the input buffer. -/
theorem channel_block_le (c filterMultiplier outputChannels size : Nat)
    (hdvd : filterMultiplier ∣ outputChannels) (hc : c < outputChannels) :
    (c / filterMultiplier) * size + size ≤ (outputChannels / filterMultiplier) * size := by
  obtain ⟨q, hq⟩ := hdvd
  have hfm : 0 < filterMultiplier := by
    rcases Nat.eq_zero_or_pos filterMultiplier with h0 | h0
    · subst h0
      simp at hq
      omega
    · exact h0
  have h1 : c / filterMultiplier < q := Nat.div_lt_of_lt_mul (by rw [← hq]; exact hc)
  have h2 : outputChannels / filterMultiplier = q := by
    rw [hq, Nat.mul_div_cancel_left _ hfm]
  rw [h2, ← Nat.succ_mul]
  exact Nat.mul_le_mul_right size h1

end LoadLemmas

section LoadBounds

variable {α : Type} [CommSemiring α]

namespace DepthwiseConvKernel_3_1

omit [CommSemiring α] in
theorem mem_bulkLoads_31 (st : State3 α) (x : Nat) (hx : x ∈ bulkLoads st) :
    x < st.r0 + 8 ∨ x < st.r1 + 8 ∨ x < st.r2 + 8 := by
  simp only [bulkLoads, List.mem_append, or_assoc] at hx
  rcases hx with h | h | h | h | h | h
  · have hb := mem_vld1q_f32_offsets _ _ h
    omega
  · have hb := mem_vld1q_f32_offsets _ _ h
    omega
  · have hb := mem_vld1q_f32_offsets _ _ h
    omega
  · have hb := mem_vld1q_f32_offsets _ _ h
    omega
  · have hb := mem_vld1q_f32_offsets _ _ h
    omega
  · have hb := mem_vld1q_f32_offsets _ _ h
    omega

omit [CommSemiring α] in
theorem mem_remainLoads_31 (st : State3 α) (x : Nat) (hx : x ∈ remainLoads st) :
    x < st.r0 + 4 ∨ x < st.r1 + 4 ∨ x < st.r2 + 4 := by
  simp only [remainLoads, List.mem_append, or_assoc] at hx
  rcases hx with h | h | h
  · have hb := mem_vld1q_f32_offsets _ _ h
    omega
  · have hb := mem_vld1q_f32_offsets _ _ h
    omega
  · have hb := mem_vld1q_f32_offsets _ _ h
    omega

theorem mem_rowLoads_31 (inputData : Nat → α) (k : Filter3 α)
    (hk : k.k0.l3 = 0 ∧ k.k1.l3 = 0 ∧ k.k2.l3 = 0) (outputWidth : Nat)
    (st : State3 α) (x : Nat)
    (hx : x ∈ rowLoads inputData k (outputWidth >>> 2) (outputWidth &&& 3) st) :
    x < st.r0 + outputWidth + 4 ∨ x < st.r1 + outputWidth + 4 ∨ x < st.r2 + outputWidth + 4 := by
  simp only [rowLoads, List.mem_append, mem_loopLoads, shiftRight_two, and_three] at hx
  rcases hx with ⟨s, hs, hx⟩ | ⟨r, hr, hx⟩
  · have hb := mem_bulkLoads_31 _ x hx
    simp only [bulkLoop_eq_31] at hb
    omega
  · have hb := mem_remainLoads_31 _ x hx
    simp only [bulkLoop_eq_31, remainLoop_eq_31 inputData k hk] at hb
    omega

/-- Every input offset loaded by `DepthwiseConvKernel<3, 1>::run` on a valid shape
is below the length of the input buffer plus 2. -/
theorem inputLoads_lt_31 (inputData filterData outputData : Nat → α)
    (inputHeight inputWidth outputChannels outputHeight outputWidth filterMultiplier : Nat)
    (hdvd : filterMultiplier ∣ outputChannels)
    (hW : inputWidth = outputWidth + 2) (hH : outputHeight + 2 ≤ inputHeight) (x : Nat)
    (hx : x ∈ inputLoads inputData filterData inputHeight inputWidth outputChannels
      outputHeight outputWidth filterMultiplier outputData) :
    x < (outputChannels / filterMultiplier) * (inputHeight * inputWidth) + 2 := by
  simp only [inputLoads, mem_loopLoads] at hx
  obtain ⟨c, hc, hx⟩ := hx
  simp only [channelLoads, mem_loopLoads, rowLoop_eq_31 inputData _ (loadFilter3_l3 filterData _)] at hx
  obtain ⟨h, hh, hx⟩ := hx
  have hrow := mem_rowLoads_31 inputData _ (loadFilter3_l3 filterData _) outputWidth _ x hx
  simp only at hrow
  have hch := channel_block_le c filterMultiplier outputChannels (inputHeight * inputWidth)
    hdvd hc
  subst hW
  have e1 : (h + 3) * (outputWidth + 2) = h * (outputWidth + 2) + 3 * (outputWidth + 2) := by ring
  have e2 : (h + 3) * (outputWidth + 2) ≤ inputHeight * (outputWidth + 2) :=
    Nat.mul_le_mul_right _ (by omega)
  omega

/-- Every filter offset loaded by `DepthwiseConvKernel<3, 1>::run` is below
`9 * outputChannels + 1`. -/
theorem filterLoads_lt_31 (inputData filterData outputData : Nat → α)
    (inputHeight inputWidth outputChannels outputHeight outputWidth filterMultiplier : Nat)
    (x : Nat)
    (hx : x ∈ filterLoads inputData filterData inputHeight inputWidth outputChannels
      outputHeight outputWidth filterMultiplier outputData) :
    x < outputChannels * 9 + 1 := by
  simp only [filterLoads, mem_loopLoads, channelLoop_eq_31, channelFilterLoads,
    List.mem_append, or_assoc] at hx
  obtain ⟨c, hc, hx⟩ := hx
  rcases hx with h | h | h
  · have hb := mem_vld1q_f32_offsets _ _ h
    omega
  · have hb := mem_vld1q_f32_offsets _ _ h
    omega
  · have hb := mem_vld1q_f32_offsets _ _ h
    omega

end DepthwiseConvKernel_3_1

namespace DepthwiseConvKernel_3_2

omit [CommSemiring α] in
theorem mem_bulkLoads_32 (st : State3 α) (x : Nat) (hx : x ∈ bulkLoads st) :
    x < st.r0 + 12 ∨ x < st.r1 + 12 ∨ x < st.r2 + 12 := by
  simp only [bulkLoads, List.mem_append, or_assoc] at hx
  rcases hx with h | h | h | h | h | h
  · have hb := mem_vld2q_f32_offsets _ _ h
    omega
  · have hb := mem_vld1q_f32_offsets _ _ h
    omega
  · have hb := mem_vld2q_f32_offsets _ _ h
    omega
  · have hb := mem_vld1q_f32_offsets _ _ h
    omega
  · have hb := mem_vld2q_f32_offsets _ _ h
    omega
  · have hb := mem_vld1q_f32_offsets _ _ h
    omega

omit [CommSemiring α] in
theorem mem_remainLoads_32 (st : State3 α) (x : Nat) (hx : x ∈ remainLoads st) :
    x < st.r0 + 4 ∨ x < st.r1 + 4 ∨ x < st.r2 + 4 := by
  simp only [remainLoads, List.mem_append, or_assoc] at hx
  rcases hx with h | h | h
  · have hb := mem_vld1q_f32_offsets _ _ h
    omega
  · have hb := mem_vld1q_f32_offsets _ _ h
    omega
  · have hb := mem_vld1q_f32_offsets _ _ h
    omega

theorem mem_rowLoads_32 (inputData : Nat → α) (k : Filter3 α)
    (hk : k.k0.l3 = 0 ∧ k.k1.l3 = 0 ∧ k.k2.l3 = 0)
    (start inputWidth outputWidth h : Nat) (st : State3 α) (x : Nat)
    (hx : x ∈ rowLoads inputData k start inputWidth (outputWidth >>> 2) (outputWidth &&& 3) h st) :
    x < start + 2 * h * inputWidth + 2 * outputWidth + 4 ∨ x < start + (2 * h + 1) * inputWidth + 2 * outputWidth + 4 ∨ x < start + (2 * h + 2) * inputWidth + 2 * outputWidth + 4 := by
  simp only [rowLoads, List.mem_append, mem_loopLoads, shiftRight_two, and_three] at hx
  rcases hx with ⟨s, hs, hx⟩ | ⟨r, hr, hx⟩
  · have hb := mem_bulkLoads_32 _ x hx
    simp only [bulkLoop_eq_32] at hb
    omega
  · have hb := mem_remainLoads_32 _ x hx
    simp only [bulkLoop_eq_32, remainLoop_eq_32 inputData k hk] at hb
    omega

/-- Every input offset loaded by `DepthwiseConvKernel<3, 2>::run` on a valid shape
is below the length of the input buffer plus 3. -/
theorem inputLoads_lt_32 (inputData filterData outputData : Nat → α)
    (inputHeight inputWidth outputChannels outputHeight outputWidth filterMultiplier : Nat)
    (hdvd : filterMultiplier ∣ outputChannels)
    (hW : 2 * outputWidth + 1 ≤ inputWidth)
    (hH : 2 * outputHeight + 1 ≤ inputHeight) (x : Nat)
    (hx : x ∈ inputLoads inputData filterData inputHeight inputWidth outputChannels
      outputHeight outputWidth filterMultiplier outputData) :
    x < (outputChannels / filterMultiplier) * (inputHeight * inputWidth) + 3 := by
  simp only [inputLoads, mem_loopLoads] at hx
  obtain ⟨c, hc, hx⟩ := hx
  simp only [channelLoads, mem_loopLoads] at hx
  obtain ⟨h, hh, hx⟩ := hx
  have hrow := mem_rowLoads_32 inputData _ (loadFilter3_l3 filterData _) _ inputWidth outputWidth h _ x hx
  simp only at hrow
  have hch := channel_block_le c filterMultiplier outputChannels (inputHeight * inputWidth)
    hdvd hc
  have e1 : (2 * h + 1) * inputWidth = 2 * h * inputWidth + 1 * inputWidth := by ring
  have e2 : (2 * h + 2) * inputWidth = 2 * h * inputWidth + 2 * inputWidth := by ring
  have e3 : (2 * h + 3) * inputWidth = 2 * h * inputWidth + 3 * inputWidth := by ring
  have e0 : (2 * h + 3) * inputWidth ≤ inputHeight * inputWidth :=
    Nat.mul_le_mul_right _ (by omega)
  omega

/-- Every filter offset loaded by `DepthwiseConvKernel<3, 2>::run` is below
`9 * outputChannels + 1`. -/
theorem filterLoads_lt_32 (inputData filterData outputData : Nat → α)
    (inputHeight inputWidth outputChannels outputHeight outputWidth filterMultiplier : Nat)
    (x : Nat)
    (hx : x ∈ filterLoads inputData filterData inputHeight inputWidth outputChannels
      outputHeight outputWidth filterMultiplier outputData) :
    x < outputChannels * 9 + 1 := by
  simp only [filterLoads, mem_loopLoads, channelLoop_eq_32, channelFilterLoads,
    List.mem_append, or_assoc] at hx
  obtain ⟨c, hc, hx⟩ := hx
  rcases hx with h | h | h
  · have hb := mem_vld1q_f32_offsets _ _ h
    omega
  · have hb := mem_vld1q_f32_offsets _ _ h
    omega
  · have hb := mem_vld1q_f32_offsets _ _ h
    omega

end DepthwiseConvKernel_3_2

namespace DepthwiseConvKernel_4_1

omit [CommSemiring α] in
theorem mem_bulkLoads_41 (st : State4 α) (x : Nat) (hx : x ∈ bulkLoads st) :
    x < st.r0 + 8 ∨ x < st.r1 + 8 ∨ x < st.r2 + 8 ∨ x < st.r3 + 8 := by
  simp only [bulkLoads, List.mem_append, or_assoc] at hx
  rcases hx with h | h | h | h | h | h | h | h
  · have hb := mem_vld1q_f32_offsets _ _ h
    omega
  · have hb := mem_vld1q_f32_offsets _ _ h
    omega
  · have hb := mem_vld1q_f32_offsets _ _ h
    omega
  · have hb := mem_vld1q_f32_offsets _ _ h
    omega
  · have hb := mem_vld1q_f32_offsets _ _ h
    omega
  · have hb := mem_vld1q_f32_offsets _ _ h
    omega
  · have hb := mem_vld1q_f32_offsets _ _ h
    omega
  · have hb := mem_vld1q_f32_offsets _ _ h
    omega

omit [CommSemiring α] in
theorem mem_remainLoads_41 (st : State4 α) (x : Nat) (hx : x ∈ remainLoads st) :
    x < st.r0 + 4 ∨ x < st.r1 + 4 ∨ x < st.r2 + 4 ∨ x < st.r3 + 4 := by
  simp only [remainLoads, List.mem_append, or_assoc] at hx
  rcases hx with h | h | h | h
  · have hb := mem_vld1q_f32_offsets _ _ h
    omega
  · have hb := mem_vld1q_f32_offsets _ _ h
    omega
  · have hb := mem_vld1q_f32_offsets _ _ h
    omega
  · have hb := mem_vld1q_f32_offsets _ _ h
    omega

theorem mem_rowLoads_41 (inputData : Nat → α) (k : Filter4 α) (outputWidth : Nat)
    (st : State4 α) (x : Nat)
    (hx : x ∈ rowLoads inputData k (outputWidth >>> 2) (outputWidth &&& 3) st) :
    x < st.r0 + outputWidth + 4 ∨ x < st.r1 + outputWidth + 4 ∨ x < st.r2 + outputWidth + 4 ∨ x < st.r3 + outputWidth + 4 := by
  simp only [rowLoads, List.mem_append, mem_loopLoads, shiftRight_two, and_three] at hx
  rcases hx with ⟨s, hs, hx⟩ | ⟨r, hr, hx⟩
  · have hb := mem_bulkLoads_41 _ x hx
    simp only [bulkLoop_eq_41] at hb
    omega
  · have hb := mem_remainLoads_41 _ x hx
    simp only [bulkLoop_eq_41, remainLoop_eq_41 inputData k] at hb
    omega

/-- Every input offset loaded by `DepthwiseConvKernel<4, 1>::run` on a valid shape
is below the length of the input buffer plus 1. -/
theorem inputLoads_lt_41 (inputData filterData outputData : Nat → α)
    (inputHeight inputWidth outputChannels outputHeight outputWidth filterMultiplier : Nat)
    (hdvd : filterMultiplier ∣ outputChannels)
    (hW : inputWidth = outputWidth + 3) (hH : outputHeight + 3 ≤ inputHeight) (x : Nat)
    (hx : x ∈ inputLoads inputData filterData inputHeight inputWidth outputChannels
      outputHeight outputWidth filterMultiplier outputData) :
    x < (outputChannels / filterMultiplier) * (inputHeight * inputWidth) + 1 := by
  simp only [inputLoads, mem_loopLoads] at hx
  obtain ⟨c, hc, hx⟩ := hx
  simp only [channelLoads, mem_loopLoads, rowLoop_eq_41 inputData _] at hx
  obtain ⟨h, hh, hx⟩ := hx
  have hrow := mem_rowLoads_41 inputData _ outputWidth _ x hx
  simp only at hrow
  have hch := channel_block_le c filterMultiplier outputChannels (inputHeight * inputWidth)
    hdvd hc
  subst hW
  have e1 : (h + 4) * (outputWidth + 3) = h * (outputWidth + 3) + 4 * (outputWidth + 3) := by ring
  have e2 : (h + 4) * (outputWidth + 3) ≤ inputHeight * (outputWidth + 3) :=
    Nat.mul_le_mul_right _ (by omega)
  omega

/-- Every filter offset loaded by `DepthwiseConvKernel<4, 1>::run` is below
`16 * outputChannels`. -/
theorem filterLoads_lt_41 (inputData filterData outputData : Nat → α)
    (inputHeight inputWidth outputChannels outputHeight outputWidth filterMultiplier : Nat)
    (x : Nat)
    (hx : x ∈ filterLoads inputData filterData inputHeight inputWidth outputChannels
      outputHeight outputWidth filterMultiplier outputData) :
    x < outputChannels * 16 + 0 := by
  simp only [filterLoads, mem_loopLoads, channelLoop_eq_41, channelFilterLoads,
    List.mem_append, or_assoc] at hx
  obtain ⟨c, hc, hx⟩ := hx
  rcases hx with h | h | h | h
  · have hb := mem_vld1q_f32_offsets _ _ h
    omega
  · have hb := mem_vld1q_f32_offsets _ _ h
    omega
  · have hb := mem_vld1q_f32_offsets _ _ h
    omega
  · have hb := mem_vld1q_f32_offsets _ _ h
    omega

end DepthwiseConvKernel_4_1

namespace DepthwiseConvKernel_4_2

omit [CommSemiring α] in
theorem mem_bulkLoads_42 (st : State4 α) (x : Nat) (hx : x ∈ bulkLoads st) :
    x < st.r0 + 16 ∨ x < st.r1 + 16 ∨ x < st.r2 + 16 ∨ x < st.r3 + 16 := by
  simp only [bulkLoads, List.mem_append, or_assoc] at hx
  rcases hx with h | h | h | h | h | h | h | h
  · have hb := mem_vld2q_f32_offsets _ _ h
    omega
  · have hb := mem_vld2q_f32_offsets _ _ h
    omega
  · have hb := mem_vld2q_f32_offsets _ _ h
    omega
  · have hb := mem_vld2q_f32_offsets _ _ h
    omega
  · have hb := mem_vld2q_f32_offsets _ _ h
    omega
  · have hb := mem_vld2q_f32_offsets _ _ h
    omega
  · have hb := mem_vld2q_f32_offsets _ _ h
    omega
  · have hb := mem_vld2q_f32_offsets _ _ h
    omega

omit [CommSemiring α] in
theorem mem_remainLoads_42 (st : State4 α) (x : Nat) (hx : x ∈ remainLoads st) :
    x < st.r0 + 4 ∨ x < st.r1 + 4 ∨ x < st.r2 + 4 ∨ x < st.r3 + 4 := by
  simp only [remainLoads, List.mem_append, or_assoc] at hx
  rcases hx with h | h | h | h
  · have hb := mem_vld1q_f32_offsets _ _ h
    omega
  · have hb := mem_vld1q_f32_offsets _ _ h
    omega
  · have hb := mem_vld1q_f32_offsets _ _ h
    omega
  · have hb := mem_vld1q_f32_offsets _ _ h
    omega

theorem mem_rowLoads_42 (inputData : Nat → α) (k : Filter4 α)
    (start inputWidth outputWidth h : Nat) (st : State4 α) (x : Nat)
    (hx : x ∈ rowLoads inputData k start inputWidth (outputWidth >>> 2) (outputWidth &&& 3) h st) :
    x < start + 2 * h * inputWidth + 2 * outputWidth + 8 ∨ x < start + (2 * h + 1) * inputWidth + 2 * outputWidth + 8 ∨ x < start + (2 * h + 2) * inputWidth + 2 * outputWidth + 8 ∨ x < start + (2 * h + 3) * inputWidth + 2 * outputWidth + 8 := by
  simp only [rowLoads, List.mem_append, mem_loopLoads, shiftRight_two, and_three] at hx
  rcases hx with ⟨s, hs, hx⟩ | ⟨r, hr, hx⟩
  · have hb := mem_bulkLoads_42 _ x hx
    simp only [bulkLoop_eq_42] at hb
    omega
  · have hb := mem_remainLoads_42 _ x hx
    simp only [bulkLoop_eq_42, remainLoop_eq_42 inputData k] at hb
    omega

/-- Every input offset loaded by `DepthwiseConvKernel<4, 2>::run` on a valid shape
is below the length of the input buffer plus 6. -/
theorem inputLoads_lt_42 (inputData filterData outputData : Nat → α)
    (inputHeight inputWidth outputChannels outputHeight outputWidth filterMultiplier : Nat)
    (hdvd : filterMultiplier ∣ outputChannels)
    (hW : 2 * outputWidth + 2 ≤ inputWidth)
    (hH : 2 * outputHeight + 2 ≤ inputHeight) (x : Nat)
    (hx : x ∈ inputLoads inputData filterData inputHeight inputWidth outputChannels
      outputHeight outputWidth filterMultiplier outputData) :
    x < (outputChannels / filterMultiplier) * (inputHeight * inputWidth) + 6 := by
  simp only [inputLoads, mem_loopLoads] at hx
  obtain ⟨c, hc, hx⟩ := hx
  simp only [channelLoads, mem_loopLoads] at hx
  obtain ⟨h, hh, hx⟩ := hx
  have hrow := mem_rowLoads_42 inputData _ _ inputWidth outputWidth h _ x hx
  simp only at hrow
  have hch := channel_block_le c filterMultiplier outputChannels (inputHeight * inputWidth)
    hdvd hc
  have e1 : (2 * h + 1) * inputWidth = 2 * h * inputWidth + 1 * inputWidth := by ring
  have e2 : (2 * h + 2) * inputWidth = 2 * h * inputWidth + 2 * inputWidth := by ring
  have e3 : (2 * h + 3) * inputWidth = 2 * h * inputWidth + 3 * inputWidth := by ring
  have e4 : (2 * h + 4) * inputWidth = 2 * h * inputWidth + 4 * inputWidth := by ring
  have e0 : (2 * h + 4) * inputWidth ≤ inputHeight * inputWidth :=
    Nat.mul_le_mul_right _ (by omega)
  omega

/-- Every filter offset loaded by `DepthwiseConvKernel<4, 2>::run` is below
`16 * outputChannels`. -/
theorem filterLoads_lt_42 (inputData filterData outputData : Nat → α)
    (inputHeight inputWidth outputChannels outputHeight outputWidth filterMultiplier : Nat)
    (x : Nat)
    (hx : x ∈ filterLoads inputData filterData inputHeight inputWidth outputChannels
      outputHeight outputWidth filterMultiplier outputData) :
    x < outputChannels * 16 + 0 := by
  simp only [filterLoads, mem_loopLoads, channelLoop_eq_42, channelFilterLoads,
    List.mem_append, or_assoc] at hx
  obtain ⟨c, hc, hx⟩ := hx
  rcases hx with h | h | h | h
  · have hb := mem_vld1q_f32_offsets _ _ h
    omega
  · have hb := mem_vld1q_f32_offsets _ _ h
    omega
  · have hb := mem_vld1q_f32_offsets _ _ h
    omega
  · have hb := mem_vld1q_f32_offsets _ _ h
    omega

end DepthwiseConvKernel_4_2

end LoadBounds

/-! ## Loads against the documented buffer lengths -/

section LoadClaims

variable {α : Type} [CommSemiring α]

/-- C7, as stated, fails for each of the four variants: on a valid shape with one
channel and buffers of exactly the documented lengths
`(outputChannels / filterMultiplier) * inputHeight * inputWidth` and
`outputChannels * filterSize ^ 2`, some load is out of bounds and the bounds-checked
kernel takes its error branch.  The 3x3 kernels load filter offset `9` of a 9-element
filter and input offset `9` of a 3x3 input; the `<4, 1>` kernel loads offset `28` of a
4x7 input; the `<4, 2>` kernel loads offset `45` of a 4x10 input. -/
theorem loads_exceed_documented_lengths :
    ((0 < 1 ∧ 1 ∣ 1 ∧ validDim 3 1 3 1 ∧ validDim 3 1 3 1) ∧
      (DepthwiseConvKernel_3_1.runChecked (fun _ => (1 : Int)) (1 / 1 * 3 * 3) (fun _ => 1)
        (1 * 3 ^ 2) 3 3 1 1 1 1 (fun _ => 0)).isSome = false ∧
      9 ∈ DepthwiseConvKernel_3_1.filterLoads (fun _ => (1 : Int)) (fun _ => 1)
        3 3 1 1 1 1 (fun _ => 0) ∧
      9 ∈ DepthwiseConvKernel_3_1.inputLoads (fun _ => (1 : Int)) (fun _ => 1)
        3 3 1 1 1 1 (fun _ => 0)) ∧
    ((0 < 1 ∧ 1 ∣ 1 ∧ validDim 3 2 3 1 ∧ validDim 3 2 3 1) ∧
      (DepthwiseConvKernel_3_2.runChecked (fun _ => (1 : Int)) (1 / 1 * 3 * 3) (fun _ => 1)
        (1 * 3 ^ 2) 3 3 1 1 1 1 (fun _ => 0)).isSome = false ∧
      9 ∈ DepthwiseConvKernel_3_2.filterLoads (fun _ => (1 : Int)) (fun _ => 1)
        3 3 1 1 1 1 (fun _ => 0) ∧
      9 ∈ DepthwiseConvKernel_3_2.inputLoads (fun _ => (1 : Int)) (fun _ => 1)
        3 3 1 1 1 1 (fun _ => 0)) ∧
    ((0 < 1 ∧ 1 ∣ 1 ∧ validDim 4 1 4 1 ∧ validDim 4 1 7 4) ∧
      (DepthwiseConvKernel_4_1.runChecked (fun _ => (1 : Int)) (1 / 1 * 4 * 7) (fun _ => 1)
        (1 * 4 ^ 2) 4 7 1 1 4 1 (fun _ => 0)).isSome = false ∧
      28 ∈ DepthwiseConvKernel_4_1.inputLoads (fun _ => (1 : Int)) (fun _ => 1)
        4 7 1 1 4 1 (fun _ => 0)) ∧
    ((0 < 1 ∧ 1 ∣ 1 ∧ validDim 4 2 4 1 ∧ validDim 4 2 10 4) ∧
      (DepthwiseConvKernel_4_2.runChecked (fun _ => (1 : Int)) (1 / 1 * 4 * 10) (fun _ => 1)
        (1 * 4 ^ 2) 4 10 1 1 4 1 (fun _ => 0)).isSome = false ∧
      45 ∈ DepthwiseConvKernel_4_2.inputLoads (fun _ => (1 : Int)) (fun _ => 1)
        4 10 1 1 4 1 (fun _ => 0)) := by
  set_option maxRecDepth 16384 in decide

/-- C7, amended: under the documented preconditions (`filterMultiplier > 0` divides
`outputChannels`, `outputDim = floor((inputDim - filterSize) / stride) + 1` in both
dimensions) every element offset loaded by a kernel is smaller than the documented
length of its buffer plus a small margin: for the input buffer 2, 3, 1 and 6 elements
for the variants `<3,1>`, `<3,2>`, `<4,1>`, `<4,2>`; for the filter buffer 1 element for
the 3x3 variants and none for the 4x4 variants.  So the bounds-checked kernel returns
the result of the kernel on all buffers that carry that margin. -/
theorem loads_within_margin (inputData filterData outputData : Nat → α)
    (inputHeight inputWidth outputChannels outputHeight outputWidth filterMultiplier : Nat)
    (_hfm : 0 < filterMultiplier) (hdvd : filterMultiplier ∣ outputChannels) :
    (validDim 3 1 inputHeight outputHeight → validDim 3 1 inputWidth outputWidth →
      ∀ inputLength filterLength,
        outputChannels / filterMultiplier * inputHeight * inputWidth + 2 ≤ inputLength →
        outputChannels * 3 ^ 2 + 1 ≤ filterLength →
        DepthwiseConvKernel_3_1.runChecked inputData inputLength filterData filterLength
            inputHeight inputWidth outputChannels outputHeight outputWidth filterMultiplier
            outputData =
          some (DepthwiseConvKernel_3_1.run inputData filterData inputHeight inputWidth
            outputChannels outputHeight outputWidth filterMultiplier outputData)) ∧
    (validDim 3 2 inputHeight outputHeight → validDim 3 2 inputWidth outputWidth →
      ∀ inputLength filterLength,
        outputChannels / filterMultiplier * inputHeight * inputWidth + 3 ≤ inputLength →
        outputChannels * 3 ^ 2 + 1 ≤ filterLength →
        DepthwiseConvKernel_3_2.runChecked inputData inputLength filterData filterLength
            inputHeight inputWidth outputChannels outputHeight outputWidth filterMultiplier
            outputData =
          some (DepthwiseConvKernel_3_2.run inputData filterData inputHeight inputWidth
            outputChannels outputHeight outputWidth filterMultiplier outputData)) ∧
    (validDim 4 1 inputHeight outputHeight → validDim 4 1 inputWidth outputWidth →
      ∀ inputLength filterLength,
        outputChannels / filterMultiplier * inputHeight * inputWidth + 1 ≤ inputLength →
        outputChannels * 4 ^ 2 + 0 ≤ filterLength →
        DepthwiseConvKernel_4_1.runChecked inputData inputLength filterData filterLength
            inputHeight inputWidth outputChannels outputHeight outputWidth filterMultiplier
            outputData =
          some (DepthwiseConvKernel_4_1.run inputData filterData inputHeight inputWidth
            outputChannels outputHeight outputWidth filterMultiplier outputData)) ∧
    (validDim 4 2 inputHeight outputHeight → validDim 4 2 inputWidth outputWidth →
      ∀ inputLength filterLength,
        outputChannels / filterMultiplier * inputHeight * inputWidth + 6 ≤ inputLength →
        outputChannels * 4 ^ 2 + 0 ≤ filterLength →
        DepthwiseConvKernel_4_2.runChecked inputData inputLength filterData filterLength
            inputHeight inputWidth outputChannels outputHeight outputWidth filterMultiplier
            outputData =
          some (DepthwiseConvKernel_4_2.run inputData filterData inputHeight inputWidth
            outputChannels outputHeight outputWidth filterMultiplier outputData)) := by
  refine ⟨?_, ?_, ?_, ?_⟩
  · intro hvH hvW inputLength filterLength hI hF
    obtain ⟨hH1, hH2⟩ := hvH
    obtain ⟨hW1, hW2⟩ := hvW
    refine checked_eq_some _ _ _ _ _ (fun x hx => ?_) (fun x hx => ?_)
    · have hb := DepthwiseConvKernel_3_1.inputLoads_lt_31 inputData filterData outputData inputHeight
        inputWidth outputChannels outputHeight outputWidth filterMultiplier hdvd
        (by omega) (by omega) x hx
      rw [← Nat.mul_assoc] at hb
      omega
    · have hb := DepthwiseConvKernel_3_1.filterLoads_lt_31 inputData filterData outputData inputHeight
        inputWidth outputChannels outputHeight outputWidth filterMultiplier x hx
      omega
  · intro hvH hvW inputLength filterLength hI hF
    obtain ⟨hH1, hH2⟩ := hvH
    obtain ⟨hW1, hW2⟩ := hvW
    refine checked_eq_some _ _ _ _ _ (fun x hx => ?_) (fun x hx => ?_)
    · have hb := DepthwiseConvKernel_3_2.inputLoads_lt_32 inputData filterData outputData inputHeight
        inputWidth outputChannels outputHeight outputWidth filterMultiplier hdvd
        (by omega) (by omega) x hx
      rw [← Nat.mul_assoc] at hb
      omega
    · have hb := DepthwiseConvKernel_3_2.filterLoads_lt_32 inputData filterData outputData inputHeight
        inputWidth outputChannels outputHeight outputWidth filterMultiplier x hx
      omega
  · intro hvH hvW inputLength filterLength hI hF
    obtain ⟨hH1, hH2⟩ := hvH
    obtain ⟨hW1, hW2⟩ := hvW
    refine checked_eq_some _ _ _ _ _ (fun x hx => ?_) (fun x hx => ?_)
    · have hb := DepthwiseConvKernel_4_1.inputLoads_lt_41 inputData filterData outputData inputHeight
        inputWidth outputChannels outputHeight outputWidth filterMultiplier hdvd
        (by omega) (by omega) x hx
      rw [← Nat.mul_assoc] at hb
      omega
    · have hb := DepthwiseConvKernel_4_1.filterLoads_lt_41 inputData filterData outputData inputHeight
        inputWidth outputChannels outputHeight outputWidth filterMultiplier x hx
      omega
  · intro hvH hvW inputLength filterLength hI hF
    obtain ⟨hH1, hH2⟩ := hvH
    obtain ⟨hW1, hW2⟩ := hvW
    refine checked_eq_some _ _ _ _ _ (fun x hx => ?_) (fun x hx => ?_)
    · have hb := DepthwiseConvKernel_4_2.inputLoads_lt_42 inputData filterData outputData inputHeight
        inputWidth outputChannels outputHeight outputWidth filterMultiplier hdvd
        (by omega) (by omega) x hx
      rw [← Nat.mul_assoc] at hb
      omega
    · have hb := DepthwiseConvKernel_4_2.filterLoads_lt_42 inputData filterData outputData inputHeight
        inputWidth outputChannels outputHeight outputWidth filterMultiplier x hx
      omega

/-- Witness for the amended C7: the four shapes of the counterexample, with buffers
that carry the margin. -/
theorem loads_within_margin_witness :
    DepthwiseConvKernel_3_1.runChecked (fun p => (p : Int)) 11 (fun p => (p : Int) + 1) 10
        3 3 1 1 1 1 (fun _ => 0) =
      some (DepthwiseConvKernel_3_1.run (fun p => (p : Int)) (fun p => (p : Int) + 1)
        3 3 1 1 1 1 (fun _ => 0)) ∧
    DepthwiseConvKernel_3_2.runChecked (fun p => (p : Int)) 12 (fun p => (p : Int) + 1) 10
        3 3 1 1 1 1 (fun _ => 0) =
      some (DepthwiseConvKernel_3_2.run (fun p => (p : Int)) (fun p => (p : Int) + 1)
        3 3 1 1 1 1 (fun _ => 0)) ∧
    DepthwiseConvKernel_4_1.runChecked (fun p => (p : Int)) 29 (fun p => (p : Int) + 1) 16
        4 7 1 1 4 1 (fun _ => 0) =
      some (DepthwiseConvKernel_4_1.run (fun p => (p : Int)) (fun p => (p : Int) + 1)
        4 7 1 1 4 1 (fun _ => 0)) ∧
    DepthwiseConvKernel_4_2.runChecked (fun p => (p : Int)) 46 (fun p => (p : Int) + 1) 16
        4 10 1 1 4 1 (fun _ => 0) =
      some (DepthwiseConvKernel_4_2.run (fun p => (p : Int)) (fun p => (p : Int) + 1)
        4 10 1 1 4 1 (fun _ => 0)) :=
  ⟨(loads_within_margin (fun p => (p : Int)) (fun p => (p : Int) + 1) (fun _ => 0)
      3 3 1 1 1 1 (by decide) (by decide)).1
      (by decide) (by decide) _ _ (by decide) (by decide),
   (loads_within_margin (fun p => (p : Int)) (fun p => (p : Int) + 1) (fun _ => 0)
      3 3 1 1 1 1 (by decide) (by decide)).2.1
      (by decide) (by decide) _ _ (by decide) (by decide),
   (loads_within_margin (fun p => (p : Int)) (fun p => (p : Int) + 1) (fun _ => 0)
      4 7 1 1 4 1 (by decide) (by decide)).2.2.1
      (by decide) (by decide) _ _ (by decide) (by decide),
   (loads_within_margin (fun p => (p : Int)) (fun p => (p : Int) + 1) (fun _ => 0)
      4 10 1 1 4 1 (by decide) (by decide)).2.2.2
      (by decide) (by decide) _ _ (by decide) (by decide)⟩

end LoadClaims

/-! ## Output channels depend on one input channel and one filter block -/

section Relational

variable {α : Type} [CommSemiring α]

/-- The element `DepthwiseConvKernel<3, 1>::run` writes at output `[c][h][w]`, as the
double sum over the taps. -/
theorem reference_sum_31 (inputData filterData outputData : Nat → α)
    (inputHeight inputWidth outputChannels outputHeight outputWidth filterMultiplier : Nat) (hW : inputWidth = outputWidth + 2)
    (c h w : Nat) (hc : c < outputChannels) (hh : h < outputHeight) (hw : w < outputWidth) :
    DepthwiseConvKernel_3_1.run inputData filterData inputHeight inputWidth outputChannels
        outputHeight outputWidth filterMultiplier outputData
        (c * outputHeight * outputWidth + h * outputWidth + w) =
      ∑ i ∈ Finset.range 3, ∑ j ∈ Finset.range 3,
        inputData ((c / filterMultiplier) * inputHeight * inputWidth
          + (h + i) * inputWidth + (w + j)) * filterData (9 * c + 3 * i + j) := by
  have hidx : c * outputHeight * outputWidth + h * outputWidth + w
      = c * (outputHeight * outputWidth) + (h * outputWidth + w) := by ring
  rw [hidx, DepthwiseConvKernel_3_1.run_apply_31 _ _ _ _ _ _ _ _ _ c h w hc hh hw]
  subst hW
  apply window3_eq_sum <;> intro j <;> ring

/-- The element `DepthwiseConvKernel<3, 2>::run` writes at output `[c][h][w]`, as the
double sum over the taps. -/
theorem reference_sum_32 (inputData filterData outputData : Nat → α)
    (inputHeight inputWidth outputChannels outputHeight outputWidth filterMultiplier : Nat)
    (c h w : Nat) (hc : c < outputChannels) (hh : h < outputHeight) (hw : w < outputWidth) :
    DepthwiseConvKernel_3_2.run inputData filterData inputHeight inputWidth outputChannels
        outputHeight outputWidth filterMultiplier outputData
        (c * outputHeight * outputWidth + h * outputWidth + w) =
      ∑ i ∈ Finset.range 3, ∑ j ∈ Finset.range 3,
        inputData ((c / filterMultiplier) * inputHeight * inputWidth
          + (2 * h + i) * inputWidth + (2 * w + j)) * filterData (9 * c + 3 * i + j) := by
  have hidx : c * outputHeight * outputWidth + h * outputWidth + w
      = c * (outputHeight * outputWidth) + (h * outputWidth + w) := by ring
  rw [hidx, DepthwiseConvKernel_3_2.run_apply_32 _ _ _ _ _ _ _ _ _ c h w hc hh hw]
  apply window3_eq_sum <;> intro j <;> ring

/-- The element `DepthwiseConvKernel<4, 1>::run` writes at output `[c][h][w]`, as the
double sum over the taps. -/
theorem reference_sum_41 (inputData filterData outputData : Nat → α)
    (inputHeight inputWidth outputChannels outputHeight outputWidth filterMultiplier : Nat) (hW : inputWidth = outputWidth + 3)
    (c h w : Nat) (hc : c < outputChannels) (hh : h < outputHeight) (hw : w < outputWidth) :
    DepthwiseConvKernel_4_1.run inputData filterData inputHeight inputWidth outputChannels
        outputHeight outputWidth filterMultiplier outputData
        (c * outputHeight * outputWidth + h * outputWidth + w) =
      ∑ i ∈ Finset.range 4, ∑ j ∈ Finset.range 4,
        inputData ((c / filterMultiplier) * inputHeight * inputWidth
          + (h + i) * inputWidth + (w + j)) * filterData (16 * c + 4 * i + j) := by
  have hidx : c * outputHeight * outputWidth + h * outputWidth + w
      = c * (outputHeight * outputWidth) + (h * outputWidth + w) := by ring
  rw [hidx, DepthwiseConvKernel_4_1.run_apply_41 _ _ _ _ _ _ _ _ _ c h w hc hh hw]
  subst hW
  apply window4_eq_sum <;> intro j <;> ring

/-- The element `DepthwiseConvKernel<4, 2>::run` writes at output `[c][h][w]`, as the
double sum over the taps. -/
theorem reference_sum_42 (inputData filterData outputData : Nat → α)
    (inputHeight inputWidth outputChannels outputHeight outputWidth filterMultiplier : Nat)
    (c h w : Nat) (hc : c < outputChannels) (hh : h < outputHeight) (hw : w < outputWidth) :
    DepthwiseConvKernel_4_2.run inputData filterData inputHeight inputWidth outputChannels
        outputHeight outputWidth filterMultiplier outputData
        (c * outputHeight * outputWidth + h * outputWidth + w) =
      ∑ i ∈ Finset.range 4, ∑ j ∈ Finset.range 4,
        inputData ((c / filterMultiplier) * inputHeight * inputWidth
          + (2 * h + i) * inputWidth + (2 * w + j)) * filterData (16 * c + 4 * i + j) := by
  have hidx : c * outputHeight * outputWidth + h * outputWidth + w
      = c * (outputHeight * outputWidth) + (h * outputWidth + w) := by ring
  rw [hidx, DepthwiseConvKernel_4_2.run_apply_42 _ _ _ _ _ _ _ _ _ c h w hc hh hw]
  apply window4_eq_sum <;> intro j <;> ring

/-- C12: no cross-channel mixing.  For each of the four kernels, on a valid shape and
in exact arithmetic, two calls with the same dimensions whose inputs agree on every
element of input channel `c / filterMultiplier` and whose filters agree on the block
of output channel `c` produce outputs that agree on every element of output channel
`c`, whatever the other input channels, the other filter blocks and the previous
contents of the output buffers are. -/
theorem no_cross_channel_mixing
    (inputData1 inputData2 filterData1 filterData2 outputData1 outputData2 : Nat → α)
    (inputHeight inputWidth outputChannels outputHeight outputWidth filterMultiplier : Nat)
    (c h w : Nat) (_hfm : 0 < filterMultiplier)
    (hc : c < outputChannels) (hh : h < outputHeight) (hw : w < outputWidth)
    (hinput : ∀ p, (c / filterMultiplier) * inputHeight * inputWidth ≤ p →
      p < (c / filterMultiplier) * inputHeight * inputWidth + inputHeight * inputWidth →
      inputData1 p = inputData2 p) :
    (validDim 3 1 inputHeight outputHeight → validDim 3 1 inputWidth outputWidth →
      (∀ q, q < 9 → filterData1 (9 * c + q) = filterData2 (9 * c + q)) →
      DepthwiseConvKernel_3_1.run inputData1 filterData1 inputHeight inputWidth outputChannels
          outputHeight outputWidth filterMultiplier outputData1
          (c * outputHeight * outputWidth + h * outputWidth + w) =
        DepthwiseConvKernel_3_1.run inputData2 filterData2 inputHeight inputWidth outputChannels
          outputHeight outputWidth filterMultiplier outputData2
          (c * outputHeight * outputWidth + h * outputWidth + w)) ∧
    (validDim 3 2 inputHeight outputHeight → validDim 3 2 inputWidth outputWidth →
      (∀ q, q < 9 → filterData1 (9 * c + q) = filterData2 (9 * c + q)) →
      DepthwiseConvKernel_3_2.run inputData1 filterData1 inputHeight inputWidth outputChannels
          outputHeight outputWidth filterMultiplier outputData1
          (c * outputHeight * outputWidth + h * outputWidth + w) =
        DepthwiseConvKernel_3_2.run inputData2 filterData2 inputHeight inputWidth outputChannels
          outputHeight outputWidth filterMultiplier outputData2
          (c * outputHeight * outputWidth + h * outputWidth + w)) ∧
    (validDim 4 1 inputHeight outputHeight → validDim 4 1 inputWidth outputWidth →
      (∀ q, q < 16 → filterData1 (16 * c + q) = filterData2 (16 * c + q)) →
      DepthwiseConvKernel_4_1.run inputData1 filterData1 inputHeight inputWidth outputChannels
          outputHeight outputWidth filterMultiplier outputData1
          (c * outputHeight * outputWidth + h * outputWidth + w) =
        DepthwiseConvKernel_4_1.run inputData2 filterData2 inputHeight inputWidth outputChannels
          outputHeight outputWidth filterMultiplier outputData2
          (c * outputHeight * outputWidth + h * outputWidth + w)) ∧
    (validDim 4 2 inputHeight outputHeight → validDim 4 2 inputWidth outputWidth →
      (∀ q, q < 16 → filterData1 (16 * c + q) = filterData2 (16 * c + q)) →
      DepthwiseConvKernel_4_2.run inputData1 filterData1 inputHeight inputWidth outputChannels
          outputHeight outputWidth filterMultiplier outputData1
          (c * outputHeight * outputWidth + h * outputWidth + w) =
        DepthwiseConvKernel_4_2.run inputData2 filterData2 inputHeight inputWidth outputChannels
          outputHeight outputWidth filterMultiplier outputData2
          (c * outputHeight * outputWidth + h * outputWidth + w)) := by
  refine ⟨?_, ?_, ?_, ?_⟩
  · intro hvH hvW hfilter
    obtain ⟨hH1, hH2⟩ := hvH
    obtain ⟨hW1, hW2⟩ := hvW
    rw [reference_sum_31 inputData1 filterData1 outputData1 _ _ _ _ _ _ (by omega) c h w hc hh hw,
      reference_sum_31 inputData2 filterData2 outputData2 _ _ _ _ _ _ (by omega) c h w hc hh hw]
    refine Finset.sum_congr rfl (fun i hi => Finset.sum_congr rfl (fun j hj => ?_))
    have hi3 := Finset.mem_range.mp hi
    have hj3 := Finset.mem_range.mp hj
    have hy : h + i < inputHeight := by omega
    have hx : w + j < inputWidth := by omega
    have hblk := block_lt inputHeight inputWidth (h + i) (w + j) hy hx
    rw [hinput _ (by omega) (by rw [Nat.mul_assoc]; omega),
      show 9 * c + 3 * i + j = 9 * c + (3 * i + j) by omega,
      hfilter (3 * i + j) (by omega)]
  · intro hvH hvW hfilter
    obtain ⟨hH1, hH2⟩ := hvH
    obtain ⟨hW1, hW2⟩ := hvW
    rw [reference_sum_32 inputData1 filterData1 outputData1 _ _ _ _ _ _ c h w hc hh hw,
      reference_sum_32 inputData2 filterData2 outputData2 _ _ _ _ _ _ c h w hc hh hw]
    refine Finset.sum_congr rfl (fun i hi => Finset.sum_congr rfl (fun j hj => ?_))
    have hi3 := Finset.mem_range.mp hi
    have hj3 := Finset.mem_range.mp hj
    have hy : 2 * h + i < inputHeight := by omega
    have hx : 2 * w + j < inputWidth := by omega
    have hblk := block_lt inputHeight inputWidth (2 * h + i) (2 * w + j) hy hx
    rw [hinput _ (by omega) (by rw [Nat.mul_assoc]; omega),
      show 9 * c + 3 * i + j = 9 * c + (3 * i + j) by omega,
      hfilter (3 * i + j) (by omega)]
  · intro hvH hvW hfilter
    obtain ⟨hH1, hH2⟩ := hvH
    obtain ⟨hW1, hW2⟩ := hvW
    rw [reference_sum_41 inputData1 filterData1 outputData1 _ _ _ _ _ _ (by omega) c h w hc hh hw,
      reference_sum_41 inputData2 filterData2 outputData2 _ _ _ _ _ _ (by omega) c h w hc hh hw]
    refine Finset.sum_congr rfl (fun i hi => Finset.sum_congr rfl (fun j hj => ?_))
    have hi3 := Finset.mem_range.mp hi
    have hj3 := Finset.mem_range.mp hj
    have hy : h + i < inputHeight := by omega
    have hx : w + j < inputWidth := by omega
    have hblk := block_lt inputHeight inputWidth (h + i) (w + j) hy hx
    rw [hinput _ (by omega) (by rw [Nat.mul_assoc]; omega),
      show 16 * c + 4 * i + j = 16 * c + (4 * i + j) by omega,
      hfilter (4 * i + j) (by omega)]
  · intro hvH hvW hfilter
    obtain ⟨hH1, hH2⟩ := hvH
    obtain ⟨hW1, hW2⟩ := hvW
    rw [reference_sum_42 inputData1 filterData1 outputData1 _ _ _ _ _ _ c h w hc hh hw,
      reference_sum_42 inputData2 filterData2 outputData2 _ _ _ _ _ _ c h w hc hh hw]
    refine Finset.sum_congr rfl (fun i hi => Finset.sum_congr rfl (fun j hj => ?_))
    have hi3 := Finset.mem_range.mp hi
    have hj3 := Finset.mem_range.mp hj
    have hy : 2 * h + i < inputHeight := by omega
    have hx : 2 * w + j < inputWidth := by omega
    have hblk := block_lt inputHeight inputWidth (2 * h + i) (2 * w + j) hy hx
    rw [hinput _ (by omega) (by rw [Nat.mul_assoc]; omega),
      show 16 * c + 4 * i + j = 16 * c + (4 * i + j) by omega,
      hfilter (4 * i + j) (by omega)]

/-- Witness for C12: two inputs that differ only in channel 0 and two filters that
differ only in the block of output channel 0, compared on output channel 1. -/
theorem no_cross_channel_mixing_witness :
    DepthwiseConvKernel_3_1.run (fun p => if p < 36 then 0 else (p : Int))
        (fun p => if p < 9 then 0 else (p : Int)) 6 6 2 4 4 1 (fun _ => 0)
        (1 * 4 * 4 + 2 * 4 + 3) =
      DepthwiseConvKernel_3_1.run (fun p => (p : Int)) (fun p => (p : Int)) 6 6 2 4 4 1
        (fun _ => 7) (1 * 4 * 4 + 2 * 4 + 3) ∧
    DepthwiseConvKernel_4_2.run (fun p => if p < 64 then 0 else (p : Int))
        (fun p => if p < 16 then 0 else (p : Int)) 8 8 2 3 3 1 (fun _ => 0)
        (1 * 3 * 3 + 2 * 3 + 1) =
      DepthwiseConvKernel_4_2.run (fun p => (p : Int)) (fun p => (p : Int)) 8 8 2 3 3 1
        (fun _ => 7) (1 * 3 * 3 + 2 * 3 + 1) :=
  ⟨(no_cross_channel_mixing (fun p => if p < 36 then 0 else (p : Int)) (fun p => (p : Int))
      (fun p => if p < 9 then 0 else (p : Int)) (fun p => (p : Int)) (fun _ => 0)
      (fun _ => 7) 6 6 2 4 4 1 1 2 3 (by decide) (by decide) (by decide) (by decide)
      (fun p h1 _ => by
        have h2 : ¬ p < 36 := by omega
        simp only [h2, if_false])).1
      (by decide) (by decide)
      (fun q _ => by
        have h2 : ¬ 9 * 1 + q < 9 := by omega
        simp only [h2, if_false]),
   (no_cross_channel_mixing (fun p => if p < 64 then 0 else (p : Int)) (fun p => (p : Int))
      (fun p => if p < 16 then 0 else (p : Int)) (fun p => (p : Int)) (fun _ => 0)
      (fun _ => 7) 8 8 2 3 3 1 1 2 1 (by decide) (by decide) (by decide) (by decide)
      (fun p h1 _ => by
        have h2 : ¬ p < 64 := by omega
        simp only [h2, if_false])).2.2.2
      (by decide) (by decide)
      (fun q _ => by
        have h2 : ¬ 16 * 1 + q < 16 := by omega
        simp only [h2, if_false])⟩

/-- C19: the stride-2 kernel is the stride-1 kernel subsampled.  For the same input,
filter and `filterMultiplier`, with `out1` the result of the stride-1 kernel for
`outputHeight1 = inputHeight - filterSize + 1`, `outputWidth1 = inputWidth - filterSize
+ 1` and `out2` the result of the stride-2 kernel for `outputHeight2 =
floor((inputHeight - filterSize) / 2) + 1`, `outputWidth2 = floor((inputWidth -
filterSize) / 2) + 1`, in exact arithmetic `out2[c][h][w] = out1[c][2 * h][2 * w]` for
every `c, h, w` in range of `out2`, for filter size 3 and for filter size 4. -/
theorem stride2_subsamples_stride1 (inputData filterData outputData1 outputData2 : Nat → α)
    (inputHeight inputWidth outputChannels filterMultiplier : Nat)
    (outputHeight1 outputWidth1 outputHeight2 outputWidth2 c h w : Nat) :
    (validDim 3 1 inputHeight outputHeight1 → validDim 3 1 inputWidth outputWidth1 →
      validDim 3 2 inputHeight outputHeight2 → validDim 3 2 inputWidth outputWidth2 →
      c < outputChannels → h < outputHeight2 → w < outputWidth2 →
      DepthwiseConvKernel_3_2.run inputData filterData inputHeight inputWidth outputChannels
          outputHeight2 outputWidth2 filterMultiplier outputData2
          (c * outputHeight2 * outputWidth2 + h * outputWidth2 + w) =
        DepthwiseConvKernel_3_1.run inputData filterData inputHeight inputWidth outputChannels
          outputHeight1 outputWidth1 filterMultiplier outputData1
          (c * outputHeight1 * outputWidth1 + (2 * h) * outputWidth1 + 2 * w)) ∧
    (validDim 4 1 inputHeight outputHeight1 → validDim 4 1 inputWidth outputWidth1 →
      validDim 4 2 inputHeight outputHeight2 → validDim 4 2 inputWidth outputWidth2 →
      c < outputChannels → h < outputHeight2 → w < outputWidth2 →
      DepthwiseConvKernel_4_2.run inputData filterData inputHeight inputWidth outputChannels
          outputHeight2 outputWidth2 filterMultiplier outputData2
          (c * outputHeight2 * outputWidth2 + h * outputWidth2 + w) =
        DepthwiseConvKernel_4_1.run inputData filterData inputHeight inputWidth outputChannels
          outputHeight1 outputWidth1 filterMultiplier outputData1
          (c * outputHeight1 * outputWidth1 + (2 * h) * outputWidth1 + 2 * w)) := by
  refine ⟨?_, ?_⟩
  · intro hv1H hv1W hv2H hv2W hc hh hw
    obtain ⟨a1, a2⟩ := hv1H
    obtain ⟨b1, b2⟩ := hv1W
    obtain ⟨d1, d2⟩ := hv2H
    obtain ⟨e1, e2⟩ := hv2W
    rw [reference_sum_32 inputData filterData outputData2 _ _ _ _ _ _ c h w hc hh hw,
      reference_sum_31 inputData filterData outputData1 _ _ _ _ _ _ (by omega) c (2 * h)
        (2 * w) hc (by omega) (by omega)]
  · intro hv1H hv1W hv2H hv2W hc hh hw
    obtain ⟨a1, a2⟩ := hv1H
    obtain ⟨b1, b2⟩ := hv1W
    obtain ⟨d1, d2⟩ := hv2H
    obtain ⟨e1, e2⟩ := hv2W
    rw [reference_sum_42 inputData filterData outputData2 _ _ _ _ _ _ c h w hc hh hw,
      reference_sum_41 inputData filterData outputData1 _ _ _ _ _ _ (by omega) c (2 * h)
        (2 * w) hc (by omega) (by omega)]

/-- C14: the row pointers track the stride-scaled rows.  In each of the four kernels,
on a valid shape (`outputWidth = floor((inputWidth - filterSize) / stride) + 1`), when
the processing of output row `h` of output channel `c` starts, the `i`-th row pointer
is the input offset `(c / filterMultiplier) * inputHeight * inputWidth
+ (stride * h + i) * inputWidth`.  In the stride-1 kernels the pointers are carried
from row to row, and the equation is an invariant of the row loop (it holds after any
number `h` of iterations). -/
theorem row_pointers_track_rows (inputData filterData outputData : Nat → α)
    (inputHeight inputWidth outputHeight outputWidth filterMultiplier c h : Nat)
    (_hfm : 0 < filterMultiplier) :
    (validDim 3 1 inputWidth outputWidth →
      (DepthwiseConvKernel_3_1.rowStart inputData filterData inputHeight inputWidth outputHeight
          outputWidth filterMultiplier outputData c h).r0 =
        (c / filterMultiplier) * inputHeight * inputWidth + (h + 0) * inputWidth ∧
      (DepthwiseConvKernel_3_1.rowStart inputData filterData inputHeight inputWidth outputHeight
          outputWidth filterMultiplier outputData c h).r1 =
        (c / filterMultiplier) * inputHeight * inputWidth + (h + 1) * inputWidth ∧
      (DepthwiseConvKernel_3_1.rowStart inputData filterData inputHeight inputWidth outputHeight
          outputWidth filterMultiplier outputData c h).r2 =
        (c / filterMultiplier) * inputHeight * inputWidth + (h + 2) * inputWidth) ∧
    (validDim 3 2 inputWidth outputWidth →
      (DepthwiseConvKernel_3_2.rowStart inputData filterData inputHeight inputWidth outputHeight
          outputWidth filterMultiplier outputData c h).r0 =
        (c / filterMultiplier) * inputHeight * inputWidth + (2 * h + 0) * inputWidth ∧
      (DepthwiseConvKernel_3_2.rowStart inputData filterData inputHeight inputWidth outputHeight
          outputWidth filterMultiplier outputData c h).r1 =
        (c / filterMultiplier) * inputHeight * inputWidth + (2 * h + 1) * inputWidth ∧
      (DepthwiseConvKernel_3_2.rowStart inputData filterData inputHeight inputWidth outputHeight
          outputWidth filterMultiplier outputData c h).r2 =
        (c / filterMultiplier) * inputHeight * inputWidth + (2 * h + 2) * inputWidth) ∧
    (validDim 4 1 inputWidth outputWidth →
      (DepthwiseConvKernel_4_1.rowStart inputData filterData inputHeight inputWidth outputHeight
          outputWidth filterMultiplier outputData c h).r0 =
        (c / filterMultiplier) * inputHeight * inputWidth + (h + 0) * inputWidth ∧
      (DepthwiseConvKernel_4_1.rowStart inputData filterData inputHeight inputWidth outputHeight
          outputWidth filterMultiplier outputData c h).r1 =
        (c / filterMultiplier) * inputHeight * inputWidth + (h + 1) * inputWidth ∧
      (DepthwiseConvKernel_4_1.rowStart inputData filterData inputHeight inputWidth outputHeight
          outputWidth filterMultiplier outputData c h).r2 =
        (c / filterMultiplier) * inputHeight * inputWidth + (h + 2) * inputWidth ∧
      (DepthwiseConvKernel_4_1.rowStart inputData filterData inputHeight inputWidth outputHeight
          outputWidth filterMultiplier outputData c h).r3 =
        (c / filterMultiplier) * inputHeight * inputWidth + (h + 3) * inputWidth) ∧
    (validDim 4 2 inputWidth outputWidth →
      (DepthwiseConvKernel_4_2.rowStart inputData filterData inputHeight inputWidth outputHeight
          outputWidth filterMultiplier outputData c h).r0 =
        (c / filterMultiplier) * inputHeight * inputWidth + (2 * h + 0) * inputWidth ∧
      (DepthwiseConvKernel_4_2.rowStart inputData filterData inputHeight inputWidth outputHeight
          outputWidth filterMultiplier outputData c h).r1 =
        (c / filterMultiplier) * inputHeight * inputWidth + (2 * h + 1) * inputWidth ∧
      (DepthwiseConvKernel_4_2.rowStart inputData filterData inputHeight inputWidth outputHeight
          outputWidth filterMultiplier outputData c h).r2 =
        (c / filterMultiplier) * inputHeight * inputWidth + (2 * h + 2) * inputWidth ∧
      (DepthwiseConvKernel_4_2.rowStart inputData filterData inputHeight inputWidth outputHeight
          outputWidth filterMultiplier outputData c h).r3 =
        (c / filterMultiplier) * inputHeight * inputWidth + (2 * h + 3) * inputWidth) := by
  refine ⟨?_, ?_, ?_, ?_⟩
  · intro hvW
    obtain ⟨hW1, hW2⟩ := hvW
    have hW : inputWidth = outputWidth + 2 := by omega
    subst hW
    simp only [DepthwiseConvKernel_3_1.rowStart, DepthwiseConvKernel_3_1.rowLoop_eq_31 inputData _ (loadFilter3_l3 filterData _)]
    refine ⟨?_, ?_, ?_⟩ <;> ring
  · intro _
    simp only [DepthwiseConvKernel_3_2.rowStart, DepthwiseConvKernel_3_2.rowPointers]
    refine ⟨?_, ?_, ?_⟩ <;> ring
  · intro hvW
    obtain ⟨hW1, hW2⟩ := hvW
    have hW : inputWidth = outputWidth + 3 := by omega
    subst hW
    simp only [DepthwiseConvKernel_4_1.rowStart, DepthwiseConvKernel_4_1.rowLoop_eq_41 inputData _]
    refine ⟨?_, ?_, ?_, ?_⟩ <;> ring
  · intro _
    simp only [DepthwiseConvKernel_4_2.rowStart, DepthwiseConvKernel_4_2.rowPointers]
    refine ⟨?_, ?_, ?_, ?_⟩ <;> ring

/-- Witness for C14: each variant on a valid shape, at an inner output row. -/
theorem row_pointers_track_rows_witness :
    ((DepthwiseConvKernel_3_1.rowStart (fun p => (p : Int)) (fun p => (p : Int) + 1) 6 6 4 4 1
          (fun _ => 0) 0 2).r0 = (0 / 1) * 6 * 6 + (2 + 0) * 6 ∧
      (DepthwiseConvKernel_3_1.rowStart (fun p => (p : Int)) (fun p => (p : Int) + 1) 6 6 4 4 1
          (fun _ => 0) 0 2).r1 = (0 / 1) * 6 * 6 + (2 + 1) * 6 ∧
      (DepthwiseConvKernel_3_1.rowStart (fun p => (p : Int)) (fun p => (p : Int) + 1) 6 6 4 4 1
          (fun _ => 0) 0 2).r2 = (0 / 1) * 6 * 6 + (2 + 2) * 6) ∧
    ((DepthwiseConvKernel_3_2.rowStart (fun p => (p : Int)) (fun p => (p : Int) + 1) 7 7 3 3 1
          (fun _ => 0) 0 2).r0 = (0 / 1) * 7 * 7 + (2 * 2 + 0) * 7 ∧
      (DepthwiseConvKernel_3_2.rowStart (fun p => (p : Int)) (fun p => (p : Int) + 1) 7 7 3 3 1
          (fun _ => 0) 0 2).r1 = (0 / 1) * 7 * 7 + (2 * 2 + 1) * 7 ∧
      (DepthwiseConvKernel_3_2.rowStart (fun p => (p : Int)) (fun p => (p : Int) + 1) 7 7 3 3 1
          (fun _ => 0) 0 2).r2 = (0 / 1) * 7 * 7 + (2 * 2 + 2) * 7) ∧
    ((DepthwiseConvKernel_4_1.rowStart (fun p => (p : Int)) (fun p => (p : Int) + 1) 8 8 5 5 1
          (fun _ => 0) 0 3).r0 = (0 / 1) * 8 * 8 + (3 + 0) * 8 ∧
      (DepthwiseConvKernel_4_1.rowStart (fun p => (p : Int)) (fun p => (p : Int) + 1) 8 8 5 5 1
          (fun _ => 0) 0 3).r1 = (0 / 1) * 8 * 8 + (3 + 1) * 8 ∧
      (DepthwiseConvKernel_4_1.rowStart (fun p => (p : Int)) (fun p => (p : Int) + 1) 8 8 5 5 1
          (fun _ => 0) 0 3).r2 = (0 / 1) * 8 * 8 + (3 + 2) * 8 ∧
      (DepthwiseConvKernel_4_1.rowStart (fun p => (p : Int)) (fun p => (p : Int) + 1) 8 8 5 5 1
          (fun _ => 0) 0 3).r3 = (0 / 1) * 8 * 8 + (3 + 3) * 8) ∧
    ((DepthwiseConvKernel_4_2.rowStart (fun p => (p : Int)) (fun p => (p : Int) + 1) 8 8 3 3 1
          (fun _ => 0) 0 1).r0 = (0 / 1) * 8 * 8 + (2 * 1 + 0) * 8 ∧
      (DepthwiseConvKernel_4_2.rowStart (fun p => (p : Int)) (fun p => (p : Int) + 1) 8 8 3 3 1
          (fun _ => 0) 0 1).r1 = (0 / 1) * 8 * 8 + (2 * 1 + 1) * 8 ∧
      (DepthwiseConvKernel_4_2.rowStart (fun p => (p : Int)) (fun p => (p : Int) + 1) 8 8 3 3 1
          (fun _ => 0) 0 1).r2 = (0 / 1) * 8 * 8 + (2 * 1 + 2) * 8 ∧
      (DepthwiseConvKernel_4_2.rowStart (fun p => (p : Int)) (fun p => (p : Int) + 1) 8 8 3 3 1
          (fun _ => 0) 0 1).r3 = (0 / 1) * 8 * 8 + (2 * 1 + 3) * 8) :=
  ⟨(row_pointers_track_rows (fun p => (p : Int)) (fun p => (p : Int) + 1) (fun _ => 0)
      6 6 4 4 1 0 2 (by decide)).1 (by decide),
   (row_pointers_track_rows (fun p => (p : Int)) (fun p => (p : Int) + 1) (fun _ => 0)
      7 7 3 3 1 0 2 (by decide)).2.1 (by decide),
   (row_pointers_track_rows (fun p => (p : Int)) (fun p => (p : Int) + 1) (fun _ => 0)
      8 8 5 5 1 0 3 (by decide)).2.2.1 (by decide),
   (row_pointers_track_rows (fun p => (p : Int)) (fun p => (p : Int) + 1) (fun _ => 0)
      8 8 3 3 1 0 1 (by decide)).2.2.2 (by decide)⟩

/-- C18: the overlapping 4-lane loads of the 3x3 kernels do not leak foreign data.
After the filter load of `DepthwiseConvKernel<3, 1>::run` / `<3, 2>::run` for output
channel `c`, lane `j < 3` of `k[i]` is `filter[9 * c + 3 * i + j]` and lane 3 is `0`;
so, in exact arithmetic, `conv3x3(i0, i1, i2, k[0], k[1], k[2])` is the sum over
`i, j < 3` of `(i_i lane j) * filter[9 * c + 3 * i + j]`, and it does not change when
lane 3 of `i0, i1, i2` or the filter outside the 9 coefficients of channel `c` (in
particular `filterData[9 * c + 9]`) changes. -/
theorem conv3x3_ignores_lane3 (filterData : Nat → α) (c : Nat) (row : Nat → float32x4_t α) :
    ((∀ j, j < 3 →
        vgetq_lane_f32 (loadFilter3 filterData (9 * c)).k0 j = filterData (9 * c + 3 * 0 + j) ∧
        vgetq_lane_f32 (loadFilter3 filterData (9 * c)).k1 j = filterData (9 * c + 3 * 1 + j) ∧
        vgetq_lane_f32 (loadFilter3 filterData (9 * c)).k2 j = filterData (9 * c + 3 * 2 + j)) ∧
      vgetq_lane_f32 (loadFilter3 filterData (9 * c)).k0 3 = 0 ∧
      vgetq_lane_f32 (loadFilter3 filterData (9 * c)).k1 3 = 0 ∧
      vgetq_lane_f32 (loadFilter3 filterData (9 * c)).k2 3 = 0) ∧
    conv3x3 (row 0) (row 1) (row 2) (loadFilter3 filterData (9 * c)).k0
        (loadFilter3 filterData (9 * c)).k1 (loadFilter3 filterData (9 * c)).k2 =
      ∑ i ∈ Finset.range 3, ∑ j ∈ Finset.range 3,
        vgetq_lane_f32 (row i) j * filterData (9 * c + 3 * i + j) ∧
    (∀ (row2 : Nat → float32x4_t α) (filterData2 : Nat → α),
      (∀ i, i < 3 → ∀ j, j < 3 → vgetq_lane_f32 (row2 i) j = vgetq_lane_f32 (row i) j) →
      (∀ q, q < 9 → filterData2 (9 * c + q) = filterData (9 * c + q)) →
      conv3x3 (row2 0) (row2 1) (row2 2) (loadFilter3 filterData2 (9 * c)).k0
          (loadFilter3 filterData2 (9 * c)).k1 (loadFilter3 filterData2 (9 * c)).k2 =
        conv3x3 (row 0) (row 1) (row 2) (loadFilter3 filterData (9 * c)).k0
          (loadFilter3 filterData (9 * c)).k1 (loadFilter3 filterData (9 * c)).k2) := by
  have hsum : ∀ (r : Nat → float32x4_t α) (f : Nat → α),
      conv3x3 (r 0) (r 1) (r 2) (loadFilter3 f (9 * c)).k0 (loadFilter3 f (9 * c)).k1
          (loadFilter3 f (9 * c)).k2 =
        ∑ i ∈ Finset.range 3, ∑ j ∈ Finset.range 3,
          vgetq_lane_f32 (r i) j * f (9 * c + 3 * i + j) := by
    intro r f
    simp only [conv3x3, vmulq_f32, vmlaq_f32, vaddvq_f32, loadFilter3, vld1q_f32,
      vsetq_lane_f32, vgetq_lane_f32, Finset.sum_range_succ, Finset.sum_range_zero,
      Nat.mul_zero, Nat.add_zero, Nat.mul_one, zero_add, mul_zero, add_zero, Nat.add_assoc,
      Nat.reduceAdd, Nat.reduceMul]
    ring
  refine ⟨⟨?_, ?_, ?_, ?_⟩, hsum row filterData, ?_⟩
  · intro j hj
    have hj3 : j = 0 ∨ j = 1 ∨ j = 2 := by omega
    rcases hj3 with h0 | h0 | h0 <;> subst h0 <;>
      simp [loadFilter3, vld1q_f32, vsetq_lane_f32, vgetq_lane_f32, Nat.add_assoc]
  · simp [loadFilter3, vsetq_lane_f32, vgetq_lane_f32]
  · simp [loadFilter3, vsetq_lane_f32, vgetq_lane_f32]
  · simp [loadFilter3, vsetq_lane_f32, vgetq_lane_f32]
  · intro row2 filterData2 hrow hfilter
    rw [hsum row2 filterData2, hsum row filterData]
    refine Finset.sum_congr rfl (fun i hi => Finset.sum_congr rfl (fun j hj => ?_))
    have hi3 := Finset.mem_range.mp hi
    have hj3 := Finset.mem_range.mp hj
    rw [hrow i hi3 j hj3, show 9 * c + 3 * i + j = 9 * c + (3 * i + j) by omega,
      hfilter (3 * i + j) (by omega)]

end Relational

/-! ## Summation order of the remainder helper and of the bulk pass -/

/-- C15, as stated, fails: on symbolic values, whose sum is not associative (only
`0 + x = x + 0 = x` and `0 * x = x * 0 = 0` are identified), the value `conv3x3` /
`conv4x4` computes for a column is not the value lane 0 of a bulk step computes for
it, in each of the four variants: the two expression trees differ. -/
theorem summation_trees_differ :
    remainValue3 SymValue.input (loadFilter3 SymValue.filter 0) 0 10 20 ≠
      (DepthwiseConvKernel_3_1.bulkVector SymValue.input (loadFilter3 SymValue.filter 0)
        0 10 20).l0 ∧
    remainValue3 SymValue.input (loadFilter3 SymValue.filter 0) 0 10 20 ≠
      (DepthwiseConvKernel_3_2.bulkVector SymValue.input (loadFilter3 SymValue.filter 0)
        0 10 20).l0 ∧
    remainValue4 SymValue.input (loadFilter4 SymValue.filter 0) 0 10 20 30 ≠
      (DepthwiseConvKernel_4_1.bulkVector SymValue.input (loadFilter4 SymValue.filter 0)
        0 10 20 30).l0 ∧
    remainValue4 SymValue.input (loadFilter4 SymValue.filter 0) 0 10 20 30 ≠
      (DepthwiseConvKernel_4_2.bulkVector SymValue.input (loadFilter4 SymValue.filter 0)
        0 10 20 30).l0 := by
  decide

/-- C15, amended: the remainder helper and the bulk pass combine the same
`filterSize * filterSize` products with different expression trees, and agree whenever
the sum is associative and commutative with neutral element `0` and `x * 0 = 0`; the
product need not be associative or commutative. -/
theorem summation_agrees_up_to_reassociation {α : Type} [NonUnitalNonAssocSemiring α]
    (inputData filterData : Nat → α) (filterOffset r0 r1 r2 r3 : Nat) :
    remainValue3 inputData (loadFilter3 filterData filterOffset) r0 r1 r2 =
      (DepthwiseConvKernel_3_1.bulkVector inputData
        (loadFilter3 filterData filterOffset) r0 r1 r2).l0 ∧
    remainValue3 inputData (loadFilter3 filterData filterOffset) r0 r1 r2 =
      (DepthwiseConvKernel_3_2.bulkVector inputData
        (loadFilter3 filterData filterOffset) r0 r1 r2).l0 ∧
    remainValue4 inputData (loadFilter4 filterData filterOffset) r0 r1 r2 r3 =
      (DepthwiseConvKernel_4_1.bulkVector inputData
        (loadFilter4 filterData filterOffset) r0 r1 r2 r3).l0 ∧
    remainValue4 inputData (loadFilter4 filterData filterOffset) r0 r1 r2 r3 =
      (DepthwiseConvKernel_4_2.bulkVector inputData
        (loadFilter4 filterData filterOffset) r0 r1 r2 r3).l0 := by
  refine ⟨?_, ?_, ?_, ?_⟩
  · simp only [remainValue3, conv3x3, vld1q_f32, vmulq_f32, vmlaq_f32, vaddvq_f32,
      loadFilter3, vsetq_lane_f32, DepthwiseConvKernel_3_1.bulkVector, accumulate3,
      vextq_f32, vdupq_n_f32, vmlaq_laneq_f32, vgetq_lane_f32, vaddq_f32, mul_zero,
      zero_add, add_zero]
    abel
  · simp only [remainValue3, conv3x3, vld1q_f32, vld2q_f32, vmulq_f32, vmlaq_f32,
      vaddvq_f32, loadFilter3, vsetq_lane_f32, DepthwiseConvKernel_3_2.bulkVector,
      accumulate3, vextq_f32, vdupq_n_f32, vmlaq_laneq_f32, vgetq_lane_f32, vaddq_f32,
      mul_zero, zero_add, add_zero]
    abel
  · simp only [remainValue4, conv4x4, vld1q_f32, vmulq_f32, vmlaq_f32, vaddvq_f32,
      loadFilter4, DepthwiseConvKernel_4_1.bulkVector, accumulate4,
      vextq_f32, vdupq_n_f32, vmlaq_laneq_f32, vgetq_lane_f32, vaddq_f32, mul_zero,
      zero_add, add_zero]
    abel
  · simp only [remainValue4, conv4x4, vld1q_f32, vld2q_f32, vmulq_f32, vmlaq_f32,
      vaddvq_f32, loadFilter4, DepthwiseConvKernel_4_2.bulkVector,
      accumulate4, vextq_f32, vdupq_n_f32, vmlaq_laneq_f32, vgetq_lane_f32, vaddq_f32,
      mul_zero, zero_add, add_zero]
    abel

/-! ## The NEON padding routine against the generic one -/

/-- C17: the NEON specialisation `Padding<float>::run` is equivalent to the generic
`Padding<T>::run`: for all dimensions and every source and destination content the two
routines leave `dest` in the same final state. -/
theorem padding_float_equals_generic {α : Type} [Zero α] (src dest : Nat → α)
    (channels inputHeight inputWidth paddingHeight paddingWidth : Nat) :
    Padding_float.run src dest channels inputHeight inputWidth paddingHeight paddingWidth =
      Padding.run src dest channels inputHeight inputWidth paddingHeight paddingWidth := by
  have hstep : ∀ st : PaddingState α,
      Padding_float.rowBody src inputWidth paddingWidth st =
        Padding.rowBody src inputWidth paddingWidth st :=
    fun st => Padding_float.rowBody_eq_float src inputWidth paddingWidth st
  have hrow : (fun (_ : Nat) (st : PaddingState α) =>
        Padding_float.rowBody src inputWidth paddingWidth st)
      = (fun _ st => Padding.rowBody src inputWidth paddingWidth st) := by
    funext _ st
    exact hstep st
  simp only [Padding_float.run, Padding.run, Padding_float.channelBody, Padding.channelBody,
    hrow]

/-! ## Stores of the kernels -/

section StoreLemmas

theorem vst1q_f32_offsets_eq (p : Nat) : vst1q_f32_offsets p = List.range' p 4 := rfl

theorem vld1q_f32_offsets_eq (p : Nat) : vld1q_f32_offsets p = List.range' p 4 := rfl

theorem loopLoads_succ {σ : Type} (n : Nat) (body : Nat → σ → σ)
    (loads : Nat → σ → List Nat) (s : σ) :
    loopLoads (n + 1) body loads s = loopLoads n body loads s ++ loads n (forLoop n body s) := by
  show (traced body loads n (forLoop n (traced body loads) (s, []))).2 = _
  simp only [traced, loopLoads, forLoop_traced_fst]

/-- A loop whose `i`-th iteration records the `k` consecutive offsets from its pointer
on and advances the pointer by `k` records `n * k` consecutive offsets. -/
theorem loopLoads_eq_range' {σ : Type} (od : σ → Nat) (k n : Nat) (body : Nat → σ → σ)
    (loads : Nat → σ → List Nat) (s : σ)
    (hod : ∀ i, i < n → od (forLoop i body s) = od s + i * k)
    (hl : ∀ i, i < n → loads i (forLoop i body s) = List.range' (od (forLoop i body s)) k) :
    loopLoads n body loads s = List.range' (od s) (n * k) := by
  induction n with
  | zero => simp [loopLoads, forLoop]
  | succ n ih =>
    rw [loopLoads_succ, ih (fun i hi => hod i (by omega)) (fun i hi => hl i (by omega)),
      hl n (by omega), hod n (by omega)]
    have h := List.range'_append (od s) (n * k) k 1
    rw [Nat.one_mul] at h
    rw [h, Nat.succ_mul, Nat.add_comm]

theorem range'_append_one (s m n : Nat) :
    List.range' s m ++ List.range' (s + m) n = List.range' s (m + n) := by
  have h := List.range'_append s m n 1
  rw [Nat.one_mul] at h
  rw [h, Nat.add_comm]

end StoreLemmas

section KernelStores

variable {α : Type} [CommSemiring α]

namespace DepthwiseConvKernel_3_1

theorem remainLoop_outputData_31 (inputData : Nat → α) (k : Filter3 α) (n : Nat)
    (st : State3 α) :
    (forLoop n (fun _ st => remainStep inputData k st) st).outputData = st.outputData + n := by
  induction n with
  | zero => rfl
  | succ n ih =>
    have h : (forLoop (n + 1) (fun _ st => remainStep inputData k st) st).outputData
        = (forLoop n (fun _ st => remainStep inputData k st) st).outputData + 1 := rfl
    rw [h, ih, Nat.add_assoc]

theorem bulkStores_eq_31 (inputData : Nat → α) (k : Filter3 α) (steps : Nat)
    (st : State3 α) :
    bulkStores inputData k steps st = List.range' st.outputData (4 * steps) := by
  have h := loopLoads_eq_range' (fun s : State3 α => s.outputData) 4 steps
    (fun _ st => bulkStep inputData k st) (fun _ st => vst1q_f32_offsets st.outputData) st
    (fun i _ => by
      rw [bulkLoop_eq_31]
      simp only
      omega)
    (fun i _ => vst1q_f32_offsets_eq _)
  rw [Nat.mul_comm]
  exact h

theorem remainStores_eq_31 (inputData : Nat → α) (k : Filter3 α) (remain : Nat)
    (st : State3 α) :
    remainStores inputData k remain st = List.range' st.outputData remain := by
  have h := loopLoads_eq_range' (fun s : State3 α => s.outputData) 1 remain
    (fun _ st => remainStep inputData k st) (fun _ st => [st.outputData]) st
    (fun i _ => by
      simp only [remainLoop_outputData_31, Nat.mul_one])
    (fun i _ => rfl)
  rw [Nat.mul_one] at h
  exact h

theorem rowStores_eq_31 (inputData : Nat → α) (k : Filter3 α) (outputWidth : Nat)
    (st : State3 α) :
    rowStores inputData k (outputWidth >>> 2) (outputWidth &&& 3) st =
      List.range' st.outputData outputWidth := by
  have hw : 4 * (outputWidth / 4) + outputWidth % 4 = outputWidth := by omega
  simp only [rowStores, bulkStores_eq_31, remainStores_eq_31, bulkLoop_eq_31,
    range'_append_one, shiftRight_two, and_three, hw]

theorem channelStores_eq_31 (inputData filterData : Nat → α)
    (inputHeight inputWidth outputHeight outputWidth filterMultiplier c : Nat)
    (cs : ChannelState α) :
    channelStores inputData filterData inputHeight inputWidth outputHeight
        (outputWidth >>> 2) (outputWidth &&& 3) filterMultiplier c cs =
      List.range' cs.outputData (outputHeight * outputWidth) := by
  exact loopLoads_eq_range' (fun s : State3 α => s.outputData) outputWidth outputHeight
    (fun _ st => rowBody inputData _ (outputWidth >>> 2) (outputWidth &&& 3) st)
    (fun _ st => rowStores inputData _ (outputWidth >>> 2) (outputWidth &&& 3) st) _
    (fun i _ => by rw [rowLoop_eq_31 inputData _ (loadFilter3_l3 filterData _)])
    (fun i _ => rowStores_eq_31 inputData _ outputWidth _)

/-- The stores of `DepthwiseConvKernel<3, 1>::run`, in program order, are the offsets
`0, 1, .., outputChannels * outputHeight * outputWidth - 1`. -/
theorem outputStores_eq_31 (inputData filterData outputData : Nat → α)
    (inputHeight inputWidth outputChannels outputHeight outputWidth filterMultiplier : Nat) :
    outputStores inputData filterData inputHeight inputWidth outputChannels outputHeight
        outputWidth filterMultiplier outputData =
      List.range (outputChannels * outputHeight * outputWidth) := by
  have h := loopLoads_eq_range' (fun s : ChannelState α => s.outputData)
    (outputHeight * outputWidth) outputChannels
    (channelBody inputData filterData inputHeight inputWidth outputHeight
      (outputWidth >>> 2) (outputWidth &&& 3) filterMultiplier)
    (channelStores inputData filterData inputHeight inputWidth outputHeight
      (outputWidth >>> 2) (outputWidth &&& 3) filterMultiplier)
    ⟨0, 0, outputData⟩
    (fun i _ => by rw [channelLoop_eq_31])
    (fun i _ => channelStores_eq_31 inputData filterData inputHeight inputWidth
      outputHeight outputWidth filterMultiplier i _)
  rw [List.range_eq_range', Nat.mul_assoc]
  exact h

/-- `DepthwiseConvKernel<3, 1>::run` leaves the output buffer unchanged from offset
`outputChannels * outputHeight * outputWidth` on. -/
theorem run_frame_31 (inputData filterData outputData : Nat → α)
    (inputHeight inputWidth outputChannels outputHeight outputWidth filterMultiplier : Nat)
    (idx : Nat) (hidx : outputChannels * outputHeight * outputWidth ≤ idx) :
    run inputData filterData inputHeight inputWidth outputChannels outputHeight outputWidth
        filterMultiplier outputData idx = outputData idx := by
  simp only [run, channelLoop_eq_31]
  exact fill_apply_out 0 _ _ _ idx (Or.inr (by rw [Nat.mul_assoc] at hidx; omega))

end DepthwiseConvKernel_3_1

namespace DepthwiseConvKernel_3_2

theorem remainLoop_outputData_32 (inputData : Nat → α) (k : Filter3 α) (n : Nat)
    (st : State3 α) :
    (forLoop n (fun _ st => remainStep inputData k st) st).outputData = st.outputData + n := by
  induction n with
  | zero => rfl
  | succ n ih =>
    have h : (forLoop (n + 1) (fun _ st => remainStep inputData k st) st).outputData
        = (forLoop n (fun _ st => remainStep inputData k st) st).outputData + 1 := rfl
    rw [h, ih, Nat.add_assoc]

theorem bulkStores_eq_32 (inputData : Nat → α) (k : Filter3 α) (steps : Nat)
    (st : State3 α) :
    bulkStores inputData k steps st = List.range' st.outputData (4 * steps) := by
  have h := loopLoads_eq_range' (fun s : State3 α => s.outputData) 4 steps
    (fun _ st => bulkStep inputData k st) (fun _ st => vst1q_f32_offsets st.outputData) st
    (fun i _ => by
      rw [bulkLoop_eq_32]
      simp only
      omega)
    (fun i _ => vst1q_f32_offsets_eq _)
  rw [Nat.mul_comm]
  exact h

theorem remainStores_eq_32 (inputData : Nat → α) (k : Filter3 α) (remain : Nat)
    (st : State3 α) :
    remainStores inputData k remain st = List.range' st.outputData remain := by
  have h := loopLoads_eq_range' (fun s : State3 α => s.outputData) 1 remain
    (fun _ st => remainStep inputData k st) (fun _ st => [st.outputData]) st
    (fun i _ => by
      simp only [remainLoop_outputData_32, Nat.mul_one])
    (fun i _ => rfl)
  rw [Nat.mul_one] at h
  exact h

theorem rowStores_eq_32 (inputData : Nat → α) (k : Filter3 α)
    (start inputWidth outputWidth h : Nat) (st : State3 α) :
    rowStores inputData k start inputWidth (outputWidth >>> 2) (outputWidth &&& 3) h st =
      List.range' st.outputData outputWidth := by
  have hw : 4 * (outputWidth / 4) + outputWidth % 4 = outputWidth := by omega
  simp only [rowStores, rowPointers, bulkStores_eq_32, remainStores_eq_32, bulkLoop_eq_32,
    range'_append_one, shiftRight_two, and_three, hw]

theorem channelStores_eq_32 (inputData filterData : Nat → α)
    (inputHeight inputWidth outputHeight outputWidth filterMultiplier c : Nat)
    (cs : ChannelState α) :
    channelStores inputData filterData inputHeight inputWidth outputHeight
        (outputWidth >>> 2) (outputWidth &&& 3) filterMultiplier c cs =
      List.range' cs.outputData (outputHeight * outputWidth) := by
  exact loopLoads_eq_range' (fun s : State3 α => s.outputData) outputWidth outputHeight
    (rowBody inputData _ _ inputWidth (outputWidth >>> 2) (outputWidth &&& 3))
    (rowStores inputData _ _ inputWidth (outputWidth >>> 2) (outputWidth &&& 3)) _
    (fun i _ => (rowLoop_eq_32 inputData _ (loadFilter3_l3 filterData _) _ inputWidth outputWidth i _).1)
    (fun i _ => rowStores_eq_32 inputData _ _ inputWidth outputWidth i _)

/-- The stores of `DepthwiseConvKernel<3, 2>::run`, in program order, are the offsets
`0, 1, .., outputChannels * outputHeight * outputWidth - 1`. -/
theorem outputStores_eq_32 (inputData filterData outputData : Nat → α)
    (inputHeight inputWidth outputChannels outputHeight outputWidth filterMultiplier : Nat) :
    outputStores inputData filterData inputHeight inputWidth outputChannels outputHeight
        outputWidth filterMultiplier outputData =
      List.range (outputChannels * outputHeight * outputWidth) := by
  have h := loopLoads_eq_range' (fun s : ChannelState α => s.outputData)
    (outputHeight * outputWidth) outputChannels
    (channelBody inputData filterData inputHeight inputWidth outputHeight
      (outputWidth >>> 2) (outputWidth &&& 3) filterMultiplier)
    (channelStores inputData filterData inputHeight inputWidth outputHeight
      (outputWidth >>> 2) (outputWidth &&& 3) filterMultiplier)
    ⟨0, 0, outputData⟩
    (fun i _ => by rw [channelLoop_eq_32])
    (fun i _ => channelStores_eq_32 inputData filterData inputHeight inputWidth
      outputHeight outputWidth filterMultiplier i _)
  rw [List.range_eq_range', Nat.mul_assoc]
  exact h

/-- `DepthwiseConvKernel<3, 2>::run` leaves the output buffer unchanged from offset
`outputChannels * outputHeight * outputWidth` on. -/
theorem run_frame_32 (inputData filterData outputData : Nat → α)
    (inputHeight inputWidth outputChannels outputHeight outputWidth filterMultiplier : Nat)
    (idx : Nat) (hidx : outputChannels * outputHeight * outputWidth ≤ idx) :
    run inputData filterData inputHeight inputWidth outputChannels outputHeight outputWidth
        filterMultiplier outputData idx = outputData idx := by
  simp only [run, channelLoop_eq_32]
  exact fill_apply_out 0 _ _ _ idx (Or.inr (by rw [Nat.mul_assoc] at hidx; omega))

end DepthwiseConvKernel_3_2

namespace DepthwiseConvKernel_4_1

theorem remainLoop_outputData_41 (inputData : Nat → α) (k : Filter4 α) (n : Nat)
    (st : State4 α) :
    (forLoop n (fun _ st => remainStep inputData k st) st).outputData = st.outputData + n := by
  induction n with
  | zero => rfl
  | succ n ih =>
    have h : (forLoop (n + 1) (fun _ st => remainStep inputData k st) st).outputData
        = (forLoop n (fun _ st => remainStep inputData k st) st).outputData + 1 := rfl
    rw [h, ih, Nat.add_assoc]

theorem bulkStores_eq_41 (inputData : Nat → α) (k : Filter4 α) (steps : Nat)
    (st : State4 α) :
    bulkStores inputData k steps st = List.range' st.outputData (4 * steps) := by
  have h := loopLoads_eq_range' (fun s : State4 α => s.outputData) 4 steps
    (fun _ st => bulkStep inputData k st) (fun _ st => vst1q_f32_offsets st.outputData) st
    (fun i _ => by
      rw [bulkLoop_eq_41]
      simp only
      omega)
    (fun i _ => vst1q_f32_offsets_eq _)
  rw [Nat.mul_comm]
  exact h

theorem remainStores_eq_41 (inputData : Nat → α) (k : Filter4 α) (remain : Nat)
    (st : State4 α) :
    remainStores inputData k remain st = List.range' st.outputData remain := by
  have h := loopLoads_eq_range' (fun s : State4 α => s.outputData) 1 remain
    (fun _ st => remainStep inputData k st) (fun _ st => [st.outputData]) st
    (fun i _ => by
      simp only [remainLoop_outputData_41, Nat.mul_one])
    (fun i _ => rfl)
  rw [Nat.mul_one] at h
  exact h

theorem rowStores_eq_41 (inputData : Nat → α) (k : Filter4 α) (outputWidth : Nat)
    (st : State4 α) :
    rowStores inputData k (outputWidth >>> 2) (outputWidth &&& 3) st =
      List.range' st.outputData outputWidth := by
  have hw : 4 * (outputWidth / 4) + outputWidth % 4 = outputWidth := by omega
  simp only [rowStores, bulkStores_eq_41, remainStores_eq_41, bulkLoop_eq_41,
    range'_append_one, shiftRight_two, and_three, hw]

theorem channelStores_eq_41 (inputData filterData : Nat → α)
    (inputHeight inputWidth outputHeight outputWidth filterMultiplier c : Nat)
    (cs : ChannelState α) :
    channelStores inputData filterData inputHeight inputWidth outputHeight
        (outputWidth >>> 2) (outputWidth &&& 3) filterMultiplier c cs =
      List.range' cs.outputData (outputHeight * outputWidth) := by
  exact loopLoads_eq_range' (fun s : State4 α => s.outputData) outputWidth outputHeight
    (fun _ st => rowBody inputData _ (outputWidth >>> 2) (outputWidth &&& 3) st)
    (fun _ st => rowStores inputData _ (outputWidth >>> 2) (outputWidth &&& 3) st) _
    (fun i _ => by rw [rowLoop_eq_41 inputData _])
    (fun i _ => rowStores_eq_41 inputData _ outputWidth _)

/-- The stores of `DepthwiseConvKernel<4, 1>::run`, in program order, are the offsets
`0, 1, .., outputChannels * outputHeight * outputWidth - 1`. -/
theorem outputStores_eq_41 (inputData filterData outputData : Nat → α)
    (inputHeight inputWidth outputChannels outputHeight outputWidth filterMultiplier : Nat) :
    outputStores inputData filterData inputHeight inputWidth outputChannels outputHeight
        outputWidth filterMultiplier outputData =
      List.range (outputChannels * outputHeight * outputWidth) := by
  have h := loopLoads_eq_range' (fun s : ChannelState α => s.outputData)
    (outputHeight * outputWidth) outputChannels
    (channelBody inputData filterData inputHeight inputWidth outputHeight
      (outputWidth >>> 2) (outputWidth &&& 3) filterMultiplier)
    (channelStores inputData filterData inputHeight inputWidth outputHeight
      (outputWidth >>> 2) (outputWidth &&& 3) filterMultiplier)
    ⟨0, 0, outputData⟩
    (fun i _ => by rw [channelLoop_eq_41])
    (fun i _ => channelStores_eq_41 inputData filterData inputHeight inputWidth
      outputHeight outputWidth filterMultiplier i _)
  rw [List.range_eq_range', Nat.mul_assoc]
  exact h

/-- `DepthwiseConvKernel<4, 1>::run` leaves the output buffer unchanged from offset
`outputChannels * outputHeight * outputWidth` on. -/
theorem run_frame_41 (inputData filterData outputData : Nat → α)
    (inputHeight inputWidth outputChannels outputHeight outputWidth filterMultiplier : Nat)
    (idx : Nat) (hidx : outputChannels * outputHeight * outputWidth ≤ idx) :
    run inputData filterData inputHeight inputWidth outputChannels outputHeight outputWidth
        filterMultiplier outputData idx = outputData idx := by
  simp only [run, channelLoop_eq_41]
  exact fill_apply_out 0 _ _ _ idx (Or.inr (by rw [Nat.mul_assoc] at hidx; omega))

end DepthwiseConvKernel_4_1

namespace DepthwiseConvKernel_4_2

theorem remainLoop_outputData_42 (inputData : Nat → α) (k : Filter4 α) (n : Nat)
    (st : State4 α) :
    (forLoop n (fun _ st => remainStep inputData k st) st).outputData = st.outputData + n := by
  induction n with
  | zero => rfl
  | succ n ih =>
    have h : (forLoop (n + 1) (fun _ st => remainStep inputData k st) st).outputData
        = (forLoop n (fun _ st => remainStep inputData k st) st).outputData + 1 := rfl
    rw [h, ih, Nat.add_assoc]

theorem bulkStores_eq_42 (inputData : Nat → α) (k : Filter4 α) (steps : Nat)
    (st : State4 α) :
    bulkStores inputData k steps st = List.range' st.outputData (4 * steps) := by
  have h := loopLoads_eq_range' (fun s : State4 α => s.outputData) 4 steps
    (fun _ st => bulkStep inputData k st) (fun _ st => vst1q_f32_offsets st.outputData) st
    (fun i _ => by
      rw [bulkLoop_eq_42]
      simp only
      omega)
    (fun i _ => vst1q_f32_offsets_eq _)
  rw [Nat.mul_comm]
  exact h

theorem remainStores_eq_42 (inputData : Nat → α) (k : Filter4 α) (remain : Nat)
    (st : State4 α) :
    remainStores inputData k remain st = List.range' st.outputData remain := by
  have h := loopLoads_eq_range' (fun s : State4 α => s.outputData) 1 remain
    (fun _ st => remainStep inputData k st) (fun _ st => [st.outputData]) st
    (fun i _ => by
      simp only [remainLoop_outputData_42, Nat.mul_one])
    (fun i _ => rfl)
  rw [Nat.mul_one] at h
  exact h

theorem rowStores_eq_42 (inputData : Nat → α) (k : Filter4 α)
    (start inputWidth outputWidth h : Nat) (st : State4 α) :
    rowStores inputData k start inputWidth (outputWidth >>> 2) (outputWidth &&& 3) h st =
      List.range' st.outputData outputWidth := by
  have hw : 4 * (outputWidth / 4) + outputWidth % 4 = outputWidth := by omega
  simp only [rowStores, rowPointers, bulkStores_eq_42, remainStores_eq_42, bulkLoop_eq_42,
    range'_append_one, shiftRight_two, and_three, hw]

theorem channelStores_eq_42 (inputData filterData : Nat → α)
    (inputHeight inputWidth outputHeight outputWidth filterMultiplier c : Nat)
    (cs : ChannelState α) :
    channelStores inputData filterData inputHeight inputWidth outputHeight
        (outputWidth >>> 2) (outputWidth &&& 3) filterMultiplier c cs =
      List.range' cs.outputData (outputHeight * outputWidth) := by
  exact loopLoads_eq_range' (fun s : State4 α => s.outputData) outputWidth outputHeight
    (rowBody inputData _ _ inputWidth (outputWidth >>> 2) (outputWidth &&& 3))
    (rowStores inputData _ _ inputWidth (outputWidth >>> 2) (outputWidth &&& 3)) _
    (fun i _ => (rowLoop_eq_42 inputData _ _ inputWidth outputWidth i _).1)
    (fun i _ => rowStores_eq_42 inputData _ _ inputWidth outputWidth i _)

/-- The stores of `DepthwiseConvKernel<4, 2>::run`, in program order, are the offsets
`0, 1, .., outputChannels * outputHeight * outputWidth - 1`. -/
theorem outputStores_eq_42 (inputData filterData outputData : Nat → α)
    (inputHeight inputWidth outputChannels outputHeight outputWidth filterMultiplier : Nat) :
    outputStores inputData filterData inputHeight inputWidth outputChannels outputHeight
        outputWidth filterMultiplier outputData =
      List.range (outputChannels * outputHeight * outputWidth) := by
  have h := loopLoads_eq_range' (fun s : ChannelState α => s.outputData)
    (outputHeight * outputWidth) outputChannels
    (channelBody inputData filterData inputHeight inputWidth outputHeight
      (outputWidth >>> 2) (outputWidth &&& 3) filterMultiplier)
    (channelStores inputData filterData inputHeight inputWidth outputHeight
      (outputWidth >>> 2) (outputWidth &&& 3) filterMultiplier)
    ⟨0, 0, outputData⟩
    (fun i _ => by rw [channelLoop_eq_42])
    (fun i _ => channelStores_eq_42 inputData filterData inputHeight inputWidth
      outputHeight outputWidth filterMultiplier i _)
  rw [List.range_eq_range', Nat.mul_assoc]
  exact h

/-- `DepthwiseConvKernel<4, 2>::run` leaves the output buffer unchanged from offset
`outputChannels * outputHeight * outputWidth` on. -/
theorem run_frame_42 (inputData filterData outputData : Nat → α)
    (inputHeight inputWidth outputChannels outputHeight outputWidth filterMultiplier : Nat)
    (idx : Nat) (hidx : outputChannels * outputHeight * outputWidth ≤ idx) :
    run inputData filterData inputHeight inputWidth outputChannels outputHeight outputWidth
        filterMultiplier outputData idx = outputData idx := by
  simp only [run, channelLoop_eq_42]
  exact fill_apply_out 0 _ _ _ idx (Or.inr (by rw [Nat.mul_assoc] at hidx; omega))

end DepthwiseConvKernel_4_2

/-- C11: the output is fully and only written.  For each of the four kernels and all
`outputChannels`, `outputHeight`, `outputWidth`, the stores of a call, in program
order, go to the flat output offsets `0, 1, .., outputChannels * outputHeight *
outputWidth - 1`: in increasing order, each offset exactly once, none at or beyond
`outputChannels * outputHeight * outputWidth` (also not by the 4-wide store of the
bulk pass); and every output element at a larger offset is unchanged. -/
theorem stores_are_sequential (inputData filterData outputData : Nat → α)
    (inputHeight inputWidth outputChannels outputHeight outputWidth filterMultiplier : Nat) :
    (DepthwiseConvKernel_3_1.outputStores inputData filterData inputHeight inputWidth
        outputChannels outputHeight outputWidth filterMultiplier outputData =
        List.range (outputChannels * outputHeight * outputWidth) ∧
      ∀ idx, outputChannels * outputHeight * outputWidth ≤ idx →
        DepthwiseConvKernel_3_1.run inputData filterData inputHeight inputWidth outputChannels
          outputHeight outputWidth filterMultiplier outputData idx = outputData idx) ∧
    (DepthwiseConvKernel_3_2.outputStores inputData filterData inputHeight inputWidth
        outputChannels outputHeight outputWidth filterMultiplier outputData =
        List.range (outputChannels * outputHeight * outputWidth) ∧
      ∀ idx, outputChannels * outputHeight * outputWidth ≤ idx →
        DepthwiseConvKernel_3_2.run inputData filterData inputHeight inputWidth outputChannels
          outputHeight outputWidth filterMultiplier outputData idx = outputData idx) ∧
    (DepthwiseConvKernel_4_1.outputStores inputData filterData inputHeight inputWidth
        outputChannels outputHeight outputWidth filterMultiplier outputData =
        List.range (outputChannels * outputHeight * outputWidth) ∧
      ∀ idx, outputChannels * outputHeight * outputWidth ≤ idx →
        DepthwiseConvKernel_4_1.run inputData filterData inputHeight inputWidth outputChannels
          outputHeight outputWidth filterMultiplier outputData idx = outputData idx) ∧
    (DepthwiseConvKernel_4_2.outputStores inputData filterData inputHeight inputWidth
        outputChannels outputHeight outputWidth filterMultiplier outputData =
        List.range (outputChannels * outputHeight * outputWidth) ∧
      ∀ idx, outputChannels * outputHeight * outputWidth ≤ idx →
        DepthwiseConvKernel_4_2.run inputData filterData inputHeight inputWidth outputChannels
          outputHeight outputWidth filterMultiplier outputData idx = outputData idx) :=
  ⟨⟨DepthwiseConvKernel_3_1.outputStores_eq_31 _ _ _ _ _ _ _ _ _,
      fun idx hidx => DepthwiseConvKernel_3_1.run_frame_31 _ _ _ _ _ _ _ _ _ idx hidx⟩,
   ⟨DepthwiseConvKernel_3_2.outputStores_eq_32 _ _ _ _ _ _ _ _ _,
      fun idx hidx => DepthwiseConvKernel_3_2.run_frame_32 _ _ _ _ _ _ _ _ _ idx hidx⟩,
   ⟨DepthwiseConvKernel_4_1.outputStores_eq_41 _ _ _ _ _ _ _ _ _,
      fun idx hidx => DepthwiseConvKernel_4_1.run_frame_41 _ _ _ _ _ _ _ _ _ idx hidx⟩,
   ⟨DepthwiseConvKernel_4_2.outputStores_eq_42 _ _ _ _ _ _ _ _ _,
      fun idx hidx => DepthwiseConvKernel_4_2.run_frame_42 _ _ _ _ _ _ _ _ _ idx hidx⟩⟩

/-- Witness for C11: each variant on a valid shape; the stores are `0 .. n - 1` and the
element just past the output keeps its previous value. -/
theorem stores_are_sequential_witness :
    (DepthwiseConvKernel_3_1.outputStores (fun p => (p : Int)) (fun p => (p : Int) + 1) 6 6 2 4 4 1
        (fun p => (p : Int) + 100) = List.range (2 * 4 * 4) ∧
      DepthwiseConvKernel_3_1.run (fun p => (p : Int)) (fun p => (p : Int) + 1) 6 6 2 4 4 1
        (fun p => (p : Int) + 100) 32 = (32 : Int) + 100) ∧
    (DepthwiseConvKernel_3_2.outputStores (fun p => (p : Int)) (fun p => (p : Int) + 1) 7 7 2 3 3 2
        (fun p => (p : Int) + 100) = List.range (2 * 3 * 3) ∧
      DepthwiseConvKernel_3_2.run (fun p => (p : Int)) (fun p => (p : Int) + 1) 7 7 2 3 3 2
        (fun p => (p : Int) + 100) 18 = (18 : Int) + 100) ∧
    (DepthwiseConvKernel_4_1.outputStores (fun p => (p : Int)) (fun p => (p : Int) + 1) 8 8 1 5 5 1
        (fun p => (p : Int) + 100) = List.range (1 * 5 * 5) ∧
      DepthwiseConvKernel_4_1.run (fun p => (p : Int)) (fun p => (p : Int) + 1) 8 8 1 5 5 1
        (fun p => (p : Int) + 100) 25 = (25 : Int) + 100) ∧
    (DepthwiseConvKernel_4_2.outputStores (fun p => (p : Int)) (fun p => (p : Int) + 1) 8 8 2 3 3 1
        (fun p => (p : Int) + 100) = List.range (2 * 3 * 3) ∧
      DepthwiseConvKernel_4_2.run (fun p => (p : Int)) (fun p => (p : Int) + 1) 8 8 2 3 3 1
        (fun p => (p : Int) + 100) 20 = (20 : Int) + 100) :=
  ⟨⟨(stores_are_sequential (fun p => (p : Int)) (fun p => (p : Int) + 1)
        (fun p => (p : Int) + 100) 6 6 2 4 4 1).1.1,
      (stores_are_sequential (fun p => (p : Int)) (fun p => (p : Int) + 1)
        (fun p => (p : Int) + 100) 6 6 2 4 4 1).1.2 32 (by decide)⟩,
   ⟨(stores_are_sequential (fun p => (p : Int)) (fun p => (p : Int) + 1)
        (fun p => (p : Int) + 100) 7 7 2 3 3 2).2.1.1,
      (stores_are_sequential (fun p => (p : Int)) (fun p => (p : Int) + 1)
        (fun p => (p : Int) + 100) 7 7 2 3 3 2).2.1.2 18 (by decide)⟩,
   ⟨(stores_are_sequential (fun p => (p : Int)) (fun p => (p : Int) + 1)
        (fun p => (p : Int) + 100) 8 8 1 5 5 1).2.2.1.1,
      (stores_are_sequential (fun p => (p : Int)) (fun p => (p : Int) + 1)
        (fun p => (p : Int) + 100) 8 8 1 5 5 1).2.2.1.2 25 (by decide)⟩,
   ⟨(stores_are_sequential (fun p => (p : Int)) (fun p => (p : Int) + 1)
        (fun p => (p : Int) + 100) 8 8 2 3 3 1).2.2.2.1,
      (stores_are_sequential (fun p => (p : Int)) (fun p => (p : Int) + 1)
        (fun p => (p : Int) + 100) 8 8 2 3 3 1).2.2.2.2 20 (by decide)⟩⟩

end KernelStores

/-! ## Accesses of `Padding::run` -/

section PaddingStores

variable {α : Type} [Zero α]

theorem range'_append_three (s a b c : Nat) :
    List.range' s a ++ List.range' (s + a) b ++ List.range' (s + a + b) c =
      List.range' s (a + b + c) := by
  rw [range'_append_one, Nat.add_assoc s a b, range'_append_one]

theorem zeroStores_eq (paddingWidth : Nat) (st : PaddingState α) :
    zeroStores paddingWidth st = List.range' st.dest paddingWidth := by
  have h := loopLoads_eq_range' (fun s : PaddingState α => s.dest) 1 paddingWidth
    (fun _ st => zeroStep st) (fun _ st => [st.dest]) st
    (fun i _ => by
      rw [zeroLoop_eq]
      simp only [Nat.mul_one])
    (fun i _ => rfl)
  rw [Nat.mul_one] at h
  exact h

omit [Zero α] in
theorem haloStores_eq (destWidth paddingHeight : Nat) (st : PaddingState α) :
    haloStores destWidth paddingHeight st = List.range' st.dest (destWidth * paddingHeight) := by
  unfold haloStores
  by_cases h : paddingHeight > 0
  · rw [if_pos h]
  · have h0 : paddingHeight = 0 := by omega
    subst h0
    simp

namespace Padding

theorem rowStores_eq_generic (src : Nat → α) (inputWidth paddingWidth : Nat)
    (st : PaddingState α) :
    rowStores src inputWidth paddingWidth st =
      List.range' st.dest (paddingWidth + inputWidth + paddingWidth) := by
  simp only [rowStores, zeroStores_eq, zeroLoop_eq]
  exact range'_append_three _ _ _ _

theorem rowLoads_eq_generic (inputWidth paddingWidth : Nat) (st : PaddingState α) :
    rowLoads inputWidth paddingWidth st = List.range' st.src inputWidth := by
  simp only [rowLoads, zeroLoop_eq]

theorem channelStores_eq_generic (src : Nat → α)
    (inputHeight inputWidth paddingHeight paddingWidth : Nat) (st : PaddingState α) :
    channelStores src (paddingWidth + inputWidth + paddingWidth) inputHeight inputWidth
        paddingHeight paddingWidth st =
      List.range' st.dest ((paddingWidth + inputWidth + paddingWidth) * paddingHeight
        + inputHeight * (paddingWidth + inputWidth + paddingWidth)
        + (paddingWidth + inputWidth + paddingWidth) * paddingHeight) := by
  have hrows := loopLoads_eq_range' (fun s : PaddingState α => s.dest)
    (paddingWidth + inputWidth + paddingWidth) inputHeight
    (fun _ st => rowBody src inputWidth paddingWidth st)
    (fun _ st => rowStores src inputWidth paddingWidth st)
    (haloRows (paddingWidth + inputWidth + paddingWidth) paddingHeight st)
    (fun i _ => by rw [rowLoop_eq_generic])
    (fun i _ => rowStores_eq_generic src inputWidth paddingWidth _)
  simp only [haloRows_eq] at hrows
  simp only [channelStores, haloStores_eq, haloRows_eq, hrows, rowLoop_eq_generic]
  exact range'_append_three _ _ _ _

theorem channelLoads_eq_generic (src : Nat → α)
    (destWidth inputHeight inputWidth paddingHeight paddingWidth : Nat)
    (st : PaddingState α) :
    channelLoads src destWidth inputHeight inputWidth paddingHeight paddingWidth st =
      List.range' st.src (inputHeight * inputWidth) := by
  have hrows := loopLoads_eq_range' (fun s : PaddingState α => s.src) inputWidth inputHeight
    (fun _ st => rowBody src inputWidth paddingWidth st)
    (fun _ st => rowLoads inputWidth paddingWidth st)
    (haloRows destWidth paddingHeight st)
    (fun i _ => by rw [rowLoop_eq_generic])
    (fun i _ => rowLoads_eq_generic inputWidth paddingWidth _)
  simp only [haloRows_eq] at hrows
  simp only [channelLoads, haloRows_eq, hrows]

/-- The stores of `Padding<T>::run`, in program order, are the offsets
`0, 1, .., channels * destHeight * destWidth - 1`. -/
theorem stores_eq_generic (src dest : Nat → α)
    (channels inputHeight inputWidth paddingHeight paddingWidth : Nat) :
    stores src dest channels inputHeight inputWidth paddingHeight paddingWidth =
      List.range (channels * (inputHeight + 2 * paddingHeight)
        * (inputWidth + 2 * paddingWidth)) := by
  have hdw : inputWidth + 2 * paddingWidth = paddingWidth + inputWidth + paddingWidth := by
    omega
  have hS : (inputHeight + 2 * paddingHeight) * (paddingWidth + inputWidth + paddingWidth)
      = (paddingWidth + inputWidth + paddingWidth) * paddingHeight
        + inputHeight * (paddingWidth + inputWidth + paddingWidth)
        + (paddingWidth + inputWidth + paddingWidth) * paddingHeight := by
    ring
  have h := loopLoads_eq_range' (fun s : PaddingState α => s.dest)
    ((paddingWidth + inputWidth + paddingWidth) * paddingHeight
        + inputHeight * (paddingWidth + inputWidth + paddingWidth)
        + (paddingWidth + inputWidth + paddingWidth) * paddingHeight) channels
    (fun _ st => channelBody src (paddingWidth + inputWidth + paddingWidth) inputHeight
      inputWidth paddingHeight paddingWidth st)
    (fun _ st => channelStores src (paddingWidth + inputWidth + paddingWidth) inputHeight
      inputWidth paddingHeight paddingWidth st)
    ⟨0, 0, dest⟩
    (fun i _ => by rw [channelLoop_eq_generic])
    (fun i _ => channelStores_eq_generic src inputHeight inputWidth paddingHeight
      paddingWidth _)
  rw [List.range_eq_range', Nat.mul_assoc, hdw, hS]
  simp only [stores, hdw]
  exact h

/-- The loads of `Padding<T>::run`, in program order, are the offsets
`0, 1, .., channels * inputHeight * inputWidth - 1`. -/
theorem loads_eq_generic (src dest : Nat → α)
    (channels inputHeight inputWidth paddingHeight paddingWidth : Nat) :
    loads src dest channels inputHeight inputWidth paddingHeight paddingWidth =
      List.range (channels * inputHeight * inputWidth) := by
  have hdw : inputWidth + 2 * paddingWidth = paddingWidth + inputWidth + paddingWidth := by
    omega
  have h := loopLoads_eq_range' (fun s : PaddingState α => s.src)
    (inputHeight * inputWidth) channels
    (fun _ st => channelBody src (paddingWidth + inputWidth + paddingWidth) inputHeight
      inputWidth paddingHeight paddingWidth st)
    (fun _ st => channelLoads src (paddingWidth + inputWidth + paddingWidth) inputHeight
      inputWidth paddingHeight paddingWidth st)
    ⟨0, 0, dest⟩
    (fun i _ => by rw [channelLoop_eq_generic])
    (fun i _ => channelLoads_eq_generic src _ inputHeight inputWidth paddingHeight
      paddingWidth _)
  rw [List.range_eq_range', Nat.mul_assoc]
  simp only [loads, hdw]
  exact h

/-- `Padding<T>::run` leaves `dest` unchanged from offset
`channels * destHeight * destWidth` on. -/
theorem run_frame_generic (src dest : Nat → α)
    (channels inputHeight inputWidth paddingHeight paddingWidth idx : Nat)
    (hidx : channels * (inputHeight + 2 * paddingHeight) * (inputWidth + 2 * paddingWidth)
      ≤ idx) :
    run src dest channels inputHeight inputWidth paddingHeight paddingWidth idx = dest idx := by
  have hdw : inputWidth + 2 * paddingWidth = paddingWidth + inputWidth + paddingWidth := by
    omega
  have hS : (inputHeight + 2 * paddingHeight) * (paddingWidth + inputWidth + paddingWidth)
      = (paddingWidth + inputWidth + paddingWidth) * paddingHeight
        + inputHeight * (paddingWidth + inputWidth + paddingWidth)
        + (paddingWidth + inputWidth + paddingWidth) * paddingHeight := by
    ring
  rw [Nat.mul_assoc, hdw, hS] at hidx
  rw [run_eq_generic]
  exact fill_apply_out 0 _ _ _ idx (Or.inr (by omega))

end Padding

namespace Padding_float

omit [Zero α] in
theorem copyStores_eq (src : Nat → α) (inputWidth : Nat) (st : PaddingState α) :
    copyStores src inputWidth st = List.range' st.dest inputWidth := by
  have hw : 4 * (inputWidth / 4) + inputWidth % 4 = inputWidth := by omega
  have h1 := loopLoads_eq_range' (fun s : PaddingState α => s.dest) 4 (inputWidth / 4)
    (fun _ st => copyStep src st) (fun _ st => vst1q_f32_offsets st.dest) st
    (fun i _ => by
      rw [copyLoop_eq]
      simp only
      omega)
    (fun i _ => vst1q_f32_offsets_eq _)
  have h2 := loopLoads_eq_range' (fun s : PaddingState α => s.dest) 1 (inputWidth % 4)
    (fun _ st => remainStep src st) (fun _ st => [st.dest])
    (forLoop (inputWidth / 4) (fun _ st => copyStep src st) st)
    (fun i _ => by
      rw [copyRemainLoop_eq]
      simp only [Nat.mul_one])
    (fun i _ => rfl)
  simp only [copyLoop_eq, Nat.mul_one] at h2
  simp only [Nat.mul_comm (inputWidth / 4) 4] at h1
  simp only [copyStores, shiftRight_two, and_three, copyLoop_eq, h1, h2]
  rw [range'_append_one, hw]

omit [Zero α] in
theorem copyLoads_eq (src : Nat → α) (inputWidth : Nat) (st : PaddingState α) :
    copyLoads src inputWidth st = List.range' st.src inputWidth := by
  have hw : 4 * (inputWidth / 4) + inputWidth % 4 = inputWidth := by omega
  have h1 := loopLoads_eq_range' (fun s : PaddingState α => s.src) 4 (inputWidth / 4)
    (fun _ st => copyStep src st) (fun _ st => vld1q_f32_offsets st.src) st
    (fun i _ => by
      rw [copyLoop_eq]
      simp only
      omega)
    (fun i _ => vld1q_f32_offsets_eq _)
  have h2 := loopLoads_eq_range' (fun s : PaddingState α => s.src) 1 (inputWidth % 4)
    (fun _ st => remainStep src st) (fun _ st => [st.src])
    (forLoop (inputWidth / 4) (fun _ st => copyStep src st) st)
    (fun i _ => by
      rw [copyRemainLoop_eq]
      simp only [Nat.mul_one])
    (fun i _ => rfl)
  simp only [copyLoop_eq, Nat.mul_one] at h2
  simp only [Nat.mul_comm (inputWidth / 4) 4] at h1
  simp only [copyLoads, shiftRight_two, and_three, copyLoop_eq, h1, h2]
  rw [range'_append_one, hw]

end Padding_float

/-- C13: `Padding::run` writes exactly the padded shape.  For all `channels`,
`inputHeight`, `inputWidth`, `paddingHeight`, `paddingWidth`, the call writes the
`channels * (inputHeight + 2 * paddingHeight) * (inputWidth + 2 * paddingWidth)`
consecutive elements of `dest` from offset 0 on, each exactly once, reads the first
`channels * inputHeight * inputWidth` elements of `src` and no other, and leaves every
`dest` element at a larger offset unchanged. -/
theorem padding_writes_padded_shape (src dest : Nat → α)
    (channels inputHeight inputWidth paddingHeight paddingWidth : Nat) :
    Padding.stores src dest channels inputHeight inputWidth paddingHeight paddingWidth =
      List.range (channels * (inputHeight + 2 * paddingHeight)
        * (inputWidth + 2 * paddingWidth)) ∧
    Padding.loads src dest channels inputHeight inputWidth paddingHeight paddingWidth =
      List.range (channels * inputHeight * inputWidth) ∧
    (∀ idx, channels * (inputHeight + 2 * paddingHeight) * (inputWidth + 2 * paddingWidth)
        ≤ idx →
      Padding.run src dest channels inputHeight inputWidth paddingHeight paddingWidth idx
        = dest idx) :=
  ⟨Padding.stores_eq_generic src dest channels inputHeight inputWidth paddingHeight
      paddingWidth,
   Padding.loads_eq_generic src dest channels inputHeight inputWidth paddingHeight
      paddingWidth,
   fun idx hidx => Padding.run_frame_generic src dest channels inputHeight inputWidth
      paddingHeight paddingWidth idx hidx⟩

/-- Witness for C13: two channels of a 2x3 input padded by 1 row and 2 columns on each
side; 56 stores, 12 loads, and the element at offset 56 keeps its value. -/
theorem padding_writes_padded_shape_witness :
    Padding.stores (fun p => (p : Int)) (fun p => (p : Int) + 100) 2 2 3 1 2 =
      List.range (2 * (2 + 2 * 1) * (3 + 2 * 2)) ∧
    Padding.loads (fun p => (p : Int)) (fun p => (p : Int) + 100) 2 2 3 1 2 =
      List.range (2 * 2 * 3) ∧
    Padding.run (fun p => (p : Int)) (fun p => (p : Int) + 100) 2 2 3 1 2 56 = (56 : Int) + 100 :=
  ⟨(padding_writes_padded_shape (fun p => (p : Int)) (fun p => (p : Int) + 100) 2 2 3 1 2).1,
   (padding_writes_padded_shape (fun p => (p : Int)) (fun p => (p : Int) + 100) 2 2 3 1 2).2.1,
   (padding_writes_padded_shape (fun p => (p : Int)) (fun p => (p : Int) + 100) 2 2 3 1 2).2.2
      56 (by decide)⟩

end PaddingStores

/-! ## Bulk and remainder passes partition a row -/

section Partition

variable {α : Type} [CommSemiring α]

/-- C16: the bulk and remainder passes partition each output row.  With
`steps = outputWidth >> 2` and `remain = outputWidth & 3`, `4 * steps + remain =
outputWidth` and `remain < 4`; in every kernel the bulk loop of a row stores the
columns `0 .. 4 * steps - 1` of the row (the offsets from the output pointer on), the
remainder loop the columns `4 * steps .. outputWidth - 1`, so the row loop body stores
every column of the row exactly once.  With `step = inputWidth >> 2` and
`remain = inputWidth & 3` the two copy loops of `Padding<float>::run` read and write
exactly `inputWidth` consecutive elements per row. -/
theorem bulk_and_remainder_partition (inputData src : Nat → α) (k3 : Filter3 α)
    (k4 : Filter4 α) (outputWidth inputWidth start h : Nat) (st3 : State3 α)
    (st4 : State4 α) (pst : PaddingState α) :
    (4 * (outputWidth >>> 2) + (outputWidth &&& 3) = outputWidth ∧ (outputWidth &&& 3) < 4) ∧
    (DepthwiseConvKernel_3_1.bulkStores inputData k3 (outputWidth >>> 2) st3 =
        List.range' st3.outputData (4 * (outputWidth >>> 2)) ∧
      DepthwiseConvKernel_3_1.remainStores inputData k3 (outputWidth &&& 3)
          (forLoop (outputWidth >>> 2) (fun _ st => DepthwiseConvKernel_3_1.bulkStep inputData k3 st)
            st3) =
        List.range' (st3.outputData + 4 * (outputWidth >>> 2)) (outputWidth &&& 3) ∧
      DepthwiseConvKernel_3_1.rowStores inputData k3 (outputWidth >>> 2) (outputWidth &&& 3) st3 =
        List.range' st3.outputData outputWidth) ∧
    (DepthwiseConvKernel_3_2.bulkStores inputData k3 (outputWidth >>> 2) st3 =
        List.range' st3.outputData (4 * (outputWidth >>> 2)) ∧
      DepthwiseConvKernel_3_2.remainStores inputData k3 (outputWidth &&& 3)
          (forLoop (outputWidth >>> 2) (fun _ st => DepthwiseConvKernel_3_2.bulkStep inputData k3 st)
            st3) =
        List.range' (st3.outputData + 4 * (outputWidth >>> 2)) (outputWidth &&& 3) ∧
      DepthwiseConvKernel_3_2.rowStores inputData k3 start inputWidth (outputWidth >>> 2) (outputWidth &&& 3)
          h st3 =
        List.range' st3.outputData outputWidth) ∧
    (DepthwiseConvKernel_4_1.bulkStores inputData k4 (outputWidth >>> 2) st4 =
        List.range' st4.outputData (4 * (outputWidth >>> 2)) ∧
      DepthwiseConvKernel_4_1.remainStores inputData k4 (outputWidth &&& 3)
          (forLoop (outputWidth >>> 2) (fun _ st => DepthwiseConvKernel_4_1.bulkStep inputData k4 st)
            st4) =
        List.range' (st4.outputData + 4 * (outputWidth >>> 2)) (outputWidth &&& 3) ∧
      DepthwiseConvKernel_4_1.rowStores inputData k4 (outputWidth >>> 2) (outputWidth &&& 3) st4 =
        List.range' st4.outputData outputWidth) ∧
    (DepthwiseConvKernel_4_2.bulkStores inputData k4 (outputWidth >>> 2) st4 =
        List.range' st4.outputData (4 * (outputWidth >>> 2)) ∧
      DepthwiseConvKernel_4_2.remainStores inputData k4 (outputWidth &&& 3)
          (forLoop (outputWidth >>> 2) (fun _ st => DepthwiseConvKernel_4_2.bulkStep inputData k4 st)
            st4) =
        List.range' (st4.outputData + 4 * (outputWidth >>> 2)) (outputWidth &&& 3) ∧
      DepthwiseConvKernel_4_2.rowStores inputData k4 start inputWidth (outputWidth >>> 2) (outputWidth &&& 3)
          h st4 =
        List.range' st4.outputData outputWidth) ∧
    (4 * (inputWidth >>> 2) + (inputWidth &&& 3) = inputWidth ∧ (inputWidth &&& 3) < 4 ∧
      Padding_float.copyLoads src inputWidth pst = List.range' pst.src inputWidth ∧
      Padding_float.copyStores src inputWidth pst = List.range' pst.dest inputWidth) := by
  refine ⟨?_, ?_, ?_, ?_, ?_, ?_⟩
  · rw [shiftRight_two, and_three]
    omega
  · refine ⟨DepthwiseConvKernel_3_1.bulkStores_eq_31 _ _ _ _, ?_, DepthwiseConvKernel_3_1.rowStores_eq_31 inputData k3 outputWidth st3⟩
    rw [DepthwiseConvKernel_3_1.remainStores_eq_31, DepthwiseConvKernel_3_1.bulkLoop_eq_31]
  · refine ⟨DepthwiseConvKernel_3_2.bulkStores_eq_32 _ _ _ _, ?_, DepthwiseConvKernel_3_2.rowStores_eq_32 inputData k3 start inputWidth outputWidth h st3⟩
    rw [DepthwiseConvKernel_3_2.remainStores_eq_32, DepthwiseConvKernel_3_2.bulkLoop_eq_32]
  · refine ⟨DepthwiseConvKernel_4_1.bulkStores_eq_41 _ _ _ _, ?_, DepthwiseConvKernel_4_1.rowStores_eq_41 inputData k4 outputWidth st4⟩
    rw [DepthwiseConvKernel_4_1.remainStores_eq_41, DepthwiseConvKernel_4_1.bulkLoop_eq_41]
  · refine ⟨DepthwiseConvKernel_4_2.bulkStores_eq_42 _ _ _ _, ?_, DepthwiseConvKernel_4_2.rowStores_eq_42 inputData k4 start inputWidth outputWidth h st4⟩
    rw [DepthwiseConvKernel_4_2.remainStores_eq_42, DepthwiseConvKernel_4_2.bulkLoop_eq_42]
  · refine ⟨?_, ?_, Padding_float.copyLoads_eq src inputWidth pst,
      Padding_float.copyStores_eq src inputWidth pst⟩
    · rw [shiftRight_two, and_three]
      omega
    · rw [and_three]
      omega

end Partition

/-! ## Row starts are states of `run` -/

section RowStartTies

variable {α : Type} [Zero α] [Add α] [Mul α]

namespace DepthwiseConvKernel_3_1

/-- The state at the start of row `h + 1` is the row loop body applied to the state at
the start of row `h`. -/
theorem rowStart_succ_31 (inputData filterData outputData : Nat → α)
    (inputHeight inputWidth outputHeight outputWidth filterMultiplier c h : Nat) :
    rowStart inputData filterData inputHeight inputWidth outputHeight outputWidth
        filterMultiplier outputData c (h + 1) =
      rowBody inputData
        (loadFilter3 filterData (forLoop c
          (channelBody inputData filterData inputHeight inputWidth outputHeight
            (outputWidth >>> 2) (outputWidth &&& 3) filterMultiplier)
          ⟨0, 0, outputData⟩).filterData)
        (outputWidth >>> 2) (outputWidth &&& 3)
        (rowStart inputData filterData inputHeight inputWidth outputHeight outputWidth
          filterMultiplier outputData c h) := rfl

end DepthwiseConvKernel_3_1

namespace DepthwiseConvKernel_3_2

/-- The row loop body assigns the row pointers, then runs the two column loops. -/
theorem rowBody_eq_columns_32 (inputData : Nat → α) (k : Filter3 α)
    (start inputWidth steps remain h : Nat) (st : State3 α) :
    rowBody inputData k start inputWidth steps remain h st =
      forLoop remain (fun _ st => remainStep inputData k st)
        (forLoop steps (fun _ st => bulkStep inputData k st)
          (rowPointers start inputWidth h st)) := rfl

end DepthwiseConvKernel_3_2

namespace DepthwiseConvKernel_4_1

/-- The state at the start of row `h + 1` is the row loop body applied to the state at
the start of row `h`. -/
theorem rowStart_succ_41 (inputData filterData outputData : Nat → α)
    (inputHeight inputWidth outputHeight outputWidth filterMultiplier c h : Nat) :
    rowStart inputData filterData inputHeight inputWidth outputHeight outputWidth
        filterMultiplier outputData c (h + 1) =
      rowBody inputData
        (loadFilter4 filterData (forLoop c
          (channelBody inputData filterData inputHeight inputWidth outputHeight
            (outputWidth >>> 2) (outputWidth &&& 3) filterMultiplier)
          ⟨0, 0, outputData⟩).filterData)
        (outputWidth >>> 2) (outputWidth &&& 3)
        (rowStart inputData filterData inputHeight inputWidth outputHeight outputWidth
          filterMultiplier outputData c h) := rfl

end DepthwiseConvKernel_4_1

namespace DepthwiseConvKernel_4_2

/-- The row loop body assigns the row pointers, then runs the two column loops. -/
theorem rowBody_eq_columns_42 (inputData : Nat → α) (k : Filter4 α)
    (start inputWidth steps remain h : Nat) (st : State4 α) :
    rowBody inputData k start inputWidth steps remain h st =
      forLoop remain (fun _ st => remainStep inputData k st)
        (forLoop steps (fun _ st => bulkStep inputData k st)
          (rowPointers start inputWidth h st)) := rfl

end DepthwiseConvKernel_4_2

end RowStartTies

/-! ## Instances of the relational statements -/

/-- Witness for C19: a 7x7 input for filter size 3 and an 8x8 input for filter size 4,
one channel; an element of the stride-2 output against the stride-1 output. -/
theorem stride2_subsamples_stride1_witness :
    DepthwiseConvKernel_3_2.run (fun p => (p : Int)) (fun p => (p : Int) + 1) 7 7 1 3 3 1
        (fun _ => 0) (0 * 3 * 3 + 1 * 3 + 2) =
      DepthwiseConvKernel_3_1.run (fun p => (p : Int)) (fun p => (p : Int) + 1) 7 7 1 5 5 1
        (fun _ => 0) (0 * 5 * 5 + (2 * 1) * 5 + 2 * 2) ∧
    DepthwiseConvKernel_4_2.run (fun p => (p : Int)) (fun p => (p : Int) + 1) 8 8 1 3 3 1
        (fun _ => 0) (0 * 3 * 3 + 1 * 3 + 2) =
      DepthwiseConvKernel_4_1.run (fun p => (p : Int)) (fun p => (p : Int) + 1) 8 8 1 5 5 1
        (fun _ => 0) (0 * 5 * 5 + (2 * 1) * 5 + 2 * 2) :=
  ⟨(stride2_subsamples_stride1 (fun p => (p : Int)) (fun p => (p : Int) + 1) (fun _ => 0)
      (fun _ => 0) 7 7 1 1 5 5 3 3 0 1 2).1 (by decide) (by decide) (by decide) (by decide)
      (by decide) (by decide) (by decide),
   (stride2_subsamples_stride1 (fun p => (p : Int)) (fun p => (p : Int) + 1) (fun _ => 0)
      (fun _ => 0) 8 8 1 1 5 5 3 3 0 1 2).2 (by decide) (by decide) (by decide) (by decide)
      (by decide) (by decide) (by decide)⟩

/-- Witness for C18: output channel 1; changing lane 3 of the three rows and the
filter coefficient at offset `9 * 1 + 9` does not change `conv3x3`. -/
theorem conv3x3_ignores_lane3_witness :
    conv3x3 (⟨1, 2, 3, 70⟩ : float32x4_t Int) ⟨4, 5, 6, 80⟩ ⟨7, 8, 9, 90⟩
        (loadFilter3 (fun p => if p = 18 then 1000 else (p : Int)) (9 * 1)).k0
        (loadFilter3 (fun p => if p = 18 then 1000 else (p : Int)) (9 * 1)).k1
        (loadFilter3 (fun p => if p = 18 then 1000 else (p : Int)) (9 * 1)).k2 =
      conv3x3 (⟨1, 2, 3, 0⟩ : float32x4_t Int) ⟨4, 5, 6, 0⟩ ⟨7, 8, 9, 0⟩
        (loadFilter3 (fun p => (p : Int)) (9 * 1)).k0
        (loadFilter3 (fun p => (p : Int)) (9 * 1)).k1
        (loadFilter3 (fun p => (p : Int)) (9 * 1)).k2 :=
  (conv3x3_ignores_lane3 (fun p => (p : Int)) 1
    (fun i => if i = 0 then ⟨1, 2, 3, 0⟩ else if i = 1 then ⟨4, 5, 6, 0⟩
      else ⟨7, 8, 9, 0⟩)).2.2
    (fun i => if i = 0 then ⟨1, 2, 3, 70⟩ else if i = 1 then ⟨4, 5, 6, 80⟩
      else ⟨7, 8, 9, 90⟩)
    (fun p => if p = 18 then 1000 else (p : Int))
    (by decide)
    (fun q hq => by
      have h2 : ¬ (9 * 1 + q = 18) := by omega
      simp only [h2, if_false])

/-! ## Scenarios of the specification, evaluated -/

/-- Scenario A: a 6x6 input of ones and a 3x3 filter of ones, stride 1; an interior
element of the 4x4 output is 9. -/
theorem scenario_A : DepthwiseConvKernel_3_1.run (fun _ => (1 : Int)) (fun _ => 1) 6 6 1 4 4 1
    (fun _ => 0) 5 = 9 := by decide

/-- Scenario B: the same input with stride 2; an element of the 2x2 output is 9. -/
theorem scenario_B : DepthwiseConvKernel_3_2.run (fun _ => (1 : Int)) (fun _ => 1) 6 6 1 2 2 1
    (fun _ => 0) 3 = 9 := by decide

/-- Scenario C: an 8x8 input of ones and a 4x4 filter of ones, stride 1; the last
element of the 5x5 output is 16. -/
theorem scenario_C : DepthwiseConvKernel_4_1.run (fun _ => (1 : Int)) (fun _ => 1) 8 8 1 5 5 1
    (fun _ => 0) 24 = 16 := by decide

/-- Scenario D: a 2x2 input of fives padded by one on every side; the 4x4 result is a
ring of zeros around the block of fives. -/
theorem scenario_D :
    (List.range 16).map (Padding.run (fun _ => (5 : Int)) (fun _ => 7) 1 2 2 1 1) =
      [0, 0, 0, 0, 0, 5, 5, 0, 0, 5, 5, 0, 0, 0, 0, 0] := by decide

end paddle.neon
